import Mathlib

/-!
RAPI (read aligner API), BWA-MEM back end: embedding and verified properties.

Shallow embedding of `src/include/rapi.h` and `src/rapi_bwa/rapi_bwa.c`.

Conventions of the embedding.

* A C string (`char*`, NUL terminated) is the list of its characters before the
  terminator; a `kstring_t` output buffer is the list of characters written so far, and
  every `kput*` call returns the extended buffer.
* An array with its separate element count (`cigar_ops` / `n_cigar_ops`,
  `alignments` / `n_alignments`, `seq` / `length`) keeps both fields, as the structs do.
* Unsigned fields are `Nat`, signed ones `Int`; where the source narrows a value into a
  `uint8_t` field the reduction modulo 256 is written out.
* Arithmetic on `int`, `long` and `int64_t` values is exact integer arithmetic:
  positions are bounded by the reference length and scores by the read length, far
  from the limits of their types.
* A call that ends in `err_fatal` / `abort` yields `none`.
* A nullable pointer is an `Option`; pointer comparison compares addresses.
* Heap allocation is taken to succeed where the source merely reports its failure.
* The routines of BWA that the source declares `extern` (`mem_reg2aln`, `mem_pair`,
  `mem_matesw`, ...) are the fields of a `bwa_services` record passed to the functions
  that call them.
-/

namespace Rapi

set_option maxRecDepth 20000

/-! ## Error codes and value kinds (`rapi.h`, lines 14-38) -/

def RAPI_NO_ERROR : Int := 0
def RAPI_GENERIC_ERROR : Int := -1
def RAPI_OP_NOT_SUPPORTED_ERROR : Int := -2
def RAPI_MEMORY_ERROR : Int := -30
def RAPI_PARAM_ERROR : Int := -40
def RAPI_TYPE_ERROR : Int := -50

def RAPI_VTYPE_CHAR : Nat := 1
def RAPI_VTYPE_TEXT : Nat := 2
def RAPI_VTYPE_INT : Nat := 3
def RAPI_VTYPE_REAL : Nat := 4

def RAPI_MAX_TAG_LEN : Nat := 6

/-! ## Output buffer primitives (klib `kstring.h`, used by the encoder) -/

/-- Contents of a `kstring_t`. -/
abbrev kstring := List Char

/-- The NUL character that terminates C strings. -/
def NUL : Char := Char.ofNat 0

/-- Modelled from the spec: `kputc` of klib (`kstring.h` is not under src/) appends one
character to the buffer. -/
def kputc (c : Char) (s : kstring) : kstring := s ++ [c]

/-- Modelled from the spec: `kputs` of klib appends a NUL-terminated string. -/
def kputs (p : List Char) (s : kstring) : kstring := s ++ p

/-- The first `l` bytes found at a C string: its characters, then the terminator. -/
def c_bytes (p : List Char) (l : Nat) : List Char :=
  (List.range l).map (fun i => p.getD i NUL)

/-- Modelled from the spec: `kputsn` of klib appends the `l` bytes found at `p`. -/
def kputsn (p : List Char) (l : Nat) (s : kstring) : kstring := s ++ c_bytes p l

/-- Decimal rendering of a signed integer, with a leading minus sign when negative. -/
def decimal (c : Int) : List Char :=
  if c < 0 then '-' :: Nat.toDigits 10 c.natAbs else Nat.toDigits 10 c.toNat

/-- Modelled from the spec: `kputw` of klib appends the decimal rendering of an `int`. -/
def kputw (c : Int) (s : kstring) : kstring := s ++ decimal c

/-- Modelled from the spec: `kputl` of klib appends the decimal rendering of a `long`. -/
def kputl (c : Int) (s : kstring) : kstring := s ++ decimal c

/-- The values `f begin, f (begin+1), ..., f (end-1)` visited by
`for (i = begin; i < end; ++i)`. -/
def loop_up (lo hi : Int) (f : Int → α) : List α :=
  (List.range (hi - lo).toNat).map (fun (k : Nat) => f (lo + (k : Int)))

/-- The values `f start, f (start-1), ..., f stop` visited by
`for (i = start; i >= stop; --i)`. -/
def loop_down (start stop : Int) (f : Int → α) : List α :=
  (List.range (start - stop + 1).toNat).map (fun (k : Nat) => f (start - (k : Int)))

/-- Element `i` of a C string read through a signed index. -/
def char_at (p : List Char) (i : Int) : Char := p.getD i.toNat NUL

/-! ## Data model (`rapi.h`, lines 104-244) -/

/-- An IEEE-754 double held in a value box, kept as its 64-bit pattern. -/
structure c_double where
  bits : Nat
deriving DecidableEq

/-- The `value` union of `rapi_param` / `rapi_tag`, one view per member. -/
structure rapi_value where
  character : Char
  text : List Char
  integer : Int
  real : c_double
deriving DecidableEq

/-- Struct `rapi_tag`: key (at most 6 characters), kind code and value. -/
structure rapi_tag where
  key : List Char
  type : Nat
  value : rapi_value
deriving DecidableEq

/-- Struct `rapi_contig`. -/
structure rapi_contig where
  name : List Char
  len : Nat
deriving DecidableEq

/-- A non-null `rapi_contig*`: the address and the contig found there. -/
structure contig_ptr where
  addr : Nat
  target : rapi_contig
deriving DecidableEq

/-- Struct `rapi_cigar`: `op:4, len:28`. -/
structure rapi_cigar where
  op : Nat
  len : Nat
deriving DecidableEq

/-- Struct `rapi_alignment`. -/
structure rapi_alignment where
  contig : Option contig_ptr
  pos : Nat
  mapq : Nat
  score : Int
  paired : Bool
  prop_paired : Bool
  mapped : Bool
  reverse_strand : Bool
  secondary_aln : Bool
  n_mismatches : Nat
  n_gap_opens : Nat
  n_gap_extensions : Nat
  cigar_ops : List rapi_cigar
  n_cigar_ops : Nat
  tags : List rapi_tag
deriving DecidableEq

/-- Struct `rapi_read`; `id`, `seq` are `none` while the slot is zeroed. -/
structure rapi_read where
  id : Option (List Char)
  seq : Option (List Char)
  qual : Option (List Char)
  length : Nat
  alignments : List rapi_alignment
  n_alignments : Nat
deriving DecidableEq

/-- Struct `rapi_batch`. -/
structure rapi_batch where
  n_frags : Int
  n_reads_frag : Int
  reads : List rapi_read
deriving DecidableEq

/-- An alignment after `memset(&aln, 0, sizeof(aln))` / `calloc`. -/
def zero_alignment : rapi_alignment :=
  { contig := none, pos := 0, mapq := 0, score := 0,
    paired := false, prop_paired := false, mapped := false,
    reverse_strand := false, secondary_aln := false,
    n_mismatches := 0, n_gap_opens := 0, n_gap_extensions := 0,
    cigar_ops := [], n_cigar_ops := 0, tags := [] }

/-- A read slot after `calloc` / `memset 0`. -/
def zero_read : rapi_read :=
  { id := none, seq := none, qual := none, length := 0, alignments := [], n_alignments := 0 }

/-- Pointer comparison `a == b` of two `rapi_contig*`. -/
def contig_eq (a b : Option contig_ptr) : Bool :=
  a.map (fun p => p.addr) == b.map (fun p => p.addr)

/-! ## CIGAR helpers (`rapi.h` 295-304, `rapi_bwa.c` 571-583) -/

/-- Element `k` of a CIGAR array. -/
def cigar_at (ops : List rapi_cigar) (k : Nat) : rapi_cigar := ops.getD k ⟨0, 0⟩

/-- The value a C `int` holds after the arithmetic result `x` is stored in it: `x`
reduced modulo 2^32 into the range -2^31 .. 2^31 - 1. -/
def wrap_int (x : Int) : Int := (x + 2 ^ 31) % 2 ^ 32 - 2 ^ 31

/-- Reference span of a CIGAR (`rapi.h` 295-304). The accumulator `len` is a C `int`:
every `len += cigar_ops[k].len` is reduced into the range of `int`. -/
def rapi_get_rlen (n_cigar : Nat) (cigar_ops : List rapi_cigar) : Int :=
  (List.range n_cigar).foldl
    (fun len k =>
      let op := (cigar_at cigar_ops k).op
      if op == 0 || op == 2 then wrap_int (len + ((cigar_at cigar_ops k).len : Int)) else len)
    0

/-- The string literal `"MIDSH"` indexed at `c`. -/
def MIDSH (c : Nat) : Char := ['M', 'I', 'D', 'S', 'H'].getD c NUL

/-- CIGAR renderer (`rapi_bwa.c` 571-583). -/
def rapi_put_cigar (n_ops : Nat) (ops : List rapi_cigar) (force_hard_clip : Bool)
    (output : kstring) : kstring :=
  if n_ops > 0 then
    (List.range n_ops).foldl
      (fun out i =>
        let c := (cigar_at ops i).op
        let c := if c == 3 || c == 4 then (if force_hard_clip then 4 else 3) else c
        let out := kputw ((cigar_at ops i).len : Int) out
        kputc (MIDSH c) out)
      output
  else
    kputc '*' output

/-! ## Insert size (`rapi_bwa.c` 585-599) -/

/-- Insert size of a pair; `none` when the source ends in `err_fatal`. -/
def rapi_get_insert_size (read mate : rapi_alignment) : Option Int :=
  if read.mapped && mate.mapped && contig_eq read.contig mate.contig then
    if mate.n_cigar_ops == 0 || read.n_cigar_ops == 0 then
      none
    else
      let p0 : Int := (read.pos : Int) +
        (if read.reverse_strand then rapi_get_rlen read.n_cigar_ops read.cigar_ops - 1 else 0)
      let p1 : Int := (mate.pos : Int) +
        (if mate.reverse_strand then rapi_get_rlen mate.n_cigar_ops mate.cigar_ops - 1 else 0)
      some (-(p0 - p1 + (if p0 > p1 then 1 else if p0 < p1 then -1 else 0)))
  else
    some 0

/-! ## Value boxes and tag formatting (`rapi.h` 74-156, `rapi_bwa.c` 17-90) -/

/-- Macro `KV_GET_IMPL` at `rapi_tag_get_char`: `value` is the caller's cell, returned
together with the error code. -/
def rapi_tag_get_char (kv : rapi_tag) (value : Char) : Int × Char :=
  if kv.type == RAPI_VTYPE_CHAR then (RAPI_NO_ERROR, kv.value.character)
  else (RAPI_TYPE_ERROR, value)

/-- Getter `rapi_tag_get_text` (`rapi.h` 145-152). -/
def rapi_tag_get_text (kv : rapi_tag) (value : List Char) : Int × List Char :=
  if kv.type == RAPI_VTYPE_TEXT then (RAPI_NO_ERROR, kv.value.text)
  else (RAPI_TYPE_ERROR, value)

/-- Macro `KV_GET_IMPL` at `rapi_tag_get_long`. -/
def rapi_tag_get_long (kv : rapi_tag) (value : Int) : Int × Int :=
  if kv.type == RAPI_VTYPE_INT then (RAPI_NO_ERROR, kv.value.integer)
  else (RAPI_TYPE_ERROR, value)

/-- Macro `KV_GET_IMPL` at `rapi_tag_get_dbl`. -/
def rapi_tag_get_dbl (kv : rapi_tag) (value : c_double) : Int × c_double :=
  if kv.type == RAPI_VTYPE_REAL then (RAPI_NO_ERROR, kv.value.real)
  else (RAPI_TYPE_ERROR, value)

/-- Table `vtype_char` (`rapi_bwa.c` 17-23). -/
def vtype_char (t : Nat) : Char := ['0', 'A', 'Z', 'i', 'f'].getD t NUL

/-- Six decimal digits of `n < 10^6`, zero padded. -/
def pad6 (n : Nat) : List Char :=
  let ds := Nat.toDigits 10 n
  List.replicate (6 - ds.length) '0' ++ ds

/-- Modelled from the spec: the libc rendering `%f` of a double (fixed-point formatting,
six fractional digits, exact value rounded half to even). -/
def printf_f (d : c_double) : List Char :=
  let sign := d.bits / 2 ^ 63 % 2
  let e := d.bits / 2 ^ 52 % 2048
  let m := d.bits % 2 ^ 52
  let pre : List Char := if sign == 1 then ['-'] else []
  if e == 2047 then
    pre ++ (if m == 0 then ['i', 'n', 'f'] else ['n', 'a', 'n'])
  else
    let mant := if e == 0 then m else m + 2 ^ 52
    let ex := if e == 0 then 1 else e
    let num := mant * 10 ^ 6 * 2 ^ (ex - 1075)
    let den := 2 ^ (1075 - ex)
    let q := num / den
    let r := num % den
    let q := if 2 * r > den || (2 * r == den && q % 2 == 1) then q + 1 else q
    pre ++ Nat.toDigits 10 (q / 10 ^ 6) ++ ['.'] ++ pad6 (q % 10 ^ 6)

/-- Tag formatter (`rapi_bwa.c` 47-90); `none` is the `err_fatal` of the default case. -/
def rapi_format_tag (tag : rapi_tag) (str : kstring) : Option (Int × kstring) :=
  let str := kputs tag.key str
  let str := kputc ':' str
  let str := kputc (vtype_char tag.type) str
  let str := kputc ':' str
  if tag.type == RAPI_VTYPE_CHAR then
    let (error, c) := rapi_tag_get_char tag NUL
    if error != 0 then some (RAPI_TYPE_ERROR, str) else some (error, kputc c str)
  else if tag.type == RAPI_VTYPE_TEXT then
    let (error, s) := rapi_tag_get_text tag []
    if error != 0 then some (RAPI_TYPE_ERROR, str) else some (error, kputsn s s.length str)
  else if tag.type == RAPI_VTYPE_INT then
    let (error, i) := rapi_tag_get_long tag 0
    if error != 0 then some (RAPI_TYPE_ERROR, str) else some (error, kputl i str)
  else if tag.type == RAPI_VTYPE_REAL then
    let (error, d) := rapi_tag_get_dbl tag ⟨0⟩
    if error != 0 then some (RAPI_TYPE_ERROR, str) else some (error, str ++ printf_f d)
  else
    none

/-! ## SAM record encoder (`rapi_bwa.c` 97-258) -/

/-- Modelled from the spec: table `nst_nt4_table` of BWA (`bntseq.c` is not under src/)
sends `A`, `C`, `G`, `T` to 0, 1, 2, 3 and every other base to 4. -/
def nst_nt4_table (c : Char) : Nat :=
  if c == 'A' then 0 else if c == 'C' then 1 else if c == 'G' then 2
  else if c == 'T' then 3 else 4

/-- The string literal `"TGCAN"` indexed at `c`. -/
def TGCAN (c : Nat) : Char := ['T', 'G', 'C', 'A', 'N'].getD c NUL

/-- Lines 100-110: the copy of the first alignment, or a zeroed one. -/
def sam_first_alignment (read : Option rapi_read) : rapi_alignment :=
  match read with
  | some r => if r.n_alignments > 0 then r.alignments.headD zero_alignment else zero_alignment
  | none => zero_alignment

/-- Lines 100-129: the two temporaries `(aln, mate_aln)` after the `paired` marking and
the coordinate backfill. -/
def sam_resolve (read : rapi_read) (mate : Option rapi_read) :
    rapi_alignment × rapi_alignment :=
  let tmp_read := sam_first_alignment (some read)
  let tmp_mate := sam_first_alignment mate
  let tmp_read := if mate.isSome then { tmp_read with paired := true } else tmp_read
  let tmp_mate := if mate.isSome then { tmp_mate with paired := true } else tmp_mate
  if !tmp_read.mapped && mate.isSome && tmp_mate.mapped then
    ({ tmp_read with contig := tmp_mate.contig, pos := tmp_mate.pos,
                     reverse_strand := tmp_mate.reverse_strand }, tmp_mate)
  else if tmp_read.mapped && mate.isSome && !tmp_mate.mapped then
    (tmp_read, { tmp_mate with contig := tmp_read.contig, pos := tmp_read.pos,
                               reverse_strand := tmp_read.reverse_strand })
  else
    (tmp_read, tmp_mate)

/-- Lines 131-148: the flag word. -/
def sam_flag (mate : Option rapi_read) (aln mate_aln : rapi_alignment) : Nat :=
  let flag := 0
  let flag := flag ||| (if mate.isSome && !mate_aln.mapped then 0x8 else 0)
  let flag := flag |||
    (if mate.isSome && mate_aln.mapped && mate_aln.reverse_strand then 0x20 else 0)
  let flag := flag ||| (if aln.paired then 0x1 else 0)
  let flag := flag ||| (if aln.mapped then 0 else 0x4)
  if aln.mapped then
    let flag := flag ||| (if aln.prop_paired then 0x2 else 0)
    let flag := flag ||| (if aln.reverse_strand then 0x10 else 0)
    flag ||| (if aln.secondary_aln then 0x100 else 0)
  else
    flag

/-- Lines 153-165: RNAME, POS, MAPQ, CIGAR and the tab after them. -/
def sam_put_coords (aln : rapi_alignment) (output : kstring) : kstring :=
  let output :=
    match aln.contig with
    | some c =>
      let output := kputc '\t' (kputs c.target.name output)
      let output := kputc '\t' (kputl (aln.pos : Int) output)
      let output := kputc '\t' (kputw (aln.mapq : Int) output)
      rapi_put_cigar aln.n_cigar_ops aln.cigar_ops false output
    | none => kputsn ['*', '\t', '0', '\t', '0', '\t', '*'] 7 output
  kputc '\t' output

/-- Lines 167-183: mate contig, mate position, insert size and the tab after them. -/
def sam_put_mate (aln mate_aln : rapi_alignment) (output : kstring) : Option kstring :=
  let r : Option kstring :=
    match mate_aln.contig with
    | some mc =>
      let output :=
        if contig_eq aln.contig mate_aln.contig then kputc '=' output
        else kputs mc.target.name output
      let output := kputc '\t' output
      let output := kputc '\t' (kputl (mate_aln.pos : Int) output)
      if aln.mapped && contig_eq aln.contig mate_aln.contig then
        (rapi_get_insert_size aln mate_aln).map (fun isize => kputl isize output)
      else
        some (kputc '0' output)
    | none => some (kputsn ['*', '\t', '0', '\t', '0'] 5 output)
  r.map (fun output => kputc '\t' output)

/-- Lines 185-218: SEQ and QUAL; `none` when the read has no sequence to print. -/
def sam_put_seq_qual (read : rapi_read) (aln : rapi_alignment) (output : kstring) :
    Option kstring :=
  if aln.secondary_aln then
    some (kputsn ['*', '\t', '*'] 3 output)
  else
    match read.seq with
    | none => none
    | some seq =>
      let qbegin : Int := 0
      let qend : Int := (read.length : Int)
      if !aln.reverse_strand then
        let output := kputsn seq read.length output
        let output := kputc '\t' output
        match read.qual with
        | some qual => some (output ++ loop_up qbegin qend (fun i => char_at qual i))
        | none => some (kputc '*' output)
      else
        let output := output ++
          loop_down (qbegin - 1) qbegin (fun i => TGCAN (nst_nt4_table (char_at seq i)))
        let output := kputc '\t' output
        match read.qual with
        | some qual => some (output ++ loop_down (qbegin - 1) qbegin (fun i => char_at qual i))
        | none => some (kputc '*' output)

/-- Lines 230-233: the loop over the attached tags, carrying `error` and the buffer. -/
def sam_put_user_tags (tags : List rapi_tag) (error : Int) (output : kstring) :
    Option (Int × kstring) :=
  match tags with
  | [] => some (error, output)
  | t :: ts =>
    match rapi_format_tag t (kputc '\t' output) with
    | none => none
    | some (e, out) => sam_put_user_tags ts e out

/-- Lines 220-233 and 257: the optional tags and the returned error code. -/
def sam_put_tags (aln : rapi_alignment) (output : kstring) : Option (Int × kstring) :=
  let output :=
    if aln.n_cigar_ops > 0 then
      kputw (aln.n_mismatches : Int) (kputsn ['\t', 'N', 'M', ':', 'i', ':'] 6 output)
    else output
  let output :=
    if aln.score >= 0 then kputw aln.score (kputsn ['\t', 'A', 'S', ':', 'i', ':'] 6 output)
    else output
  sam_put_user_tags aln.tags RAPI_NO_ERROR output

/-- Encoder `rapi_format_sam` (`rapi_bwa.c` 97-258): the returned error code and the
buffer, or `none` when the call does not return. -/
def rapi_format_sam (read : rapi_read) (mate : Option rapi_read) (output : kstring) :
    Option (Int × kstring) :=
  let (aln, mate_aln) := sam_resolve read mate
  let flag := sam_flag mate aln mate_aln
  match read.id with
  | none => none
  | some id =>
    let output := kputc '\t' (kputs id output)
    let output := kputc '\t' (kputw ((flag &&& 0xffff : Nat) : Int) output)
    let output := sam_put_coords aln output
    match sam_put_mate aln mate_aln output with
    | none => none
    | some output =>
      match sam_put_seq_qual read aln output with
      | none => none
      | some output => sam_put_tags aln output

/-- The objects `rapi_format_sam` can reach before it starts printing: the two reads
behind its `const` pointers and its two local alignments `tmp_read`, `tmp_mate`. -/
structure sam_store where
  read : rapi_read
  mate : Option rapi_read
  tmp_read : rapi_alignment
  tmp_mate : rapi_alignment
deriving DecidableEq

/-- Lines 100-129 of `rapi_format_sam` as assignments on the store: the first alignments
are copied into the locals, and the `paired` marking and the coordinate backfill are
written through `aln = &tmp_read` and `mate_aln = &tmp_mate`. -/
def sam_store_resolve (st : sam_store) : sam_store :=
  let st := { st with tmp_read :=
    if st.read.n_alignments > 0 then st.read.alignments.headD zero_alignment
    else zero_alignment }
  let st := { st with tmp_mate :=
    match st.mate with
    | some m => if m.n_alignments > 0 then m.alignments.headD zero_alignment
                else zero_alignment
    | none => zero_alignment }
  let st :=
    if st.mate.isSome then
      { st with tmp_read := { st.tmp_read with paired := true },
                tmp_mate := { st.tmp_mate with paired := true } }
    else st
  if !st.tmp_read.mapped && st.mate.isSome && st.tmp_mate.mapped then
    { st with tmp_read := { st.tmp_read with
        contig := st.tmp_mate.contig, pos := st.tmp_mate.pos,
        reverse_strand := st.tmp_mate.reverse_strand } }
  else if st.tmp_read.mapped && st.mate.isSome && !st.tmp_mate.mapped then
    { st with tmp_mate := { st.tmp_mate with
        contig := st.tmp_read.contig, pos := st.tmp_read.pos,
        reverse_strand := st.tmp_read.reverse_strand } }
  else st

/-! ## BWA-MEM side: external types and services (`bwamem.h`, not under src/) -/

/-- The fields of BWA's `mem_opt_t` that `rapi_bwa.c` reads or writes. The bit mask
`flag` is kept as one boolean per `MEM_F_*` bit the source tests. -/
structure mem_opt_t where
  a : Int
  T : Int
  pen_unpaired : Int
  max_matesw : Int
  max_ins : Int
  n_threads : Int
  F_PE : Bool
  F_NOPAIRING : Bool
  F_ALL : Bool
  F_NO_MULTI : Bool
  F_NO_RESCUE : Bool
deriving DecidableEq

/-- The fields of BWA's candidate region `mem_alnreg_t` used by the source. -/
structure mem_alnreg_t where
  rb : Int
  re : Int
  score : Int
  sub : Int
  csub : Int
  secondary : Int
deriving DecidableEq

/-- BWA's `mem_aln_t`; `flag` is used as a bit mask, `mapq` is an 8-bit field. -/
structure mem_aln_t where
  pos : Int
  rid : Int
  flag : Nat
  is_rev : Nat
  mapq : Nat
  NM : Nat
  n_cigar : Nat
  cigar : List Nat
  score : Int
  sub : Int
deriving DecidableEq

/-- BWA's `bseq1_t`. -/
structure bseq1_t where
  l_seq : Nat
  name : Option (List Char)
  seq : List Char
  qual : Option (List Char)
deriving DecidableEq

/-- The fields of BWA's `mem_pestat_t` read by the source. -/
structure mem_pestat_t where
  low : Int
  high : Int
  failed : Int
deriving DecidableEq

/-- Struct `rapi_ref`, with `l_pac` standing for `bns->l_pac` of the private index. -/
structure rapi_ref where
  path : List Char
  n_contigs : Int
  contigs : List rapi_contig
  l_pac : Int
deriving DecidableEq

/-- Result of the external `mem_pair`: its return value and its output cells. -/
structure mem_pair_result where
  o : Int
  subo : Int
  n_sub : Int
  z0 : Int
  z1 : Int
deriving DecidableEq

/-- The routines of BWA and libm that the source calls as `extern`, for one loaded
index. `log_penalty n_sub` stands for `(int)(4.343 * log(n_sub+1) + .499)`. -/
structure bwa_services where
  mem_reg2aln : mem_opt_t → bseq1_t → Option mem_alnreg_t → mem_aln_t
  mem_approx_mapq_se : mem_opt_t → mem_alnreg_t → Int
  mem_mark_primary_se : mem_opt_t → List mem_alnreg_t → Int → List mem_alnreg_t
  mem_matesw : mem_opt_t → List mem_pestat_t → mem_alnreg_t → bseq1_t →
    List mem_alnreg_t → Int × List mem_alnreg_t
  mem_pair : mem_opt_t → List mem_pestat_t → bseq1_t → bseq1_t →
    List mem_alnreg_t → List mem_alnreg_t → Int → mem_pair_result
  mem_align1_core : mem_opt_t → bseq1_t → List mem_alnreg_t
  mem_pestat : mem_opt_t → List (List mem_alnreg_t) → List mem_pestat_t → List mem_pestat_t
  log_penalty : Int → Int

def zero_alnreg : mem_alnreg_t := ⟨0, 0, 0, 0, 0, 0⟩
def zero_aln : mem_aln_t := ⟨0, 0, 0, 0, 0, 0, 0, [], 0, 0⟩
def zero_pestat : mem_pestat_t := ⟨0, 0, 0⟩
def zero_contig : rapi_contig := ⟨[], 0⟩
def zero_value : rapi_value := ⟨NUL, [], 0, ⟨0⟩⟩

/-- Element `k` of a candidate array. -/
def reg_at (a : List mem_alnreg_t) (k : Int) : mem_alnreg_t := a.getD k.toNat zero_alnreg

/-! ## Tag setters (`rapi.h` 116-143) -/

/-- Setter `rapi_tag_set_key`: `strncpy` of at most `RAPI_MAX_TAG_LEN` characters. -/
def rapi_tag_set_key (kv : rapi_tag) (s : List Char) : rapi_tag :=
  { kv with key := s.take RAPI_MAX_TAG_LEN }

/-- Setter `rapi_tag_set_text`. -/
def rapi_tag_set_text (kv : rapi_tag) (value : List Char) : rapi_tag :=
  { kv with type := RAPI_VTYPE_TEXT, value := { kv.value with text := kputs value [] } }

/-! ## Conversion of BWA alignments (`rapi_bwa.c` 620-707) -/

/-- Lines 644-679: the body of the conversion loop for one `mem_aln_t`, starting from
the zeroed `rapi_alignment` that `calloc` returned. -/
def convert_aln (ref : rapi_ref) (is_paired : Int) (bwa_aln : mem_aln_t) : rapi_alignment :=
  let our_aln := zero_alignment
  let our_aln := { our_aln with
    paired := is_paired != 0,
    prop_paired := false,
    score := bwa_aln.score,
    mapq := bwa_aln.mapq % 256,
    secondary_aln := ((bwa_aln.flag &&& 0x100) ||| (bwa_aln.flag &&& 0x10000)) != 0,
    mapped := bwa_aln.rid >= 0 }
  let our_aln :=
    if bwa_aln.rid >= 0 then
      let our_aln := { our_aln with
        reverse_strand := bwa_aln.is_rev != 0,
        contig := some ⟨bwa_aln.rid.toNat, ref.contigs.getD bwa_aln.rid.toNat zero_contig⟩,
        pos := ((bwa_aln.pos + 1) % 2 ^ 64).toNat,
        n_mismatches := bwa_aln.NM % 256 }
      if bwa_aln.n_cigar != 0 then
        { our_aln with
          cigar_ops := (List.range bwa_aln.n_cigar).map (fun i =>
            ⟨(bwa_aln.cigar.getD i 0) &&& 0xf, (bwa_aln.cigar.getD i 0) >>> 4⟩),
          n_cigar_ops := bwa_aln.n_cigar % 256 }
      else our_aln
    else our_aln
  if bwa_aln.sub >= 0 then
    let tag : rapi_tag := ⟨[], 0, zero_value⟩
    let tag := rapi_tag_set_key tag ['X', 'S']
    let tag := rapi_tag_set_text tag []
    let tag := { tag with value := { tag.value with text := kputw bwa_aln.sub tag.value.text } }
    { our_aln with tags := our_aln.tags ++ [tag] }
  else our_aln

/-- Lines 632-705: the conversion loop; `none` when some reference id is out of bounds. -/
def convert_alns (ref : rapi_ref) (is_paired : Int) :
    List mem_aln_t → Option (List rapi_alignment)
  | [] => some []
  | bwa_aln :: rest =>
    if bwa_aln.rid >= ref.n_contigs then none
    else (convert_alns ref is_paired rest).map (fun l => convert_aln ref is_paired bwa_aln :: l)

/-- Converter `_bwa_aln_to_rapi_aln` (`rapi_bwa.c` 620-707): the error code and the read
afterwards. Allocation is taken to succeed. -/
def _bwa_aln_to_rapi_aln (ref : rapi_ref) (our_read : rapi_read) (is_paired : Int)
    (bwa_aln_list : List mem_aln_t) (list_length : Int) : Int × rapi_read :=
  if list_length < 0 then (RAPI_PARAM_ERROR, our_read)
  else
    let items := (List.range list_length.toNat).map (fun w => bwa_aln_list.getD w zero_aln)
    match convert_alns ref is_paired items with
    | none => (RAPI_GENERIC_ERROR, { our_read with alignments := [], n_alignments := 0 })
    | some alns =>
      (RAPI_NO_ERROR,
        { our_read with alignments := alns, n_alignments := (list_length % 256).toNat })

/-- Lines 724-737 of `_bwa_reg2_rapi_aln_se`: one round of the loop that collects the
alignments to report in `aa`. The test `score < parent * .5` is written `2 * score < parent`. -/
def reg2_se_step (sv : bwa_services) (opt : mem_opt_t) (seq : bseq1_t)
    (a : List mem_alnreg_t) (extra_flag : Nat) (aa : List mem_aln_t) (k : Nat) :
    List mem_aln_t :=
  let p := reg_at a k
  if p.score < opt.T then aa
  else if p.secondary >= 0 && !opt.F_ALL then aa
  else if p.secondary >= 0 && 2 * p.score < (reg_at a p.secondary).score then aa
  else
    let q := sv.mem_reg2aln opt seq (some p)
    let q := { q with flag := q.flag ||| extra_flag }
    let q := if p.secondary >= 0 then { q with sub := -1 } else q
    let q :=
      if k != 0 && p.secondary < 0 then
        { q with flag := q.flag ||| (if opt.F_NO_MULTI then 0x10000 else 0x800) }
      else q
    let first := (aa ++ [q]).headD q
    let q := if k != 0 && q.mapq > first.mapq then { q with mapq := first.mapq } else q
    aa ++ [q]

/-- Single-end reporter `_bwa_reg2_rapi_aln_se` (`rapi_bwa.c` 714-756). -/
def _bwa_reg2_rapi_aln_se (sv : bwa_services) (opt : mem_opt_t) (ref : rapi_ref)
    (our_read : rapi_read) (seq : bseq1_t) (a : List mem_alnreg_t) (extra_flag : Nat) :
    Int × rapi_read :=
  let aa := (List.range a.length).foldl (reg2_se_step sv opt seq a extra_flag) []
  if aa.length == 0 then
    let t := sv.mem_reg2aln opt seq none
    let t := { t with flag := t.flag ||| extra_flag }
    _bwa_aln_to_rapi_aln ref our_read 0 [t] 1
  else
    _bwa_aln_to_rapi_aln ref our_read 0 aa aa.length

/-! ## Paired-end reporting (`rapi_bwa.c` 602-612, 759-877) -/

/-- Function `mem_infer_dir` (`rapi_bwa.c` 605-612): the orientation class and `*dist`. -/
def mem_infer_dir (l_pac b1 b2 : Int) : Int × Int :=
  let r1 : Bool := b1 >= l_pac
  let r2 : Bool := b2 >= l_pac
  let p2 := if r1 == r2 then b2 else (l_pac * 2) - 1 - b2
  let dist := if p2 > b1 then p2 - b1 else b1 - p2
  (((if r1 == r2 then 0 else 1) ^^^ (if p2 > b1 then 0 else 3) : Nat), dist)

/-- Number of binary digits of `n`, found by halving, with `fuel` rounds at hand. -/
def bit_length_aux : Nat → Nat → Nat
  | 0, _ => 0
  | fuel + 1, n => if n == 0 then 0 else 1 + bit_length_aux fuel (n / 2)

/-- Number of binary digits of `n`. -/
def bit_length (n : Nat) : Nat := bit_length_aux n n

/-- The integer `floor (log2 (n / d))` for positive `n`, `d`. -/
def fp_ilog2 (n d : Nat) : Int :=
  let k : Int := (bit_length n : Int) - (bit_length d : Int)
  if (if k ≥ 0 then decide (d * 2 ^ k.toNat ≤ n) else decide (d ≤ n * 2 ^ (-k).toNat)) then k
  else k - 1

/-- Rounding of the fraction `n / d` to the C type `double` (IEEE-754 binary64, 53
significant bits, round to nearest, ties to even, exponent not below -1074): the
significand `m` and the exponent `e` of the result `m * 2^e`. Magnitudes of 2^1024 and
more, which no `int` argument of `raw_mapq` produces, are not turned into infinity. -/
def fp_round_mag (n d : Nat) : Nat × Int :=
  if n == 0 then (0, 0)
  else
    let e := max (fp_ilog2 n d - 52) (-1074)
    let N := if e ≥ 0 then n else n * 2 ^ (-e).toNat
    let D := if e ≥ 0 then d * 2 ^ e.toNat else d
    let m := N / D
    let r := N % D
    let m := if 2 * r > D || (2 * r == D && m % 2 == 1) then m + 1 else m
    (m, e)

/-- The `double` nearest to the signed fraction `num / den`, as a fraction again. -/
def fp_round (num : Int) (den : Nat) : Int × Nat :=
  let me := fp_round_mag num.natAbs den
  let s : Int := if num < 0 then -1 else 1
  if me.2 ≥ 0 then (s * ((me.1 * 2 ^ me.2.toNat : Nat) : Int), 1)
  else (s * (me.1 : Int), 2 ^ (-me.2).toNat)

/-- The `double` constant `6.02`, `0x1.8147ae147ae14p+2`, as a fraction. -/
def fp_6_02 : Int × Nat := (1694479359798149, 281474976710656)

/-- The `double` constant `.499`, `0x1.fef9db22d0e56p-2`, as a fraction. -/
def fp_0_499 : Int × Nat := (4494592428115755, 9007199254740992)

/-- Macro `raw_mapq(diff, a)`, `(int)(6.02 * diff / a + .499)` (`rapi_bwa.c` 760), in
`double` arithmetic: the product, the quotient and the sum are each rounded to the
nearest `double`, and the conversion to `int` truncates toward zero. The arguments are C
`int`s, which convert to `double` exactly. For `a = 0` the quotient is infinite or NaN
and its conversion undefined; the value 0 stands there. A result beyond the range of
`int`, which takes `|diff|` above 3.5e8 times `a`, is undefined in C as well and is kept
as the truncated value. -/
def raw_mapq (diff a : Int) : Int :=
  if a == 0 then 0
  else
    let x := fp_round (fp_6_02.1 * diff) fp_6_02.2
    let y :=
      if a < 0 then fp_round (-x.1) (x.2 * a.natAbs) else fp_round x.1 (x.2 * a.natAbs)
    let z := fp_round (y.1 * (fp_0_499.2 : Int) + fp_0_499.1 * (y.2 : Int)) (y.2 * fp_0_499.2)
    Int.tdiv z.1 z.2

/-- Comparison `strcmp(s[0].name, s[1].name) != 0` on two present names. -/
def names_differ (n0 n1 : Option (List Char)) : Option Bool :=
  match n0, n1 with
  | some x, some y => some (x != y)
  | _, _ => none

/-- Lines 853-863 at label `no_pairing`: `extra_flag` after the test whether the two
top hits form a proper pair. -/
def pe_no_pairing_flag (sv : bwa_services) (opt : mem_opt_t) (ref : rapi_ref)
    (pes : List mem_pestat_t) (s0 s1 : bseq1_t) (a0 a1 : List mem_alnreg_t)
    (extra_flag : Nat) : Nat :=
  let h0 :=
    if a0.length != 0 && (reg_at a0 0).score >= opt.T then
      sv.mem_reg2aln opt s0 (some (reg_at a0 0))
    else sv.mem_reg2aln opt s0 none
  let h1 :=
    if a1.length != 0 && (reg_at a1 0).score >= opt.T then
      sv.mem_reg2aln opt s1 (some (reg_at a1 0))
    else sv.mem_reg2aln opt s1 none
  if !opt.F_NOPAIRING && h0.rid == h1.rid && h0.rid >= 0 then
    let (d, dist) := mem_infer_dir ref.l_pac (reg_at a0 0).rb (reg_at a1 0).rb
    let pe := pes.getD d.toNat zero_pestat
    if pe.failed == 0 && dist >= pe.low && dist <= pe.high then extra_flag ||| 2
    else extra_flag
  else extra_flag

/-- Lines 852-877, label `no_pairing`: each mate is reported on its own. `n` is the
count gathered by the rescue step. -/
def pe_no_pairing (sv : bwa_services) (opt : mem_opt_t) (ref : rapi_ref)
    (pes : List mem_pestat_t) (s0 s1 : bseq1_t) (a0 a1 : List mem_alnreg_t)
    (out0 out1 : rapi_read) (n : Int) (extra_flag : Nat) :
    Option (Int × rapi_read × rapi_read) :=
  let extra_flag := pe_no_pairing_flag sv opt ref pes s0 s1 a0 a1 extra_flag
  let (error1, out0) := _bwa_reg2_rapi_aln_se sv opt ref out0 s0 a0 (0x41 ||| extra_flag)
  let (error2, out1) := _bwa_reg2_rapi_aln_se sv opt ref out1 s1 a1 (0x81 ||| extra_flag)
  if error1 != 0 || error2 != 0 then none
  else
    match names_differ s0.name s1.name with
    | some false => some (n, out0, out1)
    | _ => none

/-- Lines 780-791: mate rescue. Candidates within `pen_unpaired` of the best one of a
mate are handed to `mem_matesw`, which may extend the other mate's candidate set. -/
def pe_rescue (sv : bwa_services) (opt : mem_opt_t) (pes : List mem_pestat_t)
    (s0 s1 : bseq1_t) (a0 a1 : List mem_alnreg_t) :
    Int × List mem_alnreg_t × List mem_alnreg_t :=
  if !opt.F_NO_RESCUE then
    let b0 := a0.filter (fun p => p.score >= (reg_at a0 0).score - opt.pen_unpaired)
    let b1 := a1.filter (fun p => p.score >= (reg_at a1 0).score - opt.pen_unpaired)
    let (n, a1) := (b0.take opt.max_matesw.toNat).foldl
      (fun (st : Int × List mem_alnreg_t) p =>
        let (k, ma) := sv.mem_matesw opt pes p s1 st.2
        (st.1 + k, ma))
      (0, a1)
    let (n, a0) := (b1.take opt.max_matesw.toNat).foldl
      (fun (st : Int × List mem_alnreg_t) p =>
        let (k, ma) := sv.mem_matesw opt pes p s0 st.2
        (st.1 + k, ma))
      (n, a0)
    (n, a0, a1)
  else (0, a0, a1)

/-- Lines 799-803: whether a mate has a second primary candidate reaching `T`. -/
def is_multi (opt : mem_opt_t) (a : List mem_alnreg_t) : Bool :=
  (a.drop 1).any (fun p => p.secondary < 0 && p.score >= opt.T)

/-- Lines 818-819: the chosen candidate `c[i]` after it inherits its parent's score. -/
def pe_promote (a : List mem_alnreg_t) (z : Int) : mem_alnreg_t :=
  let c := reg_at a z
  if c.secondary >= 0 then { c with sub := (reg_at a c.secondary).score, secondary := -2 }
  else c

/-- Lines 822-823: `q_se` raised toward the paired quality, by at most 40. -/
def pe_floor (q_se q_pe : Int) : Int :=
  if q_se > q_pe then q_se else if q_pe < q_se + 40 then q_pe else q_se + 40

/-- Lines 826-827: `q_se` capped at the tandem-repeat quality. -/
def pe_cap (opt : mem_opt_t) (q_se : Int) (c : mem_alnreg_t) : Int :=
  if q_se < raw_mapq (c.score - c.csub) opt.a then q_se else raw_mapq (c.score - c.csub) opt.a

/-- Lines 806-812: the paired quality `q_pe`. -/
def pe_q_pe (sv : bwa_services) (opt : mem_opt_t) (o subo n_sub score_un : Int) : Int :=
  let subo := if subo > score_un then subo else score_un
  let q_pe := raw_mapq (o - subo) opt.a
  let q_pe := if n_sub > 0 then q_pe - sv.log_penalty n_sub else q_pe
  let q_pe := if q_pe < 0 then 0 else q_pe
  if q_pe > 60 then 60 else q_pe

/-- Lines 780-793 of `_bwa_mem_pe`: the two candidate sets after mate rescue and
primary marking, on which every later decision is taken. -/
def pe_candidates (sv : bwa_services) (opt : mem_opt_t) (pes : List mem_pestat_t) (id : Int)
    (s0 s1 : bseq1_t) (a0 a1 : List mem_alnreg_t) : List mem_alnreg_t × List mem_alnreg_t :=
  (sv.mem_mark_primary_se opt (pe_rescue sv opt pes s0 s1 a0 a1).2.1 (id * 2),
    sv.mem_mark_primary_se opt (pe_rescue sv opt pes s0 s1 a0 a1).2.2 (id * 2 + 1))

/-- Lines 834-850 of `_bwa_mem_pe`: the chosen candidates `z0`, `z1` are converted with
their qualities and stored, one alignment per mate. -/
def pe_report_pair (sv : bwa_services) (opt : mem_opt_t) (ref : rapi_ref)
    (s0 s1 : bseq1_t) (a0 a1 : List mem_alnreg_t) (out0 out1 : rapi_read) (n : Int)
    (z0 z1 q_se0 q_se1 : Int) (extra_flag : Nat) : Option (Int × rapi_read × rapi_read) :=
  let h0 := sv.mem_reg2aln opt s0 (some (reg_at a0 z0))
  let h0 := { h0 with mapq := (q_se0 % 256).toNat, flag := h0.flag ||| (0x40 ||| extra_flag) }
  let h1 := sv.mem_reg2aln opt s1 (some (reg_at a1 z1))
  let h1 := { h1 with mapq := (q_se1 % 256).toNat, flag := h1.flag ||| (0x80 ||| extra_flag) }
  let (error1, out0) := _bwa_aln_to_rapi_aln ref out0 1 [h0] 1
  let (error2, out1) := _bwa_aln_to_rapi_aln ref out1 1 [h1] 1
  if error1 != 0 || error2 != 0 then none
  else
    match names_differ s0.name s1.name with
    | some false => some (n, out0, out1)
    | _ => none

/-- Pair reporter `_bwa_mem_pe` (`rapi_bwa.c` 764-877): the returned count and the two
reads afterwards, or `none` when the call ends in `err_fatal`. -/
def _bwa_mem_pe (sv : bwa_services) (opt : mem_opt_t) (ref : rapi_ref)
    (pes : List mem_pestat_t) (id : Int) (s0 s1 : bseq1_t) (a0 a1 : List mem_alnreg_t)
    (out0 out1 : rapi_read) : Option (Int × rapi_read × rapi_read) :=
  let extra_flag : Nat := 1
  let n := (pe_rescue sv opt pes s0 s1 a0 a1).1
  let c := pe_candidates sv opt pes id s0 s1 a0 a1
  let a0 := c.1
  let a1 := c.2
  if opt.F_NOPAIRING then pe_no_pairing sv opt ref pes s0 s1 a0 a1 out0 out1 n extra_flag
  else
    let r := sv.mem_pair opt pes s0 s1 a0 a1 id
    if a0.length != 0 && a1.length != 0 && r.o > 0 then
      if is_multi opt a0 || is_multi opt a1 then
        pe_no_pairing sv opt ref pes s0 s1 a0 a1 out0 out1 n extra_flag
      else
        let score_un := (reg_at a0 0).score + (reg_at a1 0).score - opt.pen_unpaired
        let q_pe := pe_q_pe sv opt r.o r.subo r.n_sub score_un
        if r.o > score_un then
          let c0 := pe_promote a0 r.z0
          let a0 := a0.set r.z0.toNat c0
          let q_se0 := sv.mem_approx_mapq_se opt c0
          let c1 := pe_promote a1 r.z1
          let a1 := a1.set r.z1.toNat c1
          let q_se1 := sv.mem_approx_mapq_se opt c1
          let q_se0 := pe_floor q_se0 q_pe
          let q_se1 := pe_floor q_se1 q_pe
          let extra_flag := extra_flag ||| 2
          let q_se0 := pe_cap opt q_se0 c0
          let q_se1 := pe_cap opt q_se1 c1
          pe_report_pair sv opt ref s0 s1 a0 a1 out0 out1 n r.z0 r.z1 q_se0 q_se1 extra_flag
        else
          let z0 := 0
          let z1 := 0
          let q_se0 := sv.mem_approx_mapq_se opt (reg_at a0 0)
          let q_se1 := sv.mem_approx_mapq_se opt (reg_at a1 0)
          pe_report_pair sv opt ref s0 s1 a0 a1 out0 out1 n z0 z1 q_se0 q_se1 extra_flag
    else pe_no_pairing sv opt ref pes s0 s1 a0 a1 out0 out1 n extra_flag

/-! ## Batch alignment (`rapi_bwa.c` 264-299, 463-508, 547-554, 879-1006) -/

/-- Struct `rapi_param` (`rapi.h` 47-56). -/
structure rapi_param where
  name : List Char
  type : Nat
  value : rapi_value
deriving DecidableEq

/-- Struct `rapi_opts` (`rapi.h` 162-178); `_private` holds the BWA options. -/
structure rapi_opts where
  ignore_unsupported : Int
  mapq_min : Int
  isize_min : Int
  isize_max : Int
  parameters : List rapi_param
  _private : mem_opt_t
deriving DecidableEq

/-- Struct `rapi_aligner_state` (`rapi_bwa.c` 295-299). -/
structure rapi_aligner_state where
  n_reads_processed : Int
  pes : List mem_pestat_t
deriving DecidableEq

/-- Struct `bwa_batch` (`rapi_bwa.c` 264-269). -/
structure bwa_batch where
  n_bases : Nat
  n_reads : Int
  n_reads_per_frag : Int
  seqs : List bseq1_t
deriving DecidableEq

/-- Struct `bwa_worker_t` (`rapi_bwa.c` 879-887). -/
structure bwa_worker_t where
  opt : mem_opt_t
  rapi_ref : rapi_ref
  read_batch : bwa_batch
  rapi_reads : List rapi_read
  pes : List mem_pestat_t
  regs : List (List mem_alnreg_t)
  n_processed : Int
deriving DecidableEq

def zero_bseq : bseq1_t := ⟨0, none, [], none⟩

/-- The flattened index used by `rapi_get_read` (`rapi.h` 289-291). -/
def rapi_get_read_index (batch : rapi_batch) (n_fragment n_read : Int) : Int :=
  n_fragment * batch.n_reads_frag + n_read

/-- Accessor `rapi_get_read` (`rapi.h` 289-291). -/
def rapi_get_read (batch : rapi_batch) (n_fragment n_read : Int) : rapi_read :=
  batch.reads.getD (rapi_get_read_index batch n_fragment n_read).toNat zero_read

/-- Lines 480-499 of `_batch_to_bwa_seq`: one read is copied into the BWA batch; `none`
is the jump to `failed_allocation`, taken when `strdup` of the sequence yields NULL. -/
def batch_to_bwa_step (batch : rapi_batch) (st : Option bwa_batch) (fr : Int × Int) :
    Option bwa_batch :=
  match st with
  | none => none
  | some bwa_seqs =>
    let read := rapi_get_read batch fr.1 fr.2
    match read.seq with
    | none => none
    | some seq =>
      let bwa_read : bseq1_t :=
        { seq := seq, qual := read.qual, name := read.id, l_seq := read.length }
      some { bwa_seqs with
        seqs := bwa_seqs.seqs ++ [bwa_read],
        n_reads := bwa_seqs.n_reads + 1,
        n_bases := bwa_seqs.n_bases + read.length }

/-- Translation `_batch_to_bwa_seq` (`rapi_bwa.c` 463-508). -/
def _batch_to_bwa_seq (batch : rapi_batch) : Int × bwa_batch :=
  let bwa_seqs : bwa_batch :=
    { n_bases := 0, n_reads := 0, n_reads_per_frag := batch.n_reads_frag, seqs := [] }
  let slots := (List.range batch.n_frags.toNat).flatMap (fun (f : Nat) =>
    (List.range batch.n_reads_frag.toNat).map (fun (r : Nat) => ((f : Int), (r : Int))))
  match slots.foldl (batch_to_bwa_step batch) (some bwa_seqs) with
  | some b => (RAPI_NO_ERROR, b)
  | none => (RAPI_MEMORY_ERROR, { n_bases := 0, n_reads := 0, n_reads_per_frag := 0, seqs := [] })

/-- Option translation `_convert_opts` (`rapi_bwa.c` 547-554). -/
def _convert_opts (opts : rapi_opts) (bwa_opts : mem_opt_t) : Int × mem_opt_t :=
  (RAPI_NO_ERROR, { bwa_opts with T := opts.mapq_min, max_ins := opts.isize_max })

/-- First pass `bwa_worker_1` (`rapi_bwa.c` 892-910). -/
def bwa_worker_1 (sv : bwa_services) (w : bwa_worker_t) (i : Nat) : bwa_worker_t :=
  if w.opt.F_PE then
    let read := 2 * i
    let mate := 2 * i + 1
    let regs := w.regs.set read
      (sv.mem_align1_core w.opt (w.read_batch.seqs.getD read zero_bseq))
    let regs := regs.set mate
      (sv.mem_align1_core w.opt (w.read_batch.seqs.getD mate zero_bseq))
    { w with regs := regs }
  else
    { w with regs := w.regs.set i (sv.mem_align1_core w.opt (w.read_batch.seqs.getD i zero_bseq)) }

/-- Second pass `bwa_worker_2` (`rapi_bwa.c` 913-935); `none` is `err_fatal`. -/
def bwa_worker_2 (sv : bwa_services) (w : bwa_worker_t) (i : Nat) : Option bwa_worker_t :=
  let r : Option (Int × bwa_worker_t) :=
    if w.opt.F_PE then
      match _bwa_mem_pe sv w.opt w.rapi_ref w.pes (Int.tdiv w.n_processed 2 + i)
          (w.read_batch.seqs.getD (2 * i) zero_bseq)
          (w.read_batch.seqs.getD (2 * i + 1) zero_bseq)
          (w.regs.getD (2 * i) []) (w.regs.getD (2 * i + 1) [])
          (w.rapi_reads.getD (2 * i) zero_read) (w.rapi_reads.getD (2 * i + 1) zero_read) with
      | none => none
      | some (n, out0, out1) =>
        some (n, { w with
          rapi_reads := (w.rapi_reads.set (2 * i) out0).set (2 * i + 1) out1,
          regs := (w.regs.set (2 * i) []).set (2 * i + 1) [] })
    else
      let _marked := sv.mem_mark_primary_se w.opt (w.regs.getD i []) (w.n_processed + i)
      some (RAPI_NO_ERROR, { w with regs := w.regs.set i [] })
  match r with
  | none => none
  | some (error, w) => if error != RAPI_NO_ERROR then none else some w

/-- Loop `kt_for(n_threads, bwa_worker_2, &w, n)` run over the fragments in order. -/
def kt_for_2 (sv : bwa_services) (w : bwa_worker_t) (n : Nat) : Option bwa_worker_t :=
  (List.range n).foldl
    (fun st i => match st with
      | none => none
      | some w => bwa_worker_2 sv w i)
    (some w)

/-- Entry point `rapi_align_reads` (`rapi_bwa.c` 940-1006): the returned code with the
batch, options and aligner state afterwards, or `none` when a worker ends in
`err_fatal`. Allocation of `regs` is taken to succeed. -/
def rapi_align_reads (sv : bwa_services) (ref : rapi_ref) (batch : rapi_batch)
    (config : rapi_opts) (state : rapi_aligner_state) :
    Option (Int × rapi_batch × rapi_opts × rapi_aligner_state) :=
  if batch.n_reads_frag > 2 then some (RAPI_OP_NOT_SUPPORTED_ERROR, batch, config, state)
  else if batch.n_reads_frag <= 0 then some (RAPI_PARAM_ERROR, batch, config, state)
  else
    let bwa_opt := config._private
    let bwa_opt := if batch.n_reads_frag == 2 then { bwa_opt with F_PE := true } else bwa_opt
    let (error, bwa_opt) := _convert_opts config bwa_opt
    let config := { config with _private := bwa_opt }
    if error != 0 then some (error, batch, config, state)
    else
      let (error, bwa_seqs) := _batch_to_bwa_seq batch
      if error != 0 then some (error, batch, config, state)
      else
        let regs : List (List mem_alnreg_t) := List.replicate bwa_seqs.n_reads.toNat []
        let w : bwa_worker_t :=
          { opt := bwa_opt, read_batch := bwa_seqs, regs := regs, pes := state.pes,
            n_processed := state.n_reads_processed, rapi_ref := ref,
            rapi_reads := batch.reads }
        let n_fragments :=
          if bwa_opt.F_PE then Int.tdiv bwa_seqs.n_reads 2 else bwa_seqs.n_reads
        let w := (List.range n_fragments.toNat).foldl (bwa_worker_1 sv) w
        let w :=
          if bwa_opt.F_PE then { w with pes := sv.mem_pestat bwa_opt w.regs w.pes } else w
        match kt_for_2 sv w n_fragments.toNat with
        | none => none
        | some w =>
          let state := { state with
            pes := w.pes,
            n_reads_processed := state.n_reads_processed + bwa_seqs.n_reads }
          some (error, { batch with reads := w.rapi_reads }, config, state)

/-! ## Read batches (`rapi_bwa.c` 1012-1136) -/

/-- Allocator `rapi_reads_alloc` (`rapi_bwa.c` 1013-1024); `calloc_ok` tells whether
`calloc` returns memory. -/
def rapi_reads_alloc (calloc_ok : Bool) (batch : rapi_batch)
    (n_reads_fragment n_fragments : Int) : Int × rapi_batch :=
  if n_fragments < 0 || n_reads_fragment < 0 then (RAPI_PARAM_ERROR, batch)
  else if !calloc_ok then (RAPI_MEMORY_ERROR, { batch with reads := [] })
  else
    (RAPI_NO_ERROR,
      { reads := List.replicate (n_reads_fragment * n_fragments).toNat zero_read,
        n_frags := n_fragments, n_reads_frag := n_reads_fragment })

/-- Growth `rapi_reads_reserve` (`rapi_bwa.c` 1026-1048); `realloc_ok` tells whether
`realloc` returns memory. The reallocated array keeps the slots below `old_n_reads` and
`memset` zeroes the slots from `old_n_reads` up to `new_n_reads`. -/
def rapi_reads_reserve (realloc_ok : Bool) (batch : rapi_batch) (n_fragments : Int) :
    Int × rapi_batch :=
  if n_fragments < 0 then (RAPI_PARAM_ERROR, batch)
  else if n_fragments == 0 then (RAPI_NO_ERROR, batch)
  else if n_fragments > batch.n_frags then
    let old_n_reads := batch.n_frags * batch.n_reads_frag
    let new_n_reads := n_fragments * batch.n_reads_frag
    if !realloc_ok then (RAPI_MEMORY_ERROR, batch)
    else
      let space := (List.range new_n_reads.toNat).map (fun (i : Nat) =>
        if (i : Int) < old_n_reads then batch.reads.getD i zero_read else zero_read)
      (RAPI_NO_ERROR, { batch with n_frags := n_fragments, reads := space })
  else (RAPI_NO_ERROR, batch)

/-- Value of a `char` converted to `int`: the byte itself when plain `char` is unsigned,
the byte minus 256 from 128 on when it is signed. -/
def char_val (char_signed : Bool) (c : Char) : Int :=
  if char_signed && c.toNat % 256 >= 128 then ((c.toNat % 256 : Nat) : Int) - 256
  else ((c.toNat % 256 : Nat) : Int)

/-- An `int` stored into a `char`: its low eight bits. -/
def int_to_char (v : Int) : Char := Char.ofNat (v % 256).toNat

/-- Lines 1113-1121 of `rapi_set_read`: the re-encoding loop over the quality bytes it
reads, giving the bytes written and whether it left through `goto error`. -/
def recode_qual (char_signed : Bool) (q_offset : Int) : List Char → List Char × Bool
  | [] => ([], false)
  | c :: cs =>
    let w := int_to_char (char_val char_signed c - q_offset + 33)
    if char_val char_signed w > 127 then ([w], true)
    else ((w :: (recode_qual char_signed q_offset cs).1),
      (recode_qual char_signed q_offset cs).2)

/-- Lines 1125-1128 of `rapi_set_read`: the id after the trailing `/1` or `/2` is cut
by writing a terminator at `id[t-2]`. -/
def trim_id (id : List Char) : List Char :=
  let t := id.length
  if t > 2 && id.getD (t - 2) NUL == '/' &&
      (id.getD (t - 1) NUL == '1' || id.getD (t - 1) NUL == '2') then
    id.take (t - 2)
  else id

/-- The batch with slot `(n_frag, n_read)` replaced. -/
def set_slot (batch : rapi_batch) (n_frag n_read : Int) (read : rapi_read) : rapi_batch :=
  { batch with reads := batch.reads.set (rapi_get_read_index batch n_frag n_read).toNat read }

/-- Setter `rapi_set_read` (`rapi_bwa.c` 1075-1136): the returned code and the batch
afterwards. `char_signed` is the signedness of plain `char`, `malloc_ok` tells whether
`malloc` returns memory. After `goto error` the slot keeps its pointers into the freed
buffer; the model shows the text that had been written there. -/
def rapi_set_read (char_signed malloc_ok : Bool) (batch : rapi_batch) (n_frag n_read : Int)
    (name seq : List Char) (qual : Option (List Char)) (q_offset : Int) :
    Int × rapi_batch :=
  if n_frag < 0 || n_frag >= batch.n_frags || n_read < 0 || n_read >= batch.n_reads_frag then
    (RAPI_PARAM_ERROR, batch)
  else
    let read := rapi_get_read batch n_frag n_read
    let seq_len := seq.length
    let read := { read with length := seq_len }
    if !malloc_ok then
      (RAPI_MEMORY_ERROR, set_slot batch n_frag n_read { read with id := none })
    else
      let read := { read with id := some name }
      let read := { read with seq := some seq }
      match qual with
      | none =>
        let read := { read with qual := none }
        (RAPI_NO_ERROR, set_slot batch n_frag n_read { read with id := some (trim_id name) })
      | some q =>
        let r := recode_qual char_signed q_offset (c_bytes q seq_len)
        let read := { read with qual := some r.1 }
        if r.2 then (RAPI_PARAM_ERROR, set_slot batch n_frag n_read read)
        else
          (RAPI_NO_ERROR, set_slot batch n_frag n_read { read with id := some (trim_id name) })

/-- A batch whose array holds `n_frags * n_reads_frag` slots. -/
def batch_wf (batch : rapi_batch) : Prop :=
  0 ≤ batch.n_frags ∧ 0 ≤ batch.n_reads_frag ∧
    (batch.reads.length : Int) = batch.n_frags * batch.n_reads_frag

/-! ## Value boxes: parameters and tags (`rapi.h` 58-156) -/

/-- Initialiser `rapi_param_init` (`rapi.h` 58-60): the box after `memset` to zero. -/
def rapi_param_init : rapi_param := ⟨[], 0, zero_value⟩

/-- Function `rapi_param_clear` (`rapi.h` 62-70): the name is freed and emptied, an owned
text is freed and its pointer set to `NULL`, rendered here as the empty text. The field
`type` is not assigned. -/
def rapi_param_clear (kv : rapi_param) : rapi_param :=
  let kv := { kv with name := [] }
  if kv.type == RAPI_VTYPE_TEXT then { kv with value := { kv.value with text := [] } }
  else kv

/-- Macro `KV_SET_IMPL` at `rapi_param_set_char`. -/
def rapi_param_set_char (kv : rapi_param) (value : Char) : rapi_param :=
  { kv with type := RAPI_VTYPE_CHAR, value := { kv.value with character := value } }

/-- Macro `KV_SET_IMPL` at `rapi_param_set_text`: the pointer is stored, not a copy. -/
def rapi_param_set_text (kv : rapi_param) (value : List Char) : rapi_param :=
  { kv with type := RAPI_VTYPE_TEXT, value := { kv.value with text := value } }

/-- Macro `KV_SET_IMPL` at `rapi_param_set_long`. -/
def rapi_param_set_long (kv : rapi_param) (value : Int) : rapi_param :=
  { kv with type := RAPI_VTYPE_INT, value := { kv.value with integer := value } }

/-- Macro `KV_SET_IMPL` at `rapi_param_set_dbl`. -/
def rapi_param_set_dbl (kv : rapi_param) (value : c_double) : rapi_param :=
  { kv with type := RAPI_VTYPE_REAL, value := { kv.value with real := value } }

/-- Macro `KV_GET_IMPL` at `rapi_param_get_char`: `value` is the caller's cell, returned
together with the error code. -/
def rapi_param_get_char (kv : rapi_param) (value : Char) : Int × Char :=
  if kv.type == RAPI_VTYPE_CHAR then (RAPI_NO_ERROR, kv.value.character)
  else (RAPI_TYPE_ERROR, value)

/-- Macro `KV_GET_IMPL` at `rapi_param_get_text`. -/
def rapi_param_get_text (kv : rapi_param) (value : List Char) : Int × List Char :=
  if kv.type == RAPI_VTYPE_TEXT then (RAPI_NO_ERROR, kv.value.text)
  else (RAPI_TYPE_ERROR, value)

/-- Macro `KV_GET_IMPL` at `rapi_param_get_long`. -/
def rapi_param_get_long (kv : rapi_param) (value : Int) : Int × Int :=
  if kv.type == RAPI_VTYPE_INT then (RAPI_NO_ERROR, kv.value.integer)
  else (RAPI_TYPE_ERROR, value)

/-- Macro `KV_GET_IMPL` at `rapi_param_get_dbl`. -/
def rapi_param_get_dbl (kv : rapi_param) (value : c_double) : Int × c_double :=
  if kv.type == RAPI_VTYPE_REAL then (RAPI_NO_ERROR, kv.value.real)
  else (RAPI_TYPE_ERROR, value)

/-- Function `rapi_tag_clear` (`rapi.h` 121-127): an owned text is freed and its pointer
set to `NULL`, rendered here as the empty text; then `type` is set to 0. -/
def rapi_tag_clear (kv : rapi_tag) : rapi_tag :=
  let kv :=
    if kv.type == RAPI_VTYPE_TEXT then { kv with value := { kv.value with text := [] } }
    else kv
  { kv with type := 0 }

/-- Macro `KV_SET_IMPL` at `rapi_tag_set_char`. -/
def rapi_tag_set_char (kv : rapi_tag) (value : Char) : rapi_tag :=
  { kv with type := RAPI_VTYPE_CHAR, value := { kv.value with character := value } }

/-- Macro `KV_SET_IMPL` at `rapi_tag_set_long`. -/
def rapi_tag_set_long (kv : rapi_tag) (value : Int) : rapi_tag :=
  { kv with type := RAPI_VTYPE_INT, value := { kv.value with integer := value } }

/-- Macro `KV_SET_IMPL` at `rapi_tag_set_dbl`. -/
def rapi_tag_set_dbl (kv : rapi_tag) (value : c_double) : rapi_tag :=
  { kv with type := RAPI_VTYPE_REAL, value := { kv.value with real := value } }

/-- The 7 bytes of `kv->key` after `rapi_tag_set_key` (`rapi.h` 116-119): `strncpy`
writes the first `RAPI_MAX_TAG_LEN` bytes found at `s`, padding with the terminator, and
the last byte is set to the terminator. -/
def tag_key_buffer (s : List Char) : List Char :=
  c_bytes s RAPI_MAX_TAG_LEN ++ [NUL]

/-- The C string found in a buffer: its bytes up to the first terminator. -/
def c_string (buf : List Char) : List Char := buf.takeWhile (fun c => c != NUL)

/-! ## The pair-scoring branch of `_bwa_mem_pe` by parts (`rapi_bwa.c` 796-836) -/

/-- Line 796: what `mem_pair` returns on the two candidate sets. -/
def pe_pair (sv : bwa_services) (opt : mem_opt_t) (pes : List mem_pestat_t) (id : Int)
    (s0 s1 : bseq1_t) (a0 a1 : List mem_alnreg_t) : mem_pair_result :=
  sv.mem_pair opt pes s0 s1 (pe_candidates sv opt pes id s0 s1 a0 a1).1
    (pe_candidates sv opt pes id s0 s1 a0 a1).2 id

/-- Line 806: `score_un`, the sum of the two top scores less the unpaired penalty. -/
def pe_score_un (sv : bwa_services) (opt : mem_opt_t) (pes : List mem_pestat_t) (id : Int)
    (s0 s1 : bseq1_t) (a0 a1 : List mem_alnreg_t) : Int :=
  (reg_at (pe_candidates sv opt pes id s0 s1 a0 a1).1 0).score +
    (reg_at (pe_candidates sv opt pes id s0 s1 a0 a1).2 0).score - opt.pen_unpaired

/-- Lines 808-812 on the values of line 796: the paired quality of the fragment. -/
def pe_pair_q_pe (sv : bwa_services) (opt : mem_opt_t) (pes : List mem_pestat_t) (id : Int)
    (s0 s1 : bseq1_t) (a0 a1 : List mem_alnreg_t) : Int :=
  pe_q_pe sv opt (pe_pair sv opt pes id s0 s1 a0 a1).o (pe_pair sv opt pes id s0 s1 a0 a1).subo
    (pe_pair sv opt pes id s0 s1 a0 a1).n_sub (pe_score_un sv opt pes id s0 s1 a0 a1)

/-- Lines 818-827 for one mate: the quality given to the chosen candidate `a[z]` when
the paired placement wins. -/
def pe_paired_quality (sv : bwa_services) (opt : mem_opt_t) (a : List mem_alnreg_t)
    (z q_pe : Int) : Int :=
  pe_cap opt (pe_floor (sv.mem_approx_mapq_se opt (pe_promote a z)) q_pe) (pe_promote a z)

/-- Lines 834-835 for one mate: the BWA record `h[i]` of candidate `c` with its quality
and flag bits, as handed to the conversion. -/
def pe_record (sv : bwa_services) (opt : mem_opt_t) (s : bseq1_t) (c : mem_alnreg_t)
    (q : Int) (flag : Nat) : mem_aln_t :=
  { sv.mem_reg2aln opt s (some c) with
      mapq := (q % 256).toNat, flag := (sv.mem_reg2aln opt s (some c)).flag ||| flag }

/-! ## Statements of the specification, in its own words -/

/-- CIGAR text as the specification words it: every operation as its decimal length
followed by its own character of `MIDSH`; `*` for an empty list. -/
def cigar_text_spec (ops : List rapi_cigar) : List Char :=
  if ops = [] then ['*'] else ops.flatMap (fun o => decimal (o.len : Int) ++ [MIDSH o.op])

/-- Character printed for an operation when hard clipping is not forced: both clip
kinds print as `S`. -/
def soft_op_char (op : Nat) : Char :=
  match op with
  | 0 => 'M'
  | 1 => 'I'
  | 2 => 'D'
  | 3 => 'S'
  | 4 => 'S'
  | _ => NUL

/-- Strand-adjusted position of an alignment: the position itself on the forward strand,
position + reference span - 1 on the reverse strand. -/
def strand_pos (a : rapi_alignment) : Int :=
  if a.reverse_strand then (a.pos : Int) + rapi_get_rlen a.n_cigar_ops a.cigar_ops - 1
  else (a.pos : Int)

/-- FLAG word as the specification lists it, from the boolean fields of the read's
first alignment `a`, the mate's first alignment `m` and the presence of the mate. -/
def flag_spec (mate_present : Bool) (a m : rapi_alignment) : Nat :=
  (if mate_present || a.paired then 0x1 else 0) |||
  (if a.mapped && a.prop_paired then 0x2 else 0) |||
  (if !a.mapped then 0x4 else 0) |||
  (if mate_present && !m.mapped then 0x8 else 0) |||
  (if a.mapped && a.reverse_strand then 0x10 else 0) |||
  (if mate_present && m.mapped && m.reverse_strand then 0x20 else 0) |||
  (if a.mapped && a.secondary_aln then 0x100 else 0)

/-- Text of CIGAR operation `i` as the renderer writes it. -/
def cigar_piece (ops : List rapi_cigar) (force_hard_clip : Bool) (i : Nat) : List Char :=
  decimal ((cigar_at ops i).len : Int) ++
    [MIDSH (if (cigar_at ops i).op == 3 || (cigar_at ops i).op == 4
      then (if force_hard_clip then 4 else 3) else (cigar_at ops i).op)]

/-- Complement of a base as the specification gives it: `A` and `T` swap, `C` and `G`
swap, `N` and every unrecognised base give `N`. -/
def complement_spec (c : Char) : Char :=
  if c == 'A' then 'T' else if c == 'T' then 'A' else if c == 'C' then 'G'
  else if c == 'G' then 'C' else 'N'

/-- Reverse complement of a stored sequence, in the specification's words. -/
def reverse_complement_spec (seq : List Char) : List Char :=
  (seq.reverse).map complement_spec

/-- Mate contig, mate position and insert size fields in the specification's words:
`=` and the insert size on a shared contig, the mate's contig name and `0` otherwise. -/
def mate_fields_spec (same : Bool) (mate_name : List Char) (mate_pos : Nat) (isize : Int) :
    List Char :=
  (if same then ['='] else mate_name) ++ ['\t'] ++ decimal (mate_pos : Int) ++ ['\t'] ++
    (if same then decimal isize else ['0'])

/-- Lines 794-804 of `_bwa_mem_pe`: pairing is enabled, both mates have candidates, the
pair score is positive and neither mate is ambiguous, so the pair is scored instead of
being handed to `no_pairing`. -/
def pe_scores_pair (sv : bwa_services) (opt : mem_opt_t) (pes : List mem_pestat_t) (id : Int)
    (s0 s1 : bseq1_t) (a0 a1 : List mem_alnreg_t) : Bool :=
  let c := pe_candidates sv opt pes id s0 s1 a0 a1
  !opt.F_NOPAIRING &&
    (c.1.length != 0 && c.2.length != 0 && (sv.mem_pair opt pes s0 s1 c.1 c.2 id).o > 0) &&
    !(is_multi opt c.1 || is_multi opt c.2)

/-- Lines 727-729 of `_bwa_reg2_rapi_aln_se`: candidate `k` passes the three filters. -/
def reg2_se_keeps (opt : mem_opt_t) (a : List mem_alnreg_t) (k : Nat) : Bool :=
  !(decide ((reg_at a k).score < opt.T)) &&
  !((reg_at a k).secondary >= 0 && !opt.F_ALL) &&
  !((reg_at a k).secondary >= 0 &&
    decide (2 * (reg_at a k).score < (reg_at a (reg_at a k).secondary).score))

/-- Number of candidates of a mate that `_bwa_reg2_rapi_aln_se` reports. -/
def reg2_se_count (opt : mem_opt_t) (a : List mem_alnreg_t) : Nat :=
  ((List.range a.length).filter (reg2_se_keeps opt a)).length

/-- Reference span as the specification words it: the sum of the lengths of the Match
(0) and Del (2) operations. -/
def rlen_spec (ops : List rapi_cigar) : Int :=
  ((ops.filter (fun o => o.op == 0 || o.op == 2)).map (fun o => (o.len : Int))).sum

/-- One attached tag as the specification words it: `KEY:T:VALUE`, with `A` and the
character for a char tag, `Z` and the text for a text tag, `i` and the decimal rendering
for an integer tag. -/
def tag_field_spec (t : rapi_tag) : List Char :=
  t.key ++ [':'] ++
    (if t.type = RAPI_VTYPE_CHAR then ['A', ':', t.value.character]
     else if t.type = RAPI_VTYPE_TEXT then ['Z', ':'] ++ t.value.text
     else ['i', ':'] ++ decimal t.value.integer)

/-- Optional-tag section as the specification words it: `NM` when the CIGAR is not
empty, `AS` when the score is not negative, then every attached tag, each after a tab. -/
def tag_section_spec (aln : rapi_alignment) : List Char :=
  (if aln.n_cigar_ops > 0 then
    ['\t', 'N', 'M', ':', 'i', ':'] ++ decimal (aln.n_mismatches : Int) else []) ++
  (if aln.score >= 0 then ['\t', 'A', 'S', ':', 'i', ':'] ++ decimal aln.score else []) ++
  aln.tags.flatMap (fun t => '\t' :: tag_field_spec t)

/-- Stored id as the specification words it: an identifier ending in `/1` or `/2` loses
those two characters, any other identifier is kept. -/
def stored_id_spec (name : List Char) : List Char :=
  if name.drop (name.length - 2) = ['/', '1'] ∨ name.drop (name.length - 2) = ['/', '2']
  then name.take (name.length - 2) else name

/-- Quality of a mate when the paired placement wins, as the specification words it:
the own quality `q_se` raised to `min (q_pe, q_se + 40)` and capped at the tandem-repeat
raw quality `raw`. -/
def pe_quality_spec (q_se q_pe raw : Int) : Int :=
  min (max q_se (min q_pe (q_se + 40))) raw

/-! ## Sample data -/

def chr1 : contig_ptr := ⟨0, ⟨['c', 'h', 'r', '1'], 1000⟩⟩
def chr2 : contig_ptr := ⟨1, ⟨['c', 'h', 'r', '2'], 2000⟩⟩

/-- A forward alignment on `chr1` at position 101 with CIGAR `8M`. -/
def aln_fwd : rapi_alignment :=
  { zero_alignment with contig := some chr1, pos := 101, mapq := 60, score := 8,
                        mapped := true, cigar_ops := [⟨0, 8⟩], n_cigar_ops := 1 }

/-- A reverse-strand alignment on `chr1` at position 394 with CIGAR `8M`. -/
def aln_rev : rapi_alignment :=
  { zero_alignment with contig := some chr1, pos := 394, mapq := 60, score := 8,
                        mapped := true, reverse_strand := true,
                        cigar_ops := [⟨0, 8⟩], n_cigar_ops := 1 }

/-- Read `r1`, sequence `AACCGGTN`, no quality, aligned forward. -/
def read_fwd : rapi_read :=
  { id := some ['r', '1'], seq := some ['A', 'A', 'C', 'C', 'G', 'G', 'T', 'N'],
    qual := none, length := 8, alignments := [aln_fwd], n_alignments := 1 }

/-- Read `r1`, sequence `AACCGGTN`, quality `ABCDEFGH`, aligned on the reverse strand. -/
def read_rev : rapi_read :=
  { id := some ['r', '1'], seq := some ['A', 'A', 'C', 'C', 'G', 'G', 'T', 'N'],
    qual := some ['A', 'B', 'C', 'D', 'E', 'F', 'G', 'H'],
    length := 8, alignments := [aln_rev], n_alignments := 1 }

/-- Options as `rapi_opts_init` sets them (`rapi_bwa.c` 333-355), pairing enabled and
mate rescue switched off. -/
def sample_opt : mem_opt_t :=
  { a := 1, T := 30, pen_unpaired := 17, max_matesw := 100, max_ins := 10000,
    n_threads := 1, F_PE := false, F_NOPAIRING := false, F_ALL := false,
    F_NO_MULTI := false, F_NO_RESCUE := true }

/-- A reference with the two sample contigs. -/
def sample_ref : rapi_ref :=
  { path := ['r', 'e', 'f'], n_contigs := 2, contigs := [chr1.target, chr2.target],
    l_pac := 3000 }

/-- Stand-ins for the BWA routines: a region converts to a forward `8M` alignment on
contig 0 at its start, a null region to BWA's unmapped record; the pair score is the sum
of the two best scores; primary marking and rescue change nothing. -/
def sample_services : bwa_services :=
  { mem_reg2aln := fun _ _ p =>
      match p with
      | none => { zero_aln with rid := -1, pos := -1, flag := 4 }
      | some r => { pos := r.rb, rid := 0, flag := 0, is_rev := 0, mapq := 0, NM := 0,
                    n_cigar := 1, cigar := [128], score := r.score, sub := r.sub },
    mem_approx_mapq_se := fun _ _ => 60,
    mem_mark_primary_se := fun _ a _ => a,
    mem_matesw := fun _ _ _ _ ma => (0, ma),
    mem_pair := fun _ _ _ _ a0 a1 _ => ⟨(reg_at a0 0).score + (reg_at a1 0).score, 0, 0, 0, 0⟩,
    mem_align1_core := fun _ _ => [],
    mem_pestat := fun _ _ pes => pes,
    log_penalty := fun _ => 0 }

/-- The two reads of fragment `r1` as BWA receives them. -/
def sample_seq : bseq1_t :=
  { l_seq := 8, name := some ['r', '1'], seq := ['A', 'A', 'C', 'C', 'G', 'G', 'T', 'N'],
    qual := none }

/-- Read slot `r1` before alignment. -/
def read_new : rapi_read :=
  { id := some ['r', '1'], seq := some ['A', 'A', 'C', 'C', 'G', 'G', 'T', 'N'],
    qual := none, length := 8, alignments := [], n_alignments := 0 }

/-- A single-end batch holding the one read `r1`. -/
def sample_batch : rapi_batch := { n_frags := 1, n_reads_frag := 1, reads := [read_new] }

/-- Options around `sample_opt`. -/
def sample_config : rapi_opts :=
  { ignore_unsupported := 1, mapq_min := 0, isize_min := 0, isize_max := 10000,
    parameters := [], _private := sample_opt }

def sample_state : rapi_aligner_state := { n_reads_processed := 0, pes := [] }

/-- Read `r1` whose alignment holds the coordinates of `aln_fwd` but is marked
unmapped. -/
def read_unmapped_coords : rapi_read :=
  { read_fwd with alignments := [{ aln_fwd with mapped := false }] }

/-- An alignment with one tag of each of the kinds char, text and integer. -/
def aln_tagged : rapi_alignment :=
  { aln_fwd with n_mismatches := 2, tags :=
      [⟨['X', 'C'], 1, { zero_value with character := 'q' }⟩,
       ⟨['X', 'S'], 2, { zero_value with text := ['4', '2'] }⟩,
       ⟨['X', 'I'], 3, { zero_value with integer := -7 }⟩] }

/-- A paired batch of two fragments whose first slot holds `read_new`. -/
def sample_batch_pe : rapi_batch :=
  { n_frags := 2, n_reads_frag := 2, reads := [read_new, zero_read, zero_read, zero_read] }

/-- Read `r1` whose alignment is unmapped and without contig but still holds a position
and a CIGAR. -/
def read_unmapped_nocontig : rapi_read :=
  { read_fwd with alignments := [{ aln_fwd with mapped := false, contig := none }] }

/-- The mate of `read_fwd` before it has any alignment. -/
def read_mate_new : rapi_read :=
  { id := some ['r', '1'], seq := some ['T', 'T', 'G', 'C'], qual := none, length := 4,
    alignments := [], n_alignments := 0 }

/-- A parameter named `k` holding the integer 7. -/
def param_int : rapi_param :=
  rapi_param_set_long { rapi_param_init with name := ['k'] } 7

/-- A parameter named `t` holding the text `abc`. -/
def param_text : rapi_param :=
  rapi_param_set_text { rapi_param_init with name := ['t'] } ['a', 'b', 'c']

/-- A tag `XI` holding the integer -7. -/
def tag_int : rapi_tag := rapi_tag_set_long (rapi_tag_set_key ⟨[], 0, zero_value⟩ ['X', 'I']) (-7)

/-- A forward alignment on `chr1` marked mapped whose CIGAR is empty. -/
def aln_no_cigar : rapi_alignment :=
  { zero_alignment with contig := some chr1, pos := 101, mapq := 60, score := 8,
                        mapped := true }

/-- A forward alignment on `chr2` at position 500 with CIGAR `8M`. -/
def aln_chr2 : rapi_alignment :=
  { zero_alignment with contig := some chr2, pos := 500, mapq := 60, score := 8,
                        mapped := true, cigar_ops := [⟨0, 8⟩], n_cigar_ops := 1 }

/-- A reverse-strand alignment on `chr1` at position 94 with CIGAR `8M`, whose last
base lies at 101. -/
def aln_rev_101 : rapi_alignment :=
  { zero_alignment with contig := some chr1, pos := 94, mapq := 60, score := 8,
                        mapped := true, reverse_strand := true,
                        cigar_ops := [⟨0, 8⟩], n_cigar_ops := 1 }

/-- A batch declaring three reads per fragment. -/
def sample_batch_3 : rapi_batch :=
  { n_frags := 1, n_reads_frag := 3, reads := [read_new, read_new, read_new] }

/-- A batch declaring no read per fragment. -/
def sample_batch_0 : rapi_batch := { n_frags := 1, n_reads_frag := 0, reads := [] }

/-- Stand-ins as `sample_services`, except that the pairing routine returns a pair
score equal to the sum of the two top scores less 17, with the second candidate of the
first mate as its choice. -/
def sample_services_tie : bwa_services :=
  { sample_services with
      mem_pair := fun _ _ _ _ a0 a1 _ =>
        ⟨(reg_at a0 0).score + (reg_at a1 0).score - 17, 0, 0, 1, 0⟩ }

/-- Stand-ins as `sample_services`, except that every record handed back carries the
reference id 5, beyond the two contigs of `sample_ref`. -/
def sample_services_bad : bwa_services :=
  { sample_services with mem_reg2aln := fun _ _ _ => { zero_aln with rid := 5 } }

/-- An aligner result on contig 0 at 0-based position 100, reverse strand, with the
packed CIGAR `2S6M`. -/
def bwa_aln_mapped : mem_aln_t :=
  { zero_aln with pos := 100, rid := 0, is_rev := 1, mapq := 60, n_cigar := 2,
                  cigar := [35, 96], score := 6, sub := -1 }

/-- An aligner result on contig 0 whose packed CIGAR has 256 operations `1M`. -/
def bwa_aln_long : mem_aln_t :=
  { zero_aln with pos := 100, rid := 0, mapq := 60, n_cigar := 256,
                  cigar := List.replicate 256 16, score := 6, sub := -1 }

/-- Options as `sample_opt` with match bonus 140. -/
def sample_opt_140 : mem_opt_t := { sample_opt with a := 140 }

/-- Stand-ins as `sample_services`, except that the single-end estimate is 0 and the
pairing routine returns the pair score 2390 for the two top candidates. -/
def sample_services_2390 : bwa_services :=
  { sample_services with
      mem_approx_mapq_se := fun _ _ => 0,
      mem_pair := fun _ _ _ _ _ _ _ => ⟨2390, 0, 0, 0, 0⟩ }

/-! ## Basic facts about the buffer primitives -/

theorem decimal_zero : decimal 0 = ['0'] := by decide

theorem c_bytes_self (p : List Char) : c_bytes p p.length = p := by
  unfold c_bytes
  apply List.ext_getElem
  · simp
  · intro n h1 h2
    simp [List.getD_eq_getElem?_getD, List.getElem?_eq_getElem h2]

theorem loop_up_self (p : List Char) :
    loop_up 0 (p.length : Int) (fun i => char_at p i) = p := by
  unfold loop_up char_at
  apply List.ext_getElem
  · simp
  · intro n h1 h2
    simp [List.getD_eq_getElem?_getD, List.getElem?_eq_getElem h2]

theorem loop_down_empty (b : Int) (f : Int → α) : loop_down (b - 1) b f = [] := by
  simp [loop_down]

theorem put_cigar_fold (ops : List rapi_cigar) (fh : Bool) (l : List Nat) (out : kstring) :
    l.foldl
      (fun out i =>
        let c := (cigar_at ops i).op
        let c := if c == 3 || c == 4 then (if fh then 4 else 3) else c
        let out := kputw ((cigar_at ops i).len : Int) out
        kputc (MIDSH c) out)
      out = out ++ l.flatMap (cigar_piece ops fh) := by
  induction l generalizing out with
  | nil => simp
  | cons x xs ih =>
    simp only [List.foldl_cons, List.flatMap_cons]
    rw [ih]
    simp [kputw, kputc, cigar_piece, List.append_assoc]

theorem rapi_put_cigar_eq (n : Nat) (ops : List rapi_cigar) (fh : Bool) (out : kstring) :
    rapi_put_cigar n ops fh out =
      out ++ (if n > 0 then (List.range n).flatMap (cigar_piece ops fh) else ['*']) := by
  unfold rapi_put_cigar
  split
  · rw [put_cigar_fold]
  · simp [kputc]

theorem rapi_put_cigar_append (n : Nat) (ops : List rapi_cigar) (fh : Bool) (out : kstring) :
    rapi_put_cigar n ops fh out = out ++ rapi_put_cigar n ops fh [] := by
  rw [rapi_put_cigar_eq, rapi_put_cigar_eq n ops fh []]
  simp

theorem range_map_getD {β : Type} (l : List β) (d : β) :
    (List.range l.length).map (fun i => l.getD i d) = l := by
  apply List.ext_getElem
  · simp
  · intro n h1 h2
    simp [List.getD_eq_getElem?_getD, List.getElem?_eq_getElem h2]

theorem range_flatMap_getD {β γ : Type} (l : List β) (d : β) (g : β → List γ) :
    (List.range l.length).flatMap (fun i => g (l.getD i d)) = l.flatMap g := by
  have h := congrArg (fun m => List.flatMap m g) (range_map_getD l d)
  simpa [List.flatMap_map] using h

/-! ## The record as a concatenation of its sections -/

theorem sam_put_coords_append (aln : rapi_alignment) (out : kstring) :
    sam_put_coords aln out = out ++ sam_put_coords aln [] := by
  unfold sam_put_coords
  cases aln.contig with
  | none => simp [kputsn, kputc]
  | some c =>
    simp only [kputc, kputs, kputl, kputw]
    rw [rapi_put_cigar_append, rapi_put_cigar_append _ _ _ ([] ++ _ ++ _ ++ _ ++ _ ++ _ ++ _)]
    simp [List.append_assoc]

theorem sam_put_mate_append (aln mate_aln : rapi_alignment) (out : kstring) :
    sam_put_mate aln mate_aln out = (sam_put_mate aln mate_aln []).map (fun t => out ++ t) := by
  unfold sam_put_mate
  cases mate_aln.contig with
  | none => simp [kputsn, kputc]
  | some mc =>
    simp only [kputc, kputs, kputl]
    split <;> split <;> cases rapi_get_insert_size aln mate_aln <;> simp [List.append_assoc]

theorem sam_put_seq_qual_append (read : rapi_read) (aln : rapi_alignment) (out : kstring) :
    sam_put_seq_qual read aln out =
      (sam_put_seq_qual read aln []).map (fun t => out ++ t) := by
  unfold sam_put_seq_qual
  split
  · simp [kputsn]
  · cases read.seq with
    | none => simp
    | some seq =>
      cases read.qual <;> simp only [kputsn, kputc] <;> split <;> simp [List.append_assoc]

theorem rapi_format_tag_append (t : rapi_tag) (out : kstring) :
    rapi_format_tag t out = (rapi_format_tag t []).map (fun r => (r.1, out ++ r.2)) := by
  unfold rapi_format_tag
  simp only [kputs, kputc, kputsn, kputl, rapi_tag_get_char, rapi_tag_get_text,
    rapi_tag_get_long, rapi_tag_get_dbl]
  split_ifs <;> simp [List.append_assoc]

theorem sam_put_user_tags_append (ts : List rapi_tag) (e : Int) (out : kstring) :
    sam_put_user_tags ts e out =
      (sam_put_user_tags ts e []).map (fun r => (r.1, out ++ r.2)) := by
  induction ts generalizing e out with
  | nil => simp [sam_put_user_tags]
  | cons t ts ih =>
    unfold sam_put_user_tags
    rw [rapi_format_tag_append t (kputc '\t' out), rapi_format_tag_append t (kputc '\t' [])]
    cases rapi_format_tag t [] with
    | none => simp
    | some r =>
      obtain ⟨e1, o1⟩ := r
      simp only [Option.map_some', kputc]
      rw [ih e1 (out ++ ['\t'] ++ o1), ih e1 ([] ++ ['\t'] ++ o1)]
      cases sam_put_user_tags ts e1 [] <;> simp [List.append_assoc]

theorem sam_put_tags_append (aln : rapi_alignment) (out : kstring) :
    sam_put_tags aln out = (sam_put_tags aln []).map (fun r => (r.1, out ++ r.2)) := by
  unfold sam_put_tags
  simp only [kputw, kputsn]
  rw [sam_put_user_tags_append, sam_put_user_tags_append _ _ (ite _ _ _)]
  cases sam_put_user_tags aln.tags RAPI_NO_ERROR [] with
  | none => simp
  | some r => split_ifs <;> simp [List.append_assoc]

/-- The record written by `rapi_format_sam`, section by section. -/
theorem rapi_format_sam_sections (read : rapi_read) (mate : Option rapi_read) (out : kstring) :
    rapi_format_sam read mate out =
      (read.id).bind (fun id =>
        (sam_put_mate (sam_resolve read mate).1 (sam_resolve read mate).2 []).bind (fun mt =>
          (sam_put_seq_qual read (sam_resolve read mate).1 []).bind (fun sq =>
            (sam_put_tags (sam_resolve read mate).1 []).map (fun r =>
              (r.1, out ++ id ++ ['\t'] ++
                decimal ((sam_flag mate (sam_resolve read mate).1 (sam_resolve read mate).2
                  &&& 0xffff : Nat) : Int) ++ ['\t'] ++
                sam_put_coords (sam_resolve read mate).1 [] ++ mt ++ sq ++ r.2))))) := by
  unfold rapi_format_sam
  cases read.id with
  | none => simp
  | some id =>
    simp only [Option.some_bind, kputc, kputs, kputw]
    rw [sam_put_mate_append, sam_put_coords_append]
    cases sam_put_mate (sam_resolve read mate).1 (sam_resolve read mate).2 [] with
    | none => simp
    | some mt =>
      simp only [Option.map_some', Option.some_bind]
      rw [sam_put_seq_qual_append]
      cases sam_put_seq_qual read (sam_resolve read mate).1 [] with
      | none => simp
      | some sq =>
        simp only [Option.map_some', Option.some_bind]
        rw [sam_put_tags_append]

/-! ## Insert size -/

theorem contig_eq_comm (a b : Option contig_ptr) : contig_eq a b = contig_eq b a := by
  have hc : ∀ x y : Option Nat, (x == y) = (y == x) := by
    intro x y
    by_cases h : x = y
    · subst h
      rfl
    · have h2 : ¬ y = x := fun e => h e.symm
      simp [h, h2]
  exact hc _ _

/-- Claim C4. For two alignments mapped to the same contig with non-empty CIGARs,
`rapi_get_insert_size` returns `-(p0 - p1 + sign (p0 - p1))` for the strand-adjusted
positions `p0`, `p1`; when either alignment is unmapped or the contigs differ it
returns 0. -/
theorem insert_size_formula (read mate : rapi_alignment) :
    (read.mapped = true → mate.mapped = true → contig_eq read.contig mate.contig = true →
      0 < read.n_cigar_ops → 0 < mate.n_cigar_ops →
      rapi_get_insert_size read mate =
        some (-(strand_pos read - strand_pos mate +
          Int.sign (strand_pos read - strand_pos mate)))) ∧
    (read.mapped = false ∨ mate.mapped = false ∨ contig_eq read.contig mate.contig = false →
      rapi_get_insert_size read mate = some 0) := by
  constructor
  · intro h1 h2 h3 h4 h5
    have e1 : read.n_cigar_ops ≠ 0 := by omega
    have e2 : mate.n_cigar_ops ≠ 0 := by omega
    have hs : ∀ x y : Int, (if x > y then (1 : Int) else if x < y then -1 else 0)
        = Int.sign (x - y) := by
      intro x y
      rcases lt_trichotomy x y with h | h | h
      · have : x - y < 0 := by omega
        rw [Int.sign_eq_neg_one_of_neg this]
        simp [h, not_lt.mpr (le_of_lt h)]
      · subst h
        simp
      · have : 0 < x - y := by omega
        rw [Int.sign_eq_one_of_pos this]
        simp [h]
    simp only [rapi_get_insert_size, h1, h2, h3, strand_pos, hs]
    cases read.reverse_strand <;> cases mate.reverse_strand <;>
      simp [Int.add_sub_assoc, e1, e2]
  · intro h
    unfold rapi_get_insert_size
    rcases h with h | h | h <;> simp [h]

/-- Witness for C4: a forward read at 100 and a reverse mate at 350 spanning 50 bases. -/
theorem insert_size_formula_witness :
    rapi_get_insert_size
        { zero_alignment with contig := some ⟨0, ⟨['c'], 1000⟩⟩, pos := 100, mapped := true,
                              cigar_ops := [⟨0, 50⟩], n_cigar_ops := 1 }
        { zero_alignment with contig := some ⟨0, ⟨['c'], 1000⟩⟩, pos := 350, mapped := true,
                              reverse_strand := true,
                              cigar_ops := [⟨0, 50⟩], n_cigar_ops := 1 }
      = some 300 :=
  ((insert_size_formula _ _).1 (by decide) (by decide) (by decide) (by decide)
    (by decide)).trans (by decide)

theorem insert_size_swap (a b : rapi_alignment) (x : Int)
    (h : rapi_get_insert_size a b = some x) : rapi_get_insert_size b a = some (-x) := by
  unfold rapi_get_insert_size at h ⊢
  rw [contig_eq_comm b.contig a.contig, Bool.and_comm b.mapped a.mapped,
    Bool.or_comm (a.n_cigar_ops == 0) (b.n_cigar_ops == 0)]
  split at h
  · rename_i hc
    rw [if_pos hc]
    split at h
    · simp at h
    · rename_i hn
      rw [if_neg hn]
      simp only [Option.some.injEq] at h ⊢
      subst h
      split_ifs <;> omega
  · rename_i hc
    rw [if_neg hc]
    simp only [Option.some.injEq] at h ⊢
    omega

/-- Claim C5. Insert size is antisymmetric: whenever `rapi_get_insert_size a b` returns
`x` (it does not abort), `rapi_get_insert_size b a` returns `-x`. -/
theorem insert_size_antisymm (a b : rapi_alignment) (x : Int)
    (h : rapi_get_insert_size a b = some x) : rapi_get_insert_size b a = some (-x) :=
  insert_size_swap a b x h

/-- Witness for C5 on the pair of the C4 witness. -/
theorem insert_size_antisymm_witness :
    rapi_get_insert_size
        { zero_alignment with contig := some ⟨0, ⟨['c'], 1000⟩⟩, pos := 350, mapped := true,
                              reverse_strand := true,
                              cigar_ops := [⟨0, 50⟩], n_cigar_ops := 1 }
        { zero_alignment with contig := some ⟨0, ⟨['c'], 1000⟩⟩, pos := 100, mapped := true,
                              cigar_ops := [⟨0, 50⟩], n_cigar_ops := 1 }
      = some (-300) :=
  insert_size_antisymm _ _ 300 (by decide)

/-! ## CIGAR rendering -/

/-- Claim C10, as stated, fails: a hard clip of length 5 rendered without the
force-hard-clip flag prints `5S`, not its own character `H`. -/
theorem put_cigar_hard_clip_prints_S :
    rapi_put_cigar 1 [⟨4, 5⟩] false [] = ['5', 'S'] ∧
    rapi_put_cigar 1 [⟨4, 5⟩] false [] ≠ [] ++ cigar_text_spec [⟨4, 5⟩] := by
  decide

/-- Claim C10, amended. Without the force-hard-clip flag `rapi_put_cigar` appends, for
each operation in order, the decimal length followed by `M`, `I`, `D` for Match, Ins,
Del and by `S` for both SoftClip and HardClip; an empty list appends exactly `*`. -/
theorem put_cigar_soft (ops : List rapi_cigar) (out : kstring)
    (hops : ∀ o ∈ ops, o.op ≤ 4) :
    rapi_put_cigar ops.length ops false out =
      out ++ (if ops = [] then ['*']
        else ops.flatMap (fun o => decimal (o.len : Int) ++ [soft_op_char o.op])) := by
  rw [rapi_put_cigar_eq]
  congr 1
  cases ops with
  | nil => simp
  | cons o os =>
    have hne : (o :: os) ≠ [] := by simp
    have hpos : (o :: os).length > 0 := by simp
    rw [if_pos hpos, if_neg hne]
    have hp : ∀ i, cigar_piece (o :: os) false i =
        (fun c : rapi_cigar => decimal (c.len : Int) ++
          [MIDSH (if c.op == 3 || c.op == 4 then 3 else c.op)])
          ((o :: os).getD i ⟨0, 0⟩) := by
      intro i
      simp [cigar_piece, cigar_at]
    rw [funext hp]
    refine (range_flatMap_getD (o :: os) ⟨0, 0⟩ (fun c : rapi_cigar =>
      decimal (c.len : Int) ++ [MIDSH (if c.op == 3 || c.op == 4 then 3 else c.op)])).trans
      (List.flatMap_congr ?_)
    intro c hc
    have h4 := hops c hc
    have : c.op = 0 ∨ c.op = 1 ∨ c.op = 2 ∨ c.op = 3 ∨ c.op = 4 := by omega
    rcases this with h | h | h | h | h <;> simp [h, soft_op_char, MIDSH]

/-- Witness for C10 (amended): `3S 40M 2I 5D 7H` prints `3S40M2I5D7S`. -/
theorem put_cigar_soft_witness :
    rapi_put_cigar 5 [⟨3, 3⟩, ⟨0, 40⟩, ⟨1, 2⟩, ⟨2, 5⟩, ⟨4, 7⟩] false ['x'] =
      ['x', '3', 'S', '4', '0', 'M', '2', 'I', '5', 'D', '7', 'S'] :=
  (put_cigar_soft [⟨3, 3⟩, ⟨0, 40⟩, ⟨1, 2⟩, ⟨2, 5⟩, ⟨4, 7⟩] ['x'] (by decide)).trans
    (by decide)

/-! ## FLAG -/

theorem sam_flag_eq_spec (read : rapi_read) (mate : Option rapi_read) :
    sam_flag mate (sam_resolve read mate).1 (sam_resolve read mate).2 =
      flag_spec mate.isSome (sam_first_alignment (some read)) (sam_first_alignment mate) := by
  unfold sam_flag sam_resolve flag_spec
  generalize sam_first_alignment (some read) = a
  generalize sam_first_alignment mate = m
  cases mate.isSome <;> cases ha : a.mapped <;> cases hm : m.mapped <;>
    cases hp : a.paired <;> cases hpp : a.prop_paired <;> cases hr : a.reverse_strand <;>
    cases hs : a.secondary_aln <;> cases hmr : m.reverse_strand <;>
    simp [ha, hm, hp, hpp, hr, hs, hmr]

theorem flag_spec_lt (b : Bool) (a m : rapi_alignment) : flag_spec b a m < 0x200 := by
  unfold flag_spec
  cases b <;> cases a.mapped <;> cases m.mapped <;>
    cases a.paired <;> cases a.prop_paired <;> cases a.reverse_strand <;>
    cases a.secondary_aln <;> cases m.reverse_strand <;> decide

theorem sam_flag_word (read : rapi_read) (mate : Option rapi_read) :
    sam_flag mate (sam_resolve read mate).1 (sam_resolve read mate).2 &&& 0xffff =
      flag_spec mate.isSome (sam_first_alignment (some read)) (sam_first_alignment mate) := by
  rw [sam_flag_eq_spec]
  have hlt := flag_spec_lt mate.isSome (sam_first_alignment (some read))
    (sam_first_alignment mate)
  have : (0xffff : Nat) = 2 ^ 16 - 1 := by norm_num
  rw [this, Nat.and_pow_two_sub_one_eq_mod]
  apply Nat.mod_eq_of_lt
  omega

/-- Claim C3. The record appended by `rapi_format_sam` is the id, a tab, the decimal
rendering of `flag_spec` and a tab, followed by the remaining sections: the FLAG field
is exactly the bitwise OR listed in `flag_spec`, which depends only on the boolean
fields of the two first alignments and on the presence of the mate. -/
theorem format_sam_flag (read : rapi_read) (mate : Option rapi_read) (out : kstring) :
    rapi_format_sam read mate out =
      (read.id).bind (fun id =>
        (sam_put_mate (sam_resolve read mate).1 (sam_resolve read mate).2 []).bind (fun mt =>
          (sam_put_seq_qual read (sam_resolve read mate).1 []).bind (fun sq =>
            (sam_put_tags (sam_resolve read mate).1 []).map (fun r =>
              (r.1, out ++ id ++ ['\t'] ++
                decimal (flag_spec mate.isSome (sam_first_alignment (some read))
                  (sam_first_alignment mate) : Nat) ++ ['\t'] ++
                sam_put_coords (sam_resolve read mate).1 [] ++ mt ++ sq ++ r.2))))) := by
  rw [rapi_format_sam_sections, sam_flag_word]

/-- Whenever `rapi_format_sam` returns, the text after the id and a tab is the decimal
rendering of `flag_spec` followed by a tab. -/
theorem format_sam_flag_field (read : rapi_read) (mate : Option rapi_read) (out : kstring)
    (e : Int) (s : kstring) (h : rapi_format_sam read mate out = some (e, s)) :
    ∃ id rest, read.id = some id ∧
      s = out ++ id ++ ['\t'] ++
        decimal (flag_spec mate.isSome (sam_first_alignment (some read))
          (sam_first_alignment mate) : Nat) ++ ['\t'] ++ rest := by
  rw [rapi_format_sam_sections, sam_flag_word] at h
  cases hid : read.id with
  | none => simp [hid] at h
  | some id =>
    cases hmt : sam_put_mate (sam_resolve read mate).1 (sam_resolve read mate).2 [] with
    | none => simp [hmt] at h
    | some mt =>
      cases hsq : sam_put_seq_qual read (sam_resolve read mate).1 [] with
      | none => simp [hmt, hsq] at h
      | some sq =>
        cases htg : sam_put_tags (sam_resolve read mate).1 [] with
        | none => simp [hmt, hsq, htg] at h
        | some r =>
          simp only [hid, hmt, hsq, htg, Option.some_bind, Option.map_some',
            Option.some.injEq, Prod.mk.injEq] at h
          refine ⟨id, sam_put_coords (sam_resolve read mate).1 [] ++ mt ++ sq ++ r.2, rfl, ?_⟩
          rw [← h.2]
          simp [List.append_assoc]

/-- The forward read with its reverse-strand mate carries FLAG 33 = 0x1 | 0x20. -/
theorem format_sam_flag_sample :
    flag_spec true aln_fwd aln_rev = 33 ∧
    rapi_format_sam read_fwd (some read_rev) [] = some (0,
      "r1\t33\tchr1\t101\t60\t8M\t=\t394\t301\tAACCGGTN\t*\tNM:i:0\tAS:i:8".toList) := by
  decide

/-! ## Records of single reads -/

theorem sam_resolve_single (read : rapi_read) (aln : rapi_alignment)
    (rest : List rapi_alignment) (hn : 0 < read.n_alignments)
    (hal : read.alignments = aln :: rest) :
    sam_resolve read none = (aln, zero_alignment) := by
  simp [sam_resolve, sam_first_alignment, hn, hal, zero_alignment]

/-- Claim C1. For a read encoded without a mate whose first alignment is mapped (with
its contig), forward, not secondary and not marked paired or properly paired, the
appended record is exactly id, `0`, contig name, position, mapping quality, rendered
CIGAR, `*`, `0`, `0`, the stored sequence, the stored quality (or `*`), tab separated
and followed only by the optional tags. -/
theorem format_sam_single_forward (read : rapi_read) (aln : rapi_alignment)
    (rest : List rapi_alignment) (c : contig_ptr) (id seq : List Char) (out : kstring)
    (hid : read.id = some id) (hseq : read.seq = some seq)
    (hlen : read.length = seq.length)
    (hqual : ∀ q, read.qual = some q → q.length = read.length)
    (hn : 0 < read.n_alignments) (hal : read.alignments = aln :: rest)
    (hc : aln.contig = some c) (hm : aln.mapped = true)
    (hf : aln.reverse_strand = false) (hs : aln.secondary_aln = false)
    (hp : aln.paired = false) (hpp : aln.prop_paired = false) :
    rapi_format_sam read none out =
      (sam_put_tags aln []).map (fun r => (r.1,
        out ++ id ++ ['\t'] ++ ['0'] ++ ['\t'] ++ c.target.name ++ ['\t'] ++
          decimal (aln.pos : Int) ++ ['\t'] ++ decimal (aln.mapq : Int) ++ ['\t'] ++
          rapi_put_cigar aln.n_cigar_ops aln.cigar_ops false [] ++
          ['\t', '*', '\t', '0', '\t', '0', '\t'] ++
          seq ++ ['\t'] ++ read.qual.getD ['*'] ++ r.2)) := by
  rw [rapi_format_sam_sections, sam_resolve_single read aln rest hn hal]
  have hflag : sam_flag none aln zero_alignment = 0 := by
    simp [sam_flag, hm, hf, hs, hp, hpp]
  have hcoords : sam_put_coords aln [] = c.target.name ++ ['\t'] ++
      decimal (aln.pos : Int) ++ ['\t'] ++ decimal (aln.mapq : Int) ++ ['\t'] ++
      rapi_put_cigar aln.n_cigar_ops aln.cigar_ops false [] ++ ['\t'] := by
    simp only [sam_put_coords, hc, kputc, kputs, kputl, kputw]
    rw [rapi_put_cigar_append]
    simp [List.append_assoc]
  have hmate : sam_put_mate aln zero_alignment [] = some ['*', '\t', '0', '\t', '0', '\t'] := by
    simp [sam_put_mate, zero_alignment, kputsn, kputc, c_bytes, List.range_succ, NUL]
  have hsq : sam_put_seq_qual read aln [] = some (seq ++ ['\t'] ++ read.qual.getD ['*']) := by
    simp only [sam_put_seq_qual, hs, hseq, hf, kputsn, kputc]
    rw [hlen, c_bytes_self]
    cases hq : read.qual with
    | none => simp
    | some q =>
      have hql := hqual q hq
      rw [hlen] at hql
      simp only [Bool.false_eq_true, if_false, Bool.not_false, if_true, Option.getD_some]
      rw [← hql, loop_up_self]
      simp
  simp only [hid, hflag, hcoords, hmate, hsq, Option.some_bind]
  cases sam_put_tags aln [] with
  | none => simp
  | some r => simp [decimal_zero, List.append_assoc]

/-- Witness for C1: read `r1` aligned forward on `chr1` at 101 with CIGAR `8M`. -/
theorem format_sam_single_forward_witness :
    rapi_format_sam read_fwd none [] =
      some (0, "r1\t0\tchr1\t101\t60\t8M\t*\t0\t0\tAACCGGTN\t*\tNM:i:0\tAS:i:8".toList) :=
  (format_sam_single_forward read_fwd aln_fwd [] chr1 ['r', '1']
    ['A', 'A', 'C', 'C', 'G', 'G', 'T', 'N'] [] rfl rfl rfl (by decide) (by decide) rfl rfl
    rfl rfl rfl rfl rfl).trans (by decide)

/-! ## Records of pairs -/

theorem insert_size_defined (a b : rapi_alignment) (ha : 0 < a.n_cigar_ops)
    (hb : 0 < b.n_cigar_ops) : ∃ x, rapi_get_insert_size a b = some x := by
  have e1 : a.n_cigar_ops ≠ 0 := by omega
  have e2 : b.n_cigar_ops ≠ 0 := by omega
  unfold rapi_get_insert_size
  split
  · simp [e1, e2]
  · exact ⟨0, rfl⟩

theorem insert_size_zero_of_ne (a b : rapi_alignment)
    (h : contig_eq a.contig b.contig = false) : rapi_get_insert_size a b = some 0 := by
  simp [rapi_get_insert_size, h]

theorem sam_resolve_pair (read mate : rapi_read) (ra ma : rapi_alignment)
    (rrest mrest : List rapi_alignment)
    (hrn : 0 < read.n_alignments) (hral : read.alignments = ra :: rrest)
    (hmn : 0 < mate.n_alignments) (hmal : mate.alignments = ma :: mrest)
    (hrm : ra.mapped = true) (hmm : ma.mapped = true) :
    sam_resolve read (some mate) =
      ({ ra with paired := true }, { ma with paired := true }) := by
  simp [sam_resolve, sam_first_alignment, hrn, hral, hmn, hmal, hrm, hmm]

theorem sam_put_mate_mapped (a m : rapi_alignment) (mc : contig_ptr) (x : Int)
    (ham : a.mapped = true) (hmc : m.contig = some mc)
    (hx : rapi_get_insert_size a m = some x) :
    sam_put_mate a m [] =
      some (mate_fields_spec (contig_eq a.contig m.contig) mc.target.name m.pos x ++
        ['\t']) := by
  unfold sam_put_mate
  simp only [hx, hmc, ham, kputc, kputs, kputl, mate_fields_spec]
  cases hce : contig_eq a.contig (some mc) with
  | true => simp
  | false =>
    have hz := insert_size_zero_of_ne a m (by rw [hmc]; exact hce)
    rw [hx] at hz
    simp

/-- The record of a read encoded with its mate when both are mapped, given the insert
size `x` of the pair. -/
theorem format_sam_pair (read mate : rapi_read) (ra ma : rapi_alignment)
    (rrest mrest : List rapi_alignment) (mc : contig_ptr) (id : List Char) (out : kstring)
    (x : Int) (hid : read.id = some id)
    (hrn : 0 < read.n_alignments) (hral : read.alignments = ra :: rrest)
    (hmn : 0 < mate.n_alignments) (hmal : mate.alignments = ma :: mrest)
    (hrm : ra.mapped = true) (hmm : ma.mapped = true) (hmc : ma.contig = some mc)
    (hx : rapi_get_insert_size ra ma = some x) :
    rapi_format_sam read (some mate) out =
      (sam_put_seq_qual read ra
        (out ++ id ++ ['\t'] ++ decimal (flag_spec true ra ma : Nat) ++ ['\t'] ++
          sam_put_coords ra [] ++
          mate_fields_spec (contig_eq ra.contig ma.contig) mc.target.name ma.pos x ++
          ['\t'])).bind (sam_put_tags ra) := by
  have hfirst_r : sam_first_alignment (some read) = ra := by
    simp [sam_first_alignment, hrn, hral]
  have hfirst_m : sam_first_alignment (some mate) = ma := by
    simp [sam_first_alignment, hmn, hmal]
  rw [rapi_format_sam_sections, sam_flag_word, hfirst_r, hfirst_m,
    sam_resolve_pair read mate ra ma rrest mrest hrn hral hmn hmal hrm hmm]
  have hsq : ∀ o, sam_put_seq_qual read { ra with paired := true } o =
      sam_put_seq_qual read ra o := fun _ => rfl
  have htg : ∀ o, sam_put_tags { ra with paired := true } o = sam_put_tags ra o :=
    fun _ => rfl
  have hco : sam_put_coords { ra with paired := true } [] = sam_put_coords ra [] := rfl
  have his : rapi_get_insert_size { ra with paired := true } { ma with paired := true } =
      rapi_get_insert_size ra ma := rfl
  have hmate : sam_put_mate { ra with paired := true } { ma with paired := true } [] =
      some (mate_fields_spec (contig_eq ra.contig ma.contig) mc.target.name ma.pos x ++
        ['\t']) :=
    sam_put_mate_mapped { ra with paired := true } { ma with paired := true } mc x hrm hmc
      (his.trans hx)
  simp only [hid, hmate, hsq, htg, hco, Option.some_bind, Option.isSome_some]
  rw [sam_put_seq_qual_append read ra (_ ++ _)]
  cases sam_put_seq_qual read ra [] with
  | none => simp
  | some sq =>
    simp only [Option.map_some', Option.some_bind]
    rw [sam_put_tags_append ra (_ ++ _)]
    cases sam_put_tags ra [] <;> simp [List.append_assoc]

/-- Claim C6. For a read and its mate both mapped (each with its contig) and with
non-empty CIGARs, the record written for the read carries, after its first six fields,
`=` (same contig) or the mate's contig name, the mate's position, and the insert size
`rapi_get_insert_size read mate` (same contig) or `0`; the record of (mate, read)
carries the insert size of opposite sign, hence of equal magnitude. -/
theorem format_sam_mate_fields (read mate : rapi_read) (ra ma : rapi_alignment)
    (rrest mrest : List rapi_alignment) (rc mc : contig_ptr) (id mid : List Char)
    (out : kstring) (hid : read.id = some id) (hmid : mate.id = some mid)
    (hrn : 0 < read.n_alignments) (hral : read.alignments = ra :: rrest)
    (hmn : 0 < mate.n_alignments) (hmal : mate.alignments = ma :: mrest)
    (hrm : ra.mapped = true) (hmm : ma.mapped = true)
    (hrc : ra.contig = some rc) (hmc : ma.contig = some mc)
    (hrcig : 0 < ra.n_cigar_ops) (hmcig : 0 < ma.n_cigar_ops) :
    ∃ x : Int, rapi_get_insert_size ra ma = some x ∧
      rapi_get_insert_size ma ra = some (-x) ∧ (-x).natAbs = x.natAbs ∧
      rapi_format_sam read (some mate) out =
        (sam_put_seq_qual read ra
          (out ++ id ++ ['\t'] ++ decimal (flag_spec true ra ma : Nat) ++ ['\t'] ++
            sam_put_coords ra [] ++
            mate_fields_spec (contig_eq ra.contig ma.contig) mc.target.name ma.pos x ++
            ['\t'])).bind (sam_put_tags ra) ∧
      rapi_format_sam mate (some read) out =
        (sam_put_seq_qual mate ma
          (out ++ mid ++ ['\t'] ++ decimal (flag_spec true ma ra : Nat) ++ ['\t'] ++
            sam_put_coords ma [] ++
            mate_fields_spec (contig_eq ra.contig ma.contig) rc.target.name ra.pos (-x) ++
            ['\t'])).bind (sam_put_tags ma) := by
  obtain ⟨x, hx⟩ := insert_size_defined ra ma hrcig hmcig
  have hx2 := insert_size_swap ra ma x hx
  refine ⟨x, hx, hx2, Int.natAbs_neg x, ?_, ?_⟩
  · exact format_sam_pair read mate ra ma rrest mrest mc id out x hid hrn hral hmn hmal
      hrm hmm hmc hx
  · rw [contig_eq_comm ra.contig ma.contig]
    exact format_sam_pair mate read ma ra mrest rrest rc mid out (-x) hmid hmn hmal hrn hral
      hmm hrm hrc hx2

/-- Witness for C6: `r1` forward at 101 and its mate on the reverse strand at 394 of the
same contig carry `=`, insert sizes 301 and -301. -/
theorem format_sam_mate_fields_witness :
    ∃ x : Int, rapi_get_insert_size aln_fwd aln_rev = some x ∧
      rapi_get_insert_size aln_rev aln_fwd = some (-x) ∧ (-x).natAbs = x.natAbs ∧
      rapi_format_sam read_fwd (some read_rev) [] =
        (sam_put_seq_qual read_fwd aln_fwd
          ([] ++ ['r', '1'] ++ ['\t'] ++ decimal (flag_spec true aln_fwd aln_rev : Nat) ++
            ['\t'] ++ sam_put_coords aln_fwd [] ++
            mate_fields_spec (contig_eq aln_fwd.contig aln_rev.contig) chr1.target.name
              aln_rev.pos x ++
            ['\t'])).bind (sam_put_tags aln_fwd) ∧
      rapi_format_sam read_rev (some read_fwd) [] =
        (sam_put_seq_qual read_rev aln_rev
          ([] ++ ['r', '1'] ++ ['\t'] ++ decimal (flag_spec true aln_rev aln_fwd : Nat) ++
            ['\t'] ++ sam_put_coords aln_rev [] ++
            mate_fields_spec (contig_eq aln_fwd.contig aln_rev.contig) chr1.target.name
              aln_fwd.pos (-x) ++
            ['\t'])).bind (sam_put_tags aln_rev) :=
  format_sam_mate_fields read_fwd read_rev aln_fwd aln_rev [] [] chr1 chr1 ['r', '1']
    ['r', '1'] [] rfl rfl (by decide) rfl (by decide) rfl rfl rfl rfl rfl (by decide)
    (by decide)

/-! ## Reverse-strand records -/

/-- On the reverse strand the two printing loops run from `begin - 1` down to `begin`
and visit nothing: SEQ and QUAL are written empty. -/
theorem sam_put_seq_qual_reverse (read : rapi_read) (aln : rapi_alignment)
    (seq : List Char) (out : kstring) (hs : aln.secondary_aln = false)
    (hr : aln.reverse_strand = true) (hseq : read.seq = some seq) :
    sam_put_seq_qual read aln out =
      some (out ++ ['\t'] ++ (if read.qual.isSome then [] else ['*'])) := by
  simp only [sam_put_seq_qual, hs, hr, hseq, loop_down_empty, kputc]
  cases read.qual <;> simp

/-- Claim C2 against the code: for read `r1` (sequence `AACCGGTN`, quality `ABCDEFGH`)
mapped on the reverse strand, the specification asks for SEQ `NACCGGTT` and QUAL
`HGFEDCBA`; the record written has both fields empty. -/
theorem format_sam_reverse_fields_empty :
    reverse_complement_spec ['A', 'A', 'C', 'C', 'G', 'G', 'T', 'N'] = "NACCGGTT".toList ∧
    ['A', 'B', 'C', 'D', 'E', 'F', 'G', 'H'].reverse = "HGFEDCBA".toList ∧
    rapi_format_sam read_rev none [] =
      some (0, "r1\t16\tchr1\t394\t60\t8M\t*\t0\t0\t\t\tNM:i:0\tAS:i:8".toList) := by
  decide

/-! ## Proper-pair flag and single-end batches -/

/-- No converted alignment is ever marked properly paired. -/
theorem convert_aln_prop_paired (ref : rapi_ref) (is_paired : Int) (b : mem_aln_t) :
    (convert_aln ref is_paired b).prop_paired = false := by
  unfold convert_aln
  split_ifs <;> rfl

/-- Claim C7 against the code: for a pair whose pair score 120 exceeds the unpaired
score 60 + 60 - 17, `_bwa_mem_pe` stores for each mate one alignment whose
`prop_paired` is false, and the record of the first mate carries FLAG 1, without bit
0x2. -/
theorem mem_pe_paired_not_flagged :
    (sample_services.mem_pair sample_opt [] sample_seq sample_seq
        [⟨100, 108, 60, 0, 0, -1⟩] [⟨392, 400, 60, 0, 0, -1⟩] 0).o > 60 + 60 - 17 ∧
    (_bwa_mem_pe sample_services sample_opt sample_ref [] 0 sample_seq sample_seq
        [⟨100, 108, 60, 0, 0, -1⟩] [⟨392, 400, 60, 0, 0, -1⟩] read_new read_new).map
      (fun r => (r.2.1.alignments.map (fun a => a.prop_paired),
        r.2.2.alignments.map (fun a => a.prop_paired))) = some ([false], [false]) ∧
    (_bwa_mem_pe sample_services sample_opt sample_ref [] 0 sample_seq sample_seq
        [⟨100, 108, 60, 0, 0, -1⟩] [⟨392, 400, 60, 0, 0, -1⟩] read_new read_new).bind
      (fun r => rapi_format_sam r.2.1 (some r.2.2) []) =
      some (0,
        "r1\t1\tchr1\t101\t60\t8M\t=\t393\t293\tAACCGGTN\t*\tNM:i:0\tAS:i:60\tXS:Z:0".toList) := by
  decide

/-- Claim C8 against the code: after `rapi_align_reads` returns `RAPI_NO_ERROR` on the
single-end batch holding read `r1`, the batch is unchanged and the read still has no
alignment attached. -/
theorem align_reads_single_end_no_alignment (sv : bwa_services) :
    (rapi_align_reads sv sample_ref sample_batch sample_config sample_state).map
      (fun r => (r.1, r.2.1, r.2.1.reads.map (fun x => x.n_alignments))) =
      some (RAPI_NO_ERROR, sample_batch, [0]) := by
  rfl

/-! ## Alignments stored per mate -/

theorem convert_alns_ok (ref : rapi_ref) (is_paired : Int) (l : List mem_aln_t)
    (h : ∀ b ∈ l, b.rid < ref.n_contigs) :
    convert_alns ref is_paired l = some (l.map (convert_aln ref is_paired)) := by
  induction l with
  | nil => rfl
  | cons b bs ih =>
    have hb : ¬ b.rid ≥ ref.n_contigs := not_le.mpr (h b (List.mem_cons_self b bs))
    have hbs := ih (fun x hx => h x (List.mem_cons_of_mem b hx))
    simp [convert_alns, hb, hbs]

theorem bwa_aln_to_rapi_aln_ok (ref : rapi_ref) (our_read : rapi_read) (is_paired : Int)
    (l : List mem_aln_t) (len : Int) (hlen : len = (l.length : Int))
    (h : ∀ b ∈ l, b.rid < ref.n_contigs) :
    _bwa_aln_to_rapi_aln ref our_read is_paired l len =
      (RAPI_NO_ERROR, { our_read with alignments := l.map (convert_aln ref is_paired),
                                      n_alignments := l.length % 256 }) := by
  subst hlen
  have hneg : ¬ ((l.length : Int) < 0) := by omega
  have hmod : (((l.length : Int)) % 256).toNat = l.length % 256 := by omega
  simp only [_bwa_aln_to_rapi_aln, hneg, if_false, Int.toNat_ofNat, range_map_getD,
    convert_alns_ok ref is_paired l h, hmod]

theorem convert_aln_unmapped (ref : rapi_ref) (is_paired : Int) (b : mem_aln_t)
    (h : b.rid < 0) :
    (convert_aln ref is_paired b).mapped = false ∧
    (convert_aln ref is_paired b).contig = none ∧
    (convert_aln ref is_paired b).cigar_ops = [] ∧
    (convert_aln ref is_paired b).n_cigar_ops = 0 := by
  have h1 : ¬ b.rid ≥ 0 := not_le.mpr h
  unfold convert_aln
  simp only [h1, if_false, decide_False]
  split_ifs <;> simp [zero_alignment]

theorem reg2_se_step_cases (sv : bwa_services) (opt : mem_opt_t) (seq : bseq1_t)
    (a : List mem_alnreg_t) (ef : Nat) (aa : List mem_aln_t) (k : Nat) :
    (reg2_se_keeps opt a k = false → reg2_se_step sv opt seq a ef aa k = aa) ∧
    (reg2_se_keeps opt a k = true →
      ∃ q, q.rid = (sv.mem_reg2aln opt seq (some (reg_at a k))).rid ∧
        reg2_se_step sv opt seq a ef aa k = aa ++ [q]) := by
  unfold reg2_se_keeps reg2_se_step
  by_cases h1 : (reg_at a k).score < opt.T
  · simp [h1]
  · by_cases h2 : ((reg_at a k).secondary >= 0 && !opt.F_ALL) = true
    · simp [h1, h2]
    · by_cases h3 : ((reg_at a k).secondary >= 0 &&
          decide (2 * (reg_at a k).score < (reg_at a (reg_at a k).secondary).score)) = true
      · simp only [h1, h2, h3]
        simp
      · simp only [h1, h2, h3]
        simp only [if_false, decide_False, Bool.not_false, Bool.and_self, Bool.not_eq_true,
          Bool.true_eq_false, false_implies, true_and, forall_true_left, Bool.false_eq_true]
        refine ⟨_, ?_, rfl⟩
        split_ifs <;> rfl

theorem reg2_se_fold (sv : bwa_services) (opt : mem_opt_t) (seq : bseq1_t)
    (a : List mem_alnreg_t) (ef : Nat) (l : List Nat) (aa : List mem_aln_t) :
    ∃ extra, l.foldl (reg2_se_step sv opt seq a ef) aa = aa ++ extra ∧
      extra.length = (l.filter (reg2_se_keeps opt a)).length ∧
      ∀ q ∈ extra, ∃ p, q.rid = (sv.mem_reg2aln opt seq p).rid := by
  induction l generalizing aa with
  | nil => exact ⟨[], by simp⟩
  | cons k ks ih =>
    have hc := reg2_se_step_cases sv opt seq a ef aa k
    cases hk : reg2_se_keeps opt a k with
    | false =>
      obtain ⟨extra, h1, h2, h3⟩ := ih aa
      refine ⟨extra, ?_, ?_, h3⟩
      · simp only [List.foldl_cons, hc.1 hk, h1]
      · simp [List.filter_cons, hk, h2]
    | true =>
      obtain ⟨q, hq, hstep⟩ := hc.2 hk
      obtain ⟨extra, h1, h2, h3⟩ := ih (aa ++ [q])
      refine ⟨q :: extra, ?_, ?_, ?_⟩
      · simp only [List.foldl_cons, hstep, h1, List.append_assoc, List.singleton_append]
      · simp [List.filter_cons, hk, h2]
      · intro x hx
        rcases List.mem_cons.mp hx with hx | hx
        · exact ⟨_, hx ▸ hq⟩
        · exact h3 x hx

/-- What `_bwa_reg2_rapi_aln_se` leaves in the read when every reference id that BWA
hands back is below the number of contigs. -/
theorem bwa_reg2_rapi_aln_se_ok (sv : bwa_services) (opt : mem_opt_t) (ref : rapi_ref)
    (our_read : rapi_read) (seq : bseq1_t) (a : List mem_alnreg_t) (ef : Nat)
    (hrid : ∀ s p, (sv.mem_reg2aln opt s p).rid < ref.n_contigs) :
    (_bwa_reg2_rapi_aln_se sv opt ref our_read seq a ef).1 = RAPI_NO_ERROR ∧
    (_bwa_reg2_rapi_aln_se sv opt ref our_read seq a ef).2.alignments.length =
      max 1 (reg2_se_count opt a) ∧
    (_bwa_reg2_rapi_aln_se sv opt ref our_read seq a ef).2.n_alignments =
      max 1 (reg2_se_count opt a) % 256 ∧
    (reg2_se_count opt a = 0 →
      (_bwa_reg2_rapi_aln_se sv opt ref our_read seq a ef).2.n_alignments = 1 ∧
      ∃ t : mem_aln_t, t.rid = (sv.mem_reg2aln opt seq none).rid ∧
        (_bwa_reg2_rapi_aln_se sv opt ref our_read seq a ef).2.alignments =
          [convert_aln ref 0 t]) := by
  obtain ⟨extra, h1, h2, h3⟩ := reg2_se_fold sv opt seq a ef (List.range a.length) []
  simp only [List.nil_append] at h1
  have hcount : reg2_se_count opt a = extra.length := h2.symm
  unfold _bwa_reg2_rapi_aln_se
  simp only [h1, hcount]
  cases extra with
  | nil =>
    have hone : ∀ b ∈ [{ sv.mem_reg2aln opt seq none with
        flag := (sv.mem_reg2aln opt seq none).flag ||| ef }], b.rid < ref.n_contigs := by
      intro b hb
      rw [List.mem_singleton.mp hb]
      exact hrid seq none
    simp only [List.length_nil, beq_self_eq_true, if_true]
    rw [bwa_aln_to_rapi_aln_ok ref our_read 0 _ 1 (by simp) hone]
    refine ⟨rfl, by simp, by simp, fun _ => ⟨by simp,
      { sv.mem_reg2aln opt seq none with flag := (sv.mem_reg2aln opt seq none).flag ||| ef },
      rfl, by simp⟩⟩
  | cons q qs =>
    have hall : ∀ b ∈ q :: qs, b.rid < ref.n_contigs := by
      intro b hb
      obtain ⟨p, hp⟩ := h3 b hb
      rw [hp]
      exact hrid seq p
    have hne : ((q :: qs).length == 0) = false := by simp
    simp only [hne, Bool.false_eq_true, if_false]
    rw [bwa_aln_to_rapi_aln_ok ref our_read 0 _ _ rfl hall]
    refine ⟨rfl, by simp, by simp, fun h => by simp at h⟩

theorem pe_no_pairing_ok (sv : bwa_services) (opt : mem_opt_t) (ref : rapi_ref)
    (pes : List mem_pestat_t) (s0 s1 : bseq1_t) (a0 a1 : List mem_alnreg_t)
    (out0 out1 : rapi_read) (n : Int) (ef : Nat)
    (hname : names_differ s0.name s1.name = some false)
    (hrid : ∀ s p, (sv.mem_reg2aln opt s p).rid < ref.n_contigs) :
    pe_no_pairing sv opt ref pes s0 s1 a0 a1 out0 out1 n ef =
      some (n,
        (_bwa_reg2_rapi_aln_se sv opt ref out0 s0 a0
          (0x41 ||| pe_no_pairing_flag sv opt ref pes s0 s1 a0 a1 ef)).2,
        (_bwa_reg2_rapi_aln_se sv opt ref out1 s1 a1
          (0x81 ||| pe_no_pairing_flag sv opt ref pes s0 s1 a0 a1 ef)).2) := by
  have h0 := (bwa_reg2_rapi_aln_se_ok sv opt ref out0 s0 a0
    (0x41 ||| pe_no_pairing_flag sv opt ref pes s0 s1 a0 a1 ef) hrid).1
  have h1 := (bwa_reg2_rapi_aln_se_ok sv opt ref out1 s1 a1
    (0x81 ||| pe_no_pairing_flag sv opt ref pes s0 s1 a0 a1 ef) hrid).1
  unfold pe_no_pairing
  rcases hx0 : _bwa_reg2_rapi_aln_se sv opt ref out0 s0 a0
    (0x41 ||| pe_no_pairing_flag sv opt ref pes s0 s1 a0 a1 ef) with ⟨e0, r0⟩
  rcases hx1 : _bwa_reg2_rapi_aln_se sv opt ref out1 s1 a1
    (0x81 ||| pe_no_pairing_flag sv opt ref pes s0 s1 a0 a1 ef) with ⟨e1, r1⟩
  rw [hx0] at h0
  rw [hx1] at h1
  simp only at h0 h1
  subst h0
  subst h1
  simp [hx0, hx1, hname, RAPI_NO_ERROR]

theorem bwa_worker_1_frame (sv : bwa_services) (w : bwa_worker_t) (i : Nat) :
    (bwa_worker_1 sv w i).rapi_reads = w.rapi_reads ∧ (bwa_worker_1 sv w i).opt = w.opt := by
  unfold bwa_worker_1
  split <;> exact ⟨rfl, rfl⟩

theorem bwa_worker_1_fold_frame (sv : bwa_services) (l : List Nat) (w : bwa_worker_t) :
    (l.foldl (bwa_worker_1 sv) w).rapi_reads = w.rapi_reads ∧
    (l.foldl (bwa_worker_1 sv) w).opt = w.opt := by
  induction l generalizing w with
  | nil => exact ⟨rfl, rfl⟩
  | cons i is ih =>
    obtain ⟨h1, h2⟩ := ih (bwa_worker_1 sv w i)
    obtain ⟨h3, h4⟩ := bwa_worker_1_frame sv w i
    exact ⟨h1.trans h3, h2.trans h4⟩

theorem bwa_worker_2_single_end (sv : bwa_services) (w : bwa_worker_t) (i : Nat)
    (h : w.opt.F_PE = false) :
    ∃ w2, bwa_worker_2 sv w i = some w2 ∧ w2.rapi_reads = w.rapi_reads ∧ w2.opt = w.opt := by
  unfold bwa_worker_2
  simp only [h, Bool.false_eq_true, if_false]
  exact ⟨{ w with regs := w.regs.set i [] }, by simp [RAPI_NO_ERROR], rfl, rfl⟩

theorem kt_for_2_single_end (sv : bwa_services) (l : List Nat) (w : bwa_worker_t)
    (h : w.opt.F_PE = false) :
    ∃ w2, l.foldl
        (fun st i => match st with
          | none => none
          | some w => bwa_worker_2 sv w i)
        (some w) = some w2 ∧ w2.rapi_reads = w.rapi_reads ∧ w2.opt = w.opt := by
  induction l generalizing w with
  | nil => exact ⟨w, rfl, rfl, rfl⟩
  | cons i is ih =>
    obtain ⟨w1, h1, h2, h3⟩ := bwa_worker_2_single_end sv w i h
    obtain ⟨w2, h4, h5, h6⟩ := ih w1 (by rw [h3]; exact h)
    refine ⟨w2, ?_, h5.trans h2, h6.trans h3⟩
    simp only [List.foldl_cons, h1]
    exact h4

/-- On every single-end batch (one read per fragment, `MEM_F_PE` not set in the options)
`rapi_align_reads` returns with the batch exactly as it was: no alignment is attached to
any read. -/
theorem align_reads_single_end_frame (sv : bwa_services) (ref : rapi_ref)
    (batch : rapi_batch) (config : rapi_opts) (state : rapi_aligner_state)
    (h1 : batch.n_reads_frag = 1) (hpe : config._private.F_PE = false) :
    ∃ e cfg st, rapi_align_reads sv ref batch config state = some (e, batch, cfg, st) := by
  obtain ⟨nf, nrf, reads⟩ := batch
  simp only at h1
  subst h1
  unfold rapi_align_reads
  simp only [_convert_opts, RAPI_NO_ERROR, hpe]
  simp only [show ¬ ((1 : Int) > 2) by decide, show ¬ ((1 : Int) ≤ 0) by decide, if_false,
    show ((1 : Int) == 2) = false by decide, Bool.false_eq_true, bne_self_eq_false]
  rcases hb : _batch_to_bwa_seq ⟨nf, 1, reads⟩ with ⟨eb, bwa_seqs⟩
  by_cases he : eb = 0
  · subst he
    simp only [bne_self_eq_false, Bool.false_eq_true, if_false, hpe]
    obtain ⟨h3, h4⟩ := bwa_worker_1_fold_frame sv (List.range bwa_seqs.n_reads.toNat)
      { opt := { config._private with
          T := config.mapq_min, max_ins := config.isize_max, F_PE := false },
        read_batch := bwa_seqs, regs := List.replicate bwa_seqs.n_reads.toNat [],
        pes := state.pes, n_processed := state.n_reads_processed, rapi_ref := ref,
        rapi_reads := reads }
    obtain ⟨w2, h5, h6, -⟩ := kt_for_2_single_end sv (List.range bwa_seqs.n_reads.toNat) _
      (by rw [h4])
    unfold kt_for_2
    rw [h5]
    simp only [h6, h3]
    exact ⟨_, _, _, rfl⟩
  · have : (eb != 0) = true := by simpa using he
    simp only [this, if_true]
    exact ⟨_, _, _, rfl⟩

/-! ## Reference span -/

theorem range_foldl_getD {β γ : Type} (l : List β) (d : β) (f : γ → β → γ) (init : γ) :
    (List.range l.length).foldl (fun acc k => f acc (l.getD k d)) init = l.foldl f init := by
  have h := congrArg (fun m => List.foldl f init m) (range_map_getD l d)
  simpa [List.foldl_map] using h

theorem wrap_int_add (a b : Int) : wrap_int (wrap_int a + b) = wrap_int (a + b) := by
  unfold wrap_int
  omega

theorem wrap_int_id (a : Int) (h0 : 0 ≤ a) (h1 : a < 2 ^ 31) : wrap_int a = a := by
  unfold wrap_int
  omega

theorem rlen_spec_cons (o : rapi_cigar) (os : List rapi_cigar) :
    rlen_spec (o :: os) =
      (if o.op == 0 || o.op == 2 then (o.len : Int) else 0) + rlen_spec os := by
  unfold rlen_spec
  by_cases h : (o.op == 0 || o.op == 2) = true
  · simp [List.filter_cons, h]
  · simp [List.filter_cons, h]

theorem rlen_spec_nonneg (ops : List rapi_cigar) : 0 ≤ rlen_spec ops := by
  induction ops with
  | nil => simp [rlen_spec]
  | cons o os ih =>
    rw [rlen_spec_cons]
    split_ifs <;> omega

theorem rlen_foldl (ops : List rapi_cigar) (init : Int) :
    ops.foldl (fun len c =>
        if c.op == 0 || c.op == 2 then wrap_int (len + (c.len : Int)) else len)
      (wrap_int init) = wrap_int (init + rlen_spec ops) := by
  induction ops generalizing init with
  | nil => simp [rlen_spec]
  | cons o os ih =>
    simp only [List.foldl_cons]
    rw [rlen_spec_cons]
    by_cases h : (o.op == 0 || o.op == 2) = true
    · simp only [h, if_true]
      rw [wrap_int_add, ih, Int.add_assoc]
    · simp only [h, Bool.false_eq_true, if_false]
      rw [ih, Int.zero_add]

/-- The span computed by `rapi_get_rlen` is the sum of the Match and Del lengths as the
`int` accumulator holds it. -/
theorem get_rlen_wrap (ops : List rapi_cigar) :
    rapi_get_rlen ops.length ops = wrap_int (rlen_spec ops) := by
  unfold rapi_get_rlen cigar_at
  have h := range_foldl_getD ops ⟨0, 0⟩
    (fun (len : Int) (c : rapi_cigar) =>
      if c.op == 0 || c.op == 2 then wrap_int (len + (c.len : Int)) else len) 0
  simp only at h
  rw [h]
  have h0 : (0 : Int) = wrap_int 0 := by decide
  rw [h0, rlen_foldl, Int.zero_add]

/-- Claim C11, as stated, fails: nine Match operations of length 268435455 sum to
2415919095, beyond the range of the `int` accumulator, and `rapi_get_rlen` returns
-1879048201. -/
theorem get_rlen_overflows :
    rlen_spec (List.replicate 9 ⟨0, 268435455⟩) = 2415919095 ∧
    rapi_get_rlen 9 (List.replicate 9 ⟨0, 268435455⟩) = -1879048201 := by
  decide

/-- Claim C11, amended. For every CIGAR operation list whose Match (op 0) and Del (op 2)
lengths sum to at most 2^31 - 1, `rapi_get_rlen` returns the sum of the lengths of
exactly those operations; every other operation contributes nothing. -/
theorem get_rlen_sum (ops : List rapi_cigar) (h : rlen_spec ops < 2 ^ 31) :
    rapi_get_rlen ops.length ops = rlen_spec ops := by
  rw [get_rlen_wrap, wrap_int_id _ (rlen_spec_nonneg ops) h]

/-- Witness for C11 (amended): `2S6M1I3D4H` spans 9 reference bases. -/
theorem get_rlen_sum_witness :
    rapi_get_rlen 5 [⟨3, 2⟩, ⟨0, 6⟩, ⟨1, 1⟩, ⟨2, 3⟩, ⟨4, 4⟩] = 9 :=
  (get_rlen_sum [⟨3, 2⟩, ⟨0, 6⟩, ⟨1, 1⟩, ⟨2, 3⟩, ⟨4, 4⟩] (by decide)).trans (by decide)

/-! ## Records of unmapped reads -/

theorem sam_put_coords_none (aln : rapi_alignment) (h : aln.contig = none) :
    sam_put_coords aln [] = ['*', '\t', '0', '\t', '0', '\t', '*', '\t'] := by
  simp [sam_put_coords, h, kputsn, kputc, c_bytes, List.range_succ, NUL]

theorem sam_put_coords_some (aln : rapi_alignment) (c : contig_ptr) (h : aln.contig = some c) :
    sam_put_coords aln [] = c.target.name ++ ['\t'] ++ decimal (aln.pos : Int) ++ ['\t'] ++
      decimal (aln.mapq : Int) ++ ['\t'] ++
      rapi_put_cigar aln.n_cigar_ops aln.cigar_ops false [] ++ ['\t'] := by
  simp only [sam_put_coords, h, kputc, kputs, kputl, kputw]
  rw [rapi_put_cigar_append]
  simp [List.append_assoc]

theorem sam_put_mate_none (aln mate_aln : rapi_alignment) (h : mate_aln.contig = none) :
    sam_put_mate aln mate_aln [] = some ['*', '\t', '0', '\t', '0', '\t'] := by
  simp [sam_put_mate, h, kputsn, kputc, c_bytes, List.range_succ, NUL]

theorem sam_resolve_unmapped (read : rapi_read) (mate : Option rapi_read)
    (hr : (sam_first_alignment (some read)).mapped = false)
    (hm : (sam_first_alignment mate).mapped = false) :
    sam_resolve read mate =
      (if mate.isSome then { sam_first_alignment (some read) with paired := true }
        else sam_first_alignment (some read),
       if mate.isSome then { sam_first_alignment mate with paired := true }
        else sam_first_alignment mate) := by
  unfold sam_resolve
  cases mate.isSome <;> simp [hr, hm]

/-- Claim C12. For a read and a supplied mate whose first alignments (a zeroed one when
there is none) are unmapped and hold no contig, the record is the id, FLAG 13, contig
`*`, position `0`, mapping quality `0`, CIGAR `*`, mate contig `*`, mate position `0`,
insert size `0`, followed by SEQ, QUAL and the tags. -/
theorem format_sam_unmapped_pair (read mate : rapi_read) (out : kstring)
    (hr : (sam_first_alignment (some read)).mapped = false)
    (hrc : (sam_first_alignment (some read)).contig = none)
    (hm : (sam_first_alignment (some mate)).mapped = false)
    (hmc : (sam_first_alignment (some mate)).contig = none) :
    rapi_format_sam read (some mate) out =
      (read.id).bind (fun id =>
        (sam_put_seq_qual read (sam_first_alignment (some read)) []).bind (fun sq =>
          (sam_put_tags (sam_first_alignment (some read)) []).map (fun r =>
            (r.1, out ++ id ++
              ['\t', '1', '3', '\t', '*', '\t', '0', '\t', '0', '\t', '*',
               '\t', '*', '\t', '0', '\t', '0', '\t'] ++ sq ++ r.2)))) := by
  rw [rapi_format_sam_sections, sam_flag_word, sam_resolve_unmapped read (some mate) hr hm]
  have hflag : flag_spec true (sam_first_alignment (some read))
      (sam_first_alignment (some mate)) = 13 := by
    simp [flag_spec, hr, hm]
  have hco : sam_put_coords { sam_first_alignment (some read) with paired := true } [] =
      ['*', '\t', '0', '\t', '0', '\t', '*', '\t'] := sam_put_coords_none _ hrc
  have hmt : sam_put_mate { sam_first_alignment (some read) with paired := true }
      { sam_first_alignment (some mate) with paired := true } [] =
      some ['*', '\t', '0', '\t', '0', '\t'] := sam_put_mate_none _ _ hmc
  have hsq : sam_put_seq_qual read { sam_first_alignment (some read) with paired := true } [] =
      sam_put_seq_qual read (sam_first_alignment (some read)) [] := rfl
  have htg : sam_put_tags { sam_first_alignment (some read) with paired := true } [] =
      sam_put_tags (sam_first_alignment (some read)) [] := rfl
  have hd : decimal ((13 : Nat) : Int) = ['1', '3'] := by decide
  simp only [Option.isSome_some, if_true, hflag, hco, hmt, hsq, htg, Option.some_bind, hd]
  cases read.id with
  | none => rfl
  | some id =>
    simp only [Option.some_bind]
    cases sam_put_seq_qual read (sam_first_alignment (some read)) [] with
    | none => rfl
    | some sq =>
      simp only [Option.some_bind]
      cases sam_put_tags (sam_first_alignment (some read)) [] <;> simp [List.append_assoc]

/-- Witness for C12: two reads without any alignment encoded as a pair. -/
theorem format_sam_unmapped_pair_witness :
    rapi_format_sam read_new (some read_new) [] =
      some (0, "r1\t13\t*\t0\t0\t*\t*\t0\t0\tAACCGGTN\t*\tAS:i:0".toList) :=
  (format_sam_unmapped_pair read_new read_new [] rfl rfl rfl rfl).trans (by decide)

/-- Claim C13, as stated, fails: the alignment of `read_unmapped_coords` has
`mapped = false`, yet the record shows its contig `chr1`, position `101` and CIGAR `8M`,
because the encoder tests the contig pointer. -/
theorem format_sam_unmapped_prints_contig :
    (sam_first_alignment (some read_unmapped_coords)).mapped = false ∧
    rapi_format_sam read_unmapped_coords none [] =
      some (0, "r1\t4\tchr1\t101\t60\t8M\t*\t0\t0\tAACCGGTN\t*\tNM:i:0\tAS:i:8".toList) := by
  decide

/-- Claim C13, amended. For a read encoded without a mate whose first alignment has
`mapped = false`, the FLAG carries bit 0x4 and the coordinate fields are `*`, `0`, `0`,
`*` when the alignment holds no contig, whatever its pos and cigar fields hold; when it
holds a contig, the contig name, pos, mapq and rendered CIGAR are printed. -/
theorem format_sam_unmapped_single (read : rapi_read) (out : kstring)
    (hm : (sam_first_alignment (some read)).mapped = false) :
    rapi_format_sam read none out =
      (read.id).bind (fun id =>
        (sam_put_seq_qual read (sam_first_alignment (some read)) []).bind (fun sq =>
          (sam_put_tags (sam_first_alignment (some read)) []).map (fun r =>
            (r.1, out ++ id ++ ['\t'] ++
              (if (sam_first_alignment (some read)).paired then ['5'] else ['4']) ++ ['\t'] ++
              (match (sam_first_alignment (some read)).contig with
               | none => ['*', '\t', '0', '\t', '0', '\t', '*']
               | some c => c.target.name ++ ['\t'] ++
                   decimal ((sam_first_alignment (some read)).pos : Int) ++ ['\t'] ++
                   decimal ((sam_first_alignment (some read)).mapq : Int) ++ ['\t'] ++
                   rapi_put_cigar (sam_first_alignment (some read)).n_cigar_ops
                     (sam_first_alignment (some read)).cigar_ops false []) ++
              ['\t', '*', '\t', '0', '\t', '0', '\t'] ++ sq ++ r.2)))) := by
  have hz : (sam_first_alignment none).mapped = false := rfl
  rw [rapi_format_sam_sections, sam_flag_word, sam_resolve_unmapped read none hm hz]
  simp only [Option.isSome_none, Bool.false_eq_true, if_false]
  have hmt : sam_put_mate (sam_first_alignment (some read)) (sam_first_alignment none) [] =
      some ['*', '\t', '0', '\t', '0', '\t'] := sam_put_mate_none _ _ rfl
  have hflag : decimal (flag_spec false (sam_first_alignment (some read))
      (sam_first_alignment none) : Nat) =
      (if (sam_first_alignment (some read)).paired then ['5'] else ['4']) := by
    unfold flag_spec
    cases (sam_first_alignment (some read)).paired <;> simp [hm] <;> decide
  have hco : sam_put_coords (sam_first_alignment (some read)) [] =
      (match (sam_first_alignment (some read)).contig with
       | none => ['*', '\t', '0', '\t', '0', '\t', '*']
       | some c => c.target.name ++ ['\t'] ++
           decimal ((sam_first_alignment (some read)).pos : Int) ++ ['\t'] ++
           decimal ((sam_first_alignment (some read)).mapq : Int) ++ ['\t'] ++
           rapi_put_cigar (sam_first_alignment (some read)).n_cigar_ops
             (sam_first_alignment (some read)).cigar_ops false []) ++ ['\t'] := by
    cases hc : (sam_first_alignment (some read)).contig with
    | none => rw [sam_put_coords_none _ hc]; rfl
    | some c => rw [sam_put_coords_some _ c hc]
  rw [hmt, hflag, hco]
  cases read.id with
  | none => rfl
  | some id =>
    simp only [Option.some_bind]
    cases sam_put_seq_qual read (sam_first_alignment (some read)) [] with
    | none => rfl
    | some sq =>
      simp only [Option.some_bind]
      cases sam_put_tags (sam_first_alignment (some read)) [] <;> simp [List.append_assoc]

/-- Witness for C13 (amended): an unmapped alignment without contig that still holds
position 101 and CIGAR `8M` prints `*`, `0`, `0`, `*`. -/
theorem format_sam_unmapped_single_witness :
    rapi_format_sam read_unmapped_nocontig none [] =
      some (0, "r1\t4\t*\t0\t0\t*\t*\t0\t0\tAACCGGTN\t*\tNM:i:0\tAS:i:8".toList) :=
  (format_sam_unmapped_single read_unmapped_nocontig [] rfl).trans (by decide)

/-! ## Coordinate backfill -/

theorem sam_resolve_read_unmapped (read mate : rapi_read)
    (hr : (sam_first_alignment (some read)).mapped = false)
    (hm : (sam_first_alignment (some mate)).mapped = true) :
    sam_resolve read (some mate) =
      ({ sam_first_alignment (some read) with
          paired := true,
          contig := (sam_first_alignment (some mate)).contig,
          pos := (sam_first_alignment (some mate)).pos,
          reverse_strand := (sam_first_alignment (some mate)).reverse_strand },
       { sam_first_alignment (some mate) with paired := true }) := by
  unfold sam_resolve
  simp [hr, hm]

theorem sam_resolve_mate_unmapped (read mate : rapi_read)
    (hr : (sam_first_alignment (some read)).mapped = true)
    (hm : (sam_first_alignment (some mate)).mapped = false) :
    sam_resolve read (some mate) =
      ({ sam_first_alignment (some read) with paired := true },
       { sam_first_alignment (some mate) with
          paired := true,
          contig := (sam_first_alignment (some read)).contig,
          pos := (sam_first_alignment (some read)).pos,
          reverse_strand := (sam_first_alignment (some read)).reverse_strand }) := by
  unfold sam_resolve
  simp [hr, hm]

theorem contig_eq_self (c : Option contig_ptr) : contig_eq c c = true := by
  simp [contig_eq]

theorem sam_store_resolve_eq (read : rapi_read) (mate : Option rapi_read)
    (t1 t2 : rapi_alignment) :
    (sam_store_resolve ⟨read, mate, t1, t2⟩).read = read ∧
    (sam_store_resolve ⟨read, mate, t1, t2⟩).mate = mate ∧
    ((sam_store_resolve ⟨read, mate, t1, t2⟩).tmp_read,
      (sam_store_resolve ⟨read, mate, t1, t2⟩).tmp_mate) = sam_resolve read mate := by
  unfold sam_store_resolve sam_resolve sam_first_alignment
  cases mate with
  | none => simp
  | some m =>
    simp only [Option.isSome_some, if_true]
    split_ifs <;> simp

/-- Claim C14. When the read is unmapped and the supplied mate is mapped on contig `mc`,
the record shows `mc` and the mate's position as the read's coordinates, then `=`, the
mate's position and insert size `0`; when the read is mapped on contig `rc` and the mate
is unmapped, the mate fields are `=`, the read's own position and `0`. The backfill is
written to the local copies only: on the store of the call the two reads behind the
`const` pointers are what they were. -/
theorem format_sam_backfill (read mate : rapi_read) (out : kstring) :
    (∀ mc, (sam_first_alignment (some read)).mapped = false →
      (sam_first_alignment (some mate)).mapped = true →
      (sam_first_alignment (some mate)).contig = some mc →
      rapi_format_sam read (some mate) out =
        (read.id).bind (fun id =>
          (sam_put_seq_qual read
            { sam_first_alignment (some read) with
                reverse_strand := (sam_first_alignment (some mate)).reverse_strand }
            []).bind (fun sq =>
            (sam_put_tags (sam_first_alignment (some read)) []).map (fun r =>
              (r.1, out ++ id ++ ['\t'] ++
                decimal (flag_spec true (sam_first_alignment (some read))
                  (sam_first_alignment (some mate)) : Nat) ++ ['\t'] ++
                mc.target.name ++ ['\t'] ++
                decimal ((sam_first_alignment (some mate)).pos : Int) ++ ['\t'] ++
                decimal ((sam_first_alignment (some read)).mapq : Int) ++ ['\t'] ++
                rapi_put_cigar (sam_first_alignment (some read)).n_cigar_ops
                  (sam_first_alignment (some read)).cigar_ops false [] ++ ['\t'] ++
                ['='] ++ ['\t'] ++
                decimal ((sam_first_alignment (some mate)).pos : Int) ++ ['\t'] ++
                ['0'] ++ ['\t'] ++ sq ++ r.2))))) ∧
    (∀ rc, (sam_first_alignment (some read)).mapped = true →
      (sam_first_alignment (some mate)).mapped = false →
      (sam_first_alignment (some read)).contig = some rc →
      rapi_format_sam read (some mate) out =
        (read.id).bind (fun id =>
          (sam_put_seq_qual read (sam_first_alignment (some read)) []).bind (fun sq =>
            (sam_put_tags (sam_first_alignment (some read)) []).map (fun r =>
              (r.1, out ++ id ++ ['\t'] ++
                decimal (flag_spec true (sam_first_alignment (some read))
                  (sam_first_alignment (some mate)) : Nat) ++ ['\t'] ++
                rc.target.name ++ ['\t'] ++
                decimal ((sam_first_alignment (some read)).pos : Int) ++ ['\t'] ++
                decimal ((sam_first_alignment (some read)).mapq : Int) ++ ['\t'] ++
                rapi_put_cigar (sam_first_alignment (some read)).n_cigar_ops
                  (sam_first_alignment (some read)).cigar_ops false [] ++ ['\t'] ++
                ['='] ++ ['\t'] ++
                decimal ((sam_first_alignment (some read)).pos : Int) ++ ['\t'] ++
                ['0'] ++ ['\t'] ++ sq ++ r.2))))) ∧
    (∀ t1 t2 : rapi_alignment,
      (sam_store_resolve ⟨read, some mate, t1, t2⟩).read = read ∧
      (sam_store_resolve ⟨read, some mate, t1, t2⟩).mate = some mate ∧
      ((sam_store_resolve ⟨read, some mate, t1, t2⟩).tmp_read,
        (sam_store_resolve ⟨read, some mate, t1, t2⟩).tmp_mate) =
        sam_resolve read (some mate)) := by
  refine ⟨?_, ?_, fun t1 t2 => sam_store_resolve_eq read (some mate) t1 t2⟩
  · intro mc hr hm hmc
    rw [rapi_format_sam_sections, sam_flag_word, sam_resolve_read_unmapped read mate hr hm]
    simp only [Option.isSome_some]
    generalize sam_first_alignment (some read) = a at hr ⊢
    generalize sam_first_alignment (some mate) = m at hm hmc ⊢
    have hco := sam_put_coords_some
      { a with paired := true, contig := m.contig, pos := m.pos,
               reverse_strand := m.reverse_strand } mc hmc
    have hmt : sam_put_mate
        { a with paired := true, contig := m.contig, pos := m.pos,
                 reverse_strand := m.reverse_strand }
        { m with paired := true } [] =
        some (['='] ++ ['\t'] ++ decimal (m.pos : Int) ++ ['\t'] ++ ['0'] ++ ['\t']) := by
      simp [sam_put_mate, hmc, hr, contig_eq_self, kputc, kputl]
    have hsq : sam_put_seq_qual read
        { a with paired := true, contig := m.contig, pos := m.pos,
                 reverse_strand := m.reverse_strand } [] =
        sam_put_seq_qual read { a with reverse_strand := m.reverse_strand } [] := rfl
    have htg : sam_put_tags
        { a with paired := true, contig := m.contig, pos := m.pos,
                 reverse_strand := m.reverse_strand } [] = sam_put_tags a [] := rfl
    rw [hco, hmt, hsq, htg]
    cases read.id with
    | none => simp only [Option.none_bind]
    | some id =>
      simp only [Option.some_bind]
      cases sam_put_seq_qual read { a with reverse_strand := m.reverse_strand } [] with
      | none => simp only [Option.none_bind]
      | some sq =>
        simp only [Option.some_bind]
        cases sam_put_tags a [] <;> simp [List.append_assoc]
  · intro rc hr hm hrc
    rw [rapi_format_sam_sections, sam_flag_word, sam_resolve_mate_unmapped read mate hr hm]
    simp only [Option.isSome_some]
    generalize sam_first_alignment (some read) = a at hr hrc ⊢
    generalize sam_first_alignment (some mate) = m at hm ⊢
    have hco := sam_put_coords_some { a with paired := true } rc hrc
    have hmt : sam_put_mate { a with paired := true }
        { m with paired := true, contig := a.contig, pos := a.pos,
                 reverse_strand := a.reverse_strand } [] =
        some (['='] ++ ['\t'] ++ decimal (a.pos : Int) ++ ['\t'] ++ ['0'] ++ ['\t']) := by
      simp [sam_put_mate, hrc, hr, hm, contig_eq_self, kputc, kputl, rapi_get_insert_size,
        decimal_zero]
    have hsq : sam_put_seq_qual read { a with paired := true } [] =
        sam_put_seq_qual read a [] := rfl
    have htg : sam_put_tags { a with paired := true } [] = sam_put_tags a [] := rfl
    rw [hco, hmt, hsq, htg]
    cases read.id with
    | none => simp only [Option.none_bind]
    | some id =>
      simp only [Option.some_bind]
      cases sam_put_seq_qual read a [] with
      | none => simp only [Option.none_bind]
      | some sq =>
        simp only [Option.some_bind]
        cases sam_put_tags a [] <;> simp [List.append_assoc]

/-- Witness for C14: the two backfill records of the mapped read `r1` and its mate
without alignment. -/
theorem format_sam_backfill_witness :
    rapi_format_sam read_mate_new (some read_fwd) [] =
      some (0, "r1\t5\tchr1\t101\t0\t*\t=\t101\t0\tTTGC\t*\tAS:i:0".toList) ∧
    rapi_format_sam read_fwd (some read_mate_new) [] =
      some (0, "r1\t9\tchr1\t101\t60\t8M\t=\t101\t0\tAACCGGTN\t*\tNM:i:0\tAS:i:8".toList) :=
  ⟨((format_sam_backfill read_mate_new read_fwd []).1 chr1 rfl rfl rfl).trans (by decide),
   ((format_sam_backfill read_fwd read_mate_new []).2.1 chr1 rfl rfl rfl).trans (by decide)⟩

/-! ## Optional tags -/

theorem rapi_format_tag_kinds (t : rapi_tag) (str : kstring)
    (h : t.type = RAPI_VTYPE_CHAR ∨ t.type = RAPI_VTYPE_TEXT ∨ t.type = RAPI_VTYPE_INT) :
    rapi_format_tag t str = some (RAPI_NO_ERROR, str ++ tag_field_spec t) := by
  unfold rapi_format_tag tag_field_spec
  simp only [kputs, kputc, kputsn, kputl, rapi_tag_get_char, rapi_tag_get_text,
    rapi_tag_get_long, c_bytes_self]
  rcases h with h | h | h
  · simp [h, RAPI_VTYPE_CHAR, vtype_char, RAPI_NO_ERROR]
  · simp [h, RAPI_VTYPE_CHAR, RAPI_VTYPE_TEXT, vtype_char, RAPI_NO_ERROR]
  · simp [h, RAPI_VTYPE_CHAR, RAPI_VTYPE_TEXT, RAPI_VTYPE_INT, vtype_char, RAPI_NO_ERROR]

theorem sam_put_user_tags_kinds (ts : List rapi_tag) (e : Int) (out : kstring)
    (h : ∀ t ∈ ts, t.type = RAPI_VTYPE_CHAR ∨ t.type = RAPI_VTYPE_TEXT ∨
      t.type = RAPI_VTYPE_INT) :
    sam_put_user_tags ts e out =
      some (if ts = [] then e else RAPI_NO_ERROR,
        out ++ ts.flatMap (fun t => '\t' :: tag_field_spec t)) := by
  induction ts generalizing e out with
  | nil => simp [sam_put_user_tags]
  | cons t ts ih =>
    unfold sam_put_user_tags
    rw [rapi_format_tag_kinds t _ (h t (List.mem_cons_self t ts))]
    simp only
    rw [ih RAPI_NO_ERROR _ (fun x hx => h x (List.mem_cons_of_mem t hx))]
    simp [kputc, List.append_assoc]

theorem sam_put_tags_kinds (aln : rapi_alignment) (out : kstring)
    (h : ∀ t ∈ aln.tags, t.type = RAPI_VTYPE_CHAR ∨ t.type = RAPI_VTYPE_TEXT ∨
      t.type = RAPI_VTYPE_INT) :
    sam_put_tags aln out = some (RAPI_NO_ERROR, out ++ tag_section_spec aln) := by
  unfold sam_put_tags tag_section_spec
  rw [sam_put_user_tags_kinds aln.tags _ _ h]
  simp only [kputw, kputsn, ite_self]
  have hnm : c_bytes ['\t', 'N', 'M', ':', 'i', ':'] 6 = ['\t', 'N', 'M', ':', 'i', ':'] :=
    c_bytes_self _
  have has : c_bytes ['\t', 'A', 'S', ':', 'i', ':'] 6 = ['\t', 'A', 'S', ':', 'i', ':'] :=
    c_bytes_self _
  rw [hnm, has]
  split_ifs <;> simp [List.append_assoc]

theorem sam_resolve_tags (read : rapi_read) (mate : Option rapi_read) :
    sam_put_tags (sam_resolve read mate).1 [] =
      sam_put_tags (sam_first_alignment (some read)) [] := by
  unfold sam_resolve
  simp only []
  split_ifs <;> rfl

/-- Claim C15. For an alignment whose attached tags are of the kinds char, text and
integer, the section written after the quality field is exactly the `NM` tag iff the
CIGAR is not empty, the `AS` tag iff the score is not negative, then a tab and
`KEY:T:VALUE` for every attached tag in stored order, and the call returns
`RAPI_NO_ERROR`, as does `rapi_format_tag` on each tag of these kinds. -/
theorem format_sam_tag_section (read : rapi_read) (mate : Option rapi_read) (out : kstring)
    (h : ∀ t ∈ (sam_first_alignment (some read)).tags,
      t.type = RAPI_VTYPE_CHAR ∨ t.type = RAPI_VTYPE_TEXT ∨ t.type = RAPI_VTYPE_INT) :
    (∀ t ∈ (sam_first_alignment (some read)).tags, ∀ str,
      rapi_format_tag t str = some (RAPI_NO_ERROR, str ++ tag_field_spec t)) ∧
    rapi_format_sam read mate out =
      (read.id).bind (fun id =>
        (sam_put_mate (sam_resolve read mate).1 (sam_resolve read mate).2 []).bind (fun mt =>
          (sam_put_seq_qual read (sam_resolve read mate).1 []).map (fun sq =>
            (RAPI_NO_ERROR, out ++ id ++ ['\t'] ++
              decimal (flag_spec mate.isSome (sam_first_alignment (some read))
                (sam_first_alignment mate) : Nat) ++ ['\t'] ++
              sam_put_coords (sam_resolve read mate).1 [] ++ mt ++ sq ++
              tag_section_spec (sam_first_alignment (some read)))))) := by
  refine ⟨fun t ht str => rapi_format_tag_kinds t str (h t ht), ?_⟩
  rw [rapi_format_sam_sections, sam_flag_word, sam_resolve_tags,
    sam_put_tags_kinds (sam_first_alignment (some read)) [] h]
  cases read.id with
  | none => simp only [Option.none_bind]
  | some id =>
    simp only [Option.some_bind]
    cases sam_put_mate (sam_resolve read mate).1 (sam_resolve read mate).2 [] with
    | none => simp only [Option.none_bind]
    | some mt =>
      simp only [Option.some_bind]
      cases sam_put_seq_qual read (sam_resolve read mate).1 [] <;> simp

/-- Witness for C15: an alignment with a char, a text and an integer tag. -/
theorem format_sam_tag_section_witness :
    rapi_format_sam { read_fwd with alignments := [aln_tagged] } none [] =
      some (0, ("r1\t0\tchr1\t101\t60\t8M\t*\t0\t0\tAACCGGTN\t*" ++
        "\tNM:i:2\tAS:i:8\tXC:A:q\tXS:Z:42\tXI:i:-7").toList) :=
  ((format_sam_tag_section { read_fwd with alignments := [aln_tagged] } none []
    (by decide)).2).trans (by decide)

/-! ## Setting a read -/

theorem char_toNat_ofNat (n : Nat) (h : n < 256) : (Char.ofNat n).toNat = n := by
  have hv : n.isValidChar := by
    left
    omega
  unfold Char.ofNat
  rw [dif_pos hv]
  rfl

theorem char_val_int_to_char (cs : Bool) (x : Int) (h0 : 0 ≤ x) (h1 : x ≤ 127) :
    char_val cs (int_to_char x) = x := by
  have hm : x % 256 = x := Int.emod_eq_of_lt h0 (by omega)
  have hn : (x % 256).toNat < 256 := by omega
  unfold char_val int_to_char
  rw [char_toNat_ofNat _ hn, hm]
  have h2 : x.toNat % 256 = x.toNat := Nat.mod_eq_of_lt (by omega)
  have h3 : ¬ (x.toNat ≥ 128) := by omega
  simp only [h2, h3, decide_False, Bool.and_false, Bool.false_eq_true, if_false]
  omega

theorem char_val_le (c : Char) : char_val true c ≤ 127 := by
  unfold char_val
  have : c.toNat % 256 < 256 := Nat.mod_lt _ (by decide)
  generalize c.toNat % 256 = b at this ⊢
  simp only [Bool.true_and, decide_eq_true_eq]
  split_ifs <;> omega

theorem recode_qual_signed (off : Int) (l : List Char) : (recode_qual true off l).2 = false := by
  induction l with
  | nil => rfl
  | cons c cs ih =>
    unfold recode_qual
    have h := char_val_le (int_to_char (char_val true c - off + 33))
    have h2 : ¬ (char_val true (int_to_char (char_val true c - off + 33)) > 127) := by omega
    simp only [h2, if_false, ih]

theorem recode_qual_ok (cs : Bool) (off : Int) (l : List Char)
    (h : ∀ c ∈ l, 0 ≤ char_val cs c - off ∧ char_val cs c - off ≤ 93) :
    recode_qual cs off l =
      (l.map (fun c => int_to_char (char_val cs c - off + 33)), false) := by
  induction l with
  | nil => rfl
  | cons c l ih =>
    obtain ⟨h0, h1⟩ := h c (List.mem_cons_self c l)
    have hv := char_val_int_to_char cs (char_val cs c - off + 33) (by omega) (by omega)
    have h2 : ¬ (char_val cs (int_to_char (char_val cs c - off + 33)) > 127) := by
      rw [hv]
      omega
    unfold recode_qual
    simp only [h2, if_false, ih (fun x hx => h x (List.mem_cons_of_mem c hx)), List.map_cons]

theorem slot_index_range (batch : rapi_batch) (f r : Int) (hwf : batch_wf batch)
    (hf0 : 0 ≤ f) (hf1 : f < batch.n_frags) (hr0 : 0 ≤ r) (hr1 : r < batch.n_reads_frag) :
    0 ≤ rapi_get_read_index batch f r ∧
    (rapi_get_read_index batch f r).toNat < batch.reads.length := by
  obtain ⟨-, -, hlen⟩ := hwf
  unfold rapi_get_read_index
  have h1 : 0 ≤ f * batch.n_reads_frag := Int.mul_nonneg hf0 (by omega)
  have h2 : (f + 1) * batch.n_reads_frag ≤ batch.n_frags * batch.n_reads_frag :=
    Int.mul_le_mul_of_nonneg_right (by omega) (by omega)
  have h3 : (f + 1) * batch.n_reads_frag = f * batch.n_reads_frag + batch.n_reads_frag := by
    ring
  constructor
  · omega
  · have : ((f * batch.n_reads_frag + r).toNat : Int) < (batch.reads.length : Int) := by
      rw [Int.toNat_of_nonneg (by omega)]
      omega
    exact Int.ofNat_lt.mp this

theorem get_set_slot (batch : rapi_batch) (f r : Int) (x : rapi_read)
    (h : (rapi_get_read_index batch f r).toNat < batch.reads.length) :
    rapi_get_read (set_slot batch f r x) f r = x := by
  unfold rapi_get_read set_slot
  have hidx : rapi_get_read_index
      { batch with reads := batch.reads.set (rapi_get_read_index batch f r).toNat x } f r =
      rapi_get_read_index batch f r := rfl
  simp only [hidx, List.getD_eq_getElem?_getD]
  rw [List.getElem?_set_self h]
  rfl

theorem set_slot_others (batch : rapi_batch) (f r : Int) (x : rapi_read) :
    (set_slot batch f r x).n_frags = batch.n_frags ∧
    (set_slot batch f r x).n_reads_frag = batch.n_reads_frag ∧
    (set_slot batch f r x).reads.length = batch.reads.length ∧
    ∀ i, i ≠ (rapi_get_read_index batch f r).toNat →
      (set_slot batch f r x).reads[i]? = batch.reads[i]? := by
  refine ⟨rfl, rfl, by simp [set_slot], ?_⟩
  intro i hi
  simp only [set_slot]
  rw [List.getElem?_set_ne (Ne.symm hi)]

/-- What a call of `rapi_set_read` on an in-range slot stores when allocation succeeds
and the re-encoding loop runs to its end. -/
theorem set_read_stores (cs : Bool) (batch : rapi_batch) (f r : Int) (name seq : List Char)
    (qual : Option (List Char)) (off : Int)
    (hf0 : 0 ≤ f) (hf1 : f < batch.n_frags) (hr0 : 0 ≤ r) (hr1 : r < batch.n_reads_frag)
    (hrec : ∀ q, qual = some q → (recode_qual cs off (c_bytes q seq.length)).2 = false) :
    rapi_set_read cs true batch f r name seq qual off =
      (RAPI_NO_ERROR, set_slot batch f r
        { rapi_get_read batch f r with
            length := seq.length, id := some (trim_id name), seq := some seq,
            qual := qual.map (fun q => (recode_qual cs off (c_bytes q seq.length)).1) }) := by
  have a1 : ¬ f < 0 := by omega
  have a2 : ¬ batch.n_frags ≤ f := by omega
  have a3 : ¬ r < 0 := by omega
  have a4 : ¬ batch.n_reads_frag ≤ r := by omega
  unfold rapi_set_read
  cases qual with
  | none => simp [a1, a2, a3, a4]
  | some q => simp [a1, a2, a3, a4, hrec q rfl]

/-- A call of `rapi_set_read` that returns `RAPI_NO_ERROR` had an in-range slot, got its
memory and ran the re-encoding loop to its end. -/
theorem set_read_success_inv (cs mo : Bool) (batch : rapi_batch) (f r : Int)
    (name seq : List Char) (qual : Option (List Char)) (off : Int)
    (h : (rapi_set_read cs mo batch f r name seq qual off).1 = RAPI_NO_ERROR) :
    (0 ≤ f ∧ f < batch.n_frags ∧ 0 ≤ r ∧ r < batch.n_reads_frag) ∧ mo = true ∧
    ∀ q, qual = some q → (recode_qual cs off (c_bytes q seq.length)).2 = false := by
  unfold rapi_set_read at h
  by_cases hrange : ((f < 0 ∨ batch.n_frags ≤ f) ∨ r < 0) ∨ batch.n_reads_frag ≤ r
  · simp [hrange, RAPI_PARAM_ERROR, RAPI_NO_ERROR] at h
  · cases mo with
    | false => simp [hrange, RAPI_MEMORY_ERROR, RAPI_NO_ERROR] at h
    | true =>
      refine ⟨by omega, rfl, ?_⟩
      intro q hq
      subst hq
      by_cases hfail : (recode_qual cs off (c_bytes q seq.length)).2 = true
      · simp [hrange, hfail, RAPI_PARAM_ERROR, RAPI_NO_ERROR] at h
      · simpa using hfail

theorem drop_last_two (l : List Char) (d : Char) (h : 2 ≤ l.length) :
    l.drop (l.length - 2) = [l.getD (l.length - 2) d, l.getD (l.length - 1) d] := by
  apply List.ext_getElem
  · simp
    omega
  · intro n h1 h2
    simp at h1 h2
    have : n = 0 ∨ n = 1 := by omega
    rcases this with rfl | rfl
    · simp [List.getD_eq_getElem?_getD]
      rw [List.getElem?_eq_getElem (by omega)]
      simp
    · simp [List.getD_eq_getElem?_getD]
      rw [List.getElem?_eq_getElem (by omega)]
      simp
      congr 1
      omega

theorem trim_id_eq (name : List Char) :
    trim_id name =
      (if 2 < name.length ∧ (name.drop (name.length - 2) = ['/', '1'] ∨
          name.drop (name.length - 2) = ['/', '2'])
        then name.take (name.length - 2) else name) := by
  unfold trim_id
  by_cases h : 2 < name.length
  · rw [drop_last_two name NUL (by omega)]
    simp only [gt_iff_lt, h, decide_True, Bool.true_and, true_and, List.cons.injEq,
      and_true, Bool.and_eq_true, Bool.or_eq_true, beq_iff_eq]
    exact if_congr and_or_left rfl rfl
  · simp [h]

/-- Claim C16, as stated, fails: the identifier `/1` ends in `/1`, the call succeeds, and
the stored id is `/1` itself, not the identifier without its two trailing characters. -/
theorem set_read_keeps_bare_suffix :
    (rapi_set_read true true sample_batch 0 0 ['/', '1'] ['A', 'C'] none 33).1 =
      RAPI_NO_ERROR ∧
    (rapi_get_read (rapi_set_read true true sample_batch 0 0 ['/', '1'] ['A', 'C'] none 33).2
      0 0).id = some ['/', '1'] ∧
    stored_id_spec ['/', '1'] = [] := by
  decide

/-- Claim C16, amended. After a successful `rapi_set_read`, the stored id is the
identifier without its last two characters when the identifier is longer than two
characters and ends in `/1` or `/2`; otherwise, the identifiers `/1` and `/2`
included, it is the identifier unchanged. -/
theorem set_read_stored_id (cs mo : Bool) (batch : rapi_batch) (f r : Int)
    (name seq : List Char) (qual : Option (List Char)) (off : Int)
    (hwf : batch_wf batch)
    (hok : (rapi_set_read cs mo batch f r name seq qual off).1 = RAPI_NO_ERROR) :
    (rapi_get_read (rapi_set_read cs mo batch f r name seq qual off).2 f r).id =
      some (if 2 < name.length ∧ (name.drop (name.length - 2) = ['/', '1'] ∨
          name.drop (name.length - 2) = ['/', '2'])
        then name.take (name.length - 2) else name) := by
  obtain ⟨⟨hf0, hf1, hr0, hr1⟩, hmo, hrec⟩ :=
    set_read_success_inv cs mo batch f r name seq qual off hok
  subst hmo
  rw [set_read_stores cs batch f r name seq qual off hf0 hf1 hr0 hr1 hrec]
  simp only
  rw [get_set_slot batch f r _ (slot_index_range batch f r hwf hf0 hf1 hr0 hr1).2, trim_id_eq]

/-- Witness for C16 (amended): `frag7/2` is stored as `frag7`. -/
theorem set_read_stored_id_witness :
    (rapi_get_read (rapi_set_read true true sample_batch 0 0
        ['f', 'r', 'a', 'g', '7', '/', '2'] ['A', 'C'] none 33).2 0 0).id =
      some ['f', 'r', 'a', 'g', '7'] :=
  (set_read_stored_id true true sample_batch 0 0 ['f', 'r', 'a', 'g', '7', '/', '2']
    ['A', 'C'] none 33 ⟨by decide, by decide, by decide⟩ (by decide)).trans (by decide)

/-- With a signed plain `char` the test `read->qual[i] > 127` never holds: every call on
an in-range slot that gets its memory returns `RAPI_NO_ERROR`, whatever the quality. -/
theorem set_read_signed_never_rejects (batch : rapi_batch) (f r : Int)
    (name seq : List Char) (qual : Option (List Char)) (off : Int)
    (hf0 : 0 ≤ f) (hf1 : f < batch.n_frags) (hr0 : 0 ≤ r) (hr1 : r < batch.n_reads_frag) :
    (rapi_set_read true true batch f r name seq qual off).1 = RAPI_NO_ERROR := by
  rw [set_read_stores true batch f r name seq qual off hf0 hf1 hr0 hr1
    (fun q _ => recode_qual_signed off _)]

/-- Claim C17 against the code: where plain `char` is signed, the quality byte 100 at
offset 0 decodes to 100, above 93 and above the 94 of the comment beside the test, yet
the call returns `RAPI_NO_ERROR` and stores the truncated byte 133, which the test
`read->qual[i] > 127` reads as -123. -/
theorem set_read_accepts_bad_quality :
    char_val true 'd' - 0 = 100 ∧
    (rapi_set_read true true sample_batch 0 0 ['r', '9'] ['A'] (some ['d']) 0).1 =
      RAPI_NO_ERROR ∧
    (rapi_get_read (rapi_set_read true true sample_batch 0 0 ['r', '9'] ['A']
      (some ['d']) 0).2 0 0).qual = some [Char.ofNat 133] ∧
    char_val true (Char.ofNat 133) = -123 := by
  decide

/-- Claim C19 against the code: when `malloc` fails the call returns
`RAPI_MEMORY_ERROR` after it has already overwritten the slot's length and id; when the
quality is rejected (unsigned plain `char`, byte 100 at offset 0) it returns
`RAPI_PARAM_ERROR` leaving the slot pointing at the new id, sequence and quality. In
both cases the batch differs from the batch before the call. -/
theorem set_read_error_changes_slot :
    rapi_set_read true false sample_batch 0 0 ['r', '2'] ['A', 'C', 'G', 'T'] none 33 =
      (RAPI_MEMORY_ERROR,
        { sample_batch with reads := [{ read_new with id := none, length := 4 }] }) ∧
    (rapi_set_read true false sample_batch 0 0 ['r', '2'] ['A', 'C', 'G', 'T'] none 33).2 ≠
      sample_batch ∧
    rapi_set_read false true sample_batch 0 0 ['r', '2'] ['A', 'C'] (some ['A', 'd']) 0 =
      (RAPI_PARAM_ERROR,
        { sample_batch with reads := [{ read_new with
            id := some ['r', '2'], seq := some ['A', 'C'],
            qual := some ['b', Char.ofNat 133], length := 2 }] }) ∧
    (rapi_set_read false true sample_batch 0 0 ['r', '2'] ['A', 'C'] (some ['A', 'd']) 0).2 ≠
      sample_batch := by
  decide

/-- An out-of-range slot index is the one error that leaves the batch as it was. -/
theorem set_read_out_of_range (cs mo : Bool) (batch : rapi_batch) (f r : Int)
    (name seq : List Char) (qual : Option (List Char)) (off : Int)
    (h : f < 0 ∨ batch.n_frags ≤ f ∨ r < 0 ∨ batch.n_reads_frag ≤ r) :
    rapi_set_read cs mo batch f r name seq qual off = (RAPI_PARAM_ERROR, batch) := by
  have hg : ((f < 0 ∨ batch.n_frags ≤ f) ∨ r < 0) ∨ batch.n_reads_frag ≤ r := by tauto
  unfold rapi_set_read
  simp [hg]

theorem int_to_char_char_val (cs : Bool) (c : Char) (hb : c.toNat < 256)
    (h0 : 0 ≤ char_val cs c) : int_to_char (char_val cs c) = c := by
  have hm : c.toNat % 256 = c.toNat := Nat.mod_eq_of_lt hb
  have hv : char_val cs c = (c.toNat : Int) := by
    unfold char_val at h0 ⊢
    rw [hm] at h0 ⊢
    split_ifs at h0 ⊢
    · omega
    · rfl
  unfold int_to_char
  rw [hv]
  have h1 : ((c.toNat : Int) % 256).toNat = c.toNat := by omega
  rw [h1, Char.ofNat_toNat]

/-- Claim C18. On a batch holding `n_frags * n_reads_frag` slots, for an in-range slot,
with memory granted and a quality string, if any, as long as the sequence and decoding
to values in 0..93, `rapi_set_read` returns `RAPI_NO_ERROR`; afterwards the slot holds
the input sequence and its length, no quality when none was given and otherwise the
bytes `qual[i] - q_offset + 33` (the quality itself when `q_offset = 33`), and every
other slot, like the dimensions of the batch, is unchanged. -/
theorem set_read_success (cs : Bool) (batch : rapi_batch) (f r : Int)
    (name seq : List Char) (qual : Option (List Char)) (off : Int)
    (hwf : batch_wf batch)
    (hf0 : 0 ≤ f) (hf1 : f < batch.n_frags) (hr0 : 0 ≤ r) (hr1 : r < batch.n_reads_frag)
    (hq : ∀ q, qual = some q → q.length = seq.length ∧
      ∀ c ∈ q, 0 ≤ char_val cs c - off ∧ char_val cs c - off ≤ 93) :
    (rapi_set_read cs true batch f r name seq qual off).1 = RAPI_NO_ERROR ∧
    (rapi_get_read (rapi_set_read cs true batch f r name seq qual off).2 f r).seq =
      some seq ∧
    (rapi_get_read (rapi_set_read cs true batch f r name seq qual off).2 f r).length =
      seq.length ∧
    (qual = none →
      (rapi_get_read (rapi_set_read cs true batch f r name seq qual off).2 f r).qual =
        none) ∧
    (∀ q, qual = some q → ∃ q2,
      (rapi_get_read (rapi_set_read cs true batch f r name seq qual off).2 f r).qual =
        some q2 ∧ q2.length = q.length ∧
      ∀ i, i < q.length →
        char_val cs (q2.getD i NUL) = char_val cs (q.getD i NUL) - off + 33) ∧
    (∀ q, qual = some q → off = 33 → (∀ c ∈ q, c.toNat < 256) →
      (rapi_get_read (rapi_set_read cs true batch f r name seq qual off).2 f r).qual =
        some q) ∧
    (rapi_set_read cs true batch f r name seq qual off).2.n_frags = batch.n_frags ∧
    (rapi_set_read cs true batch f r name seq qual off).2.n_reads_frag =
      batch.n_reads_frag ∧
    (rapi_set_read cs true batch f r name seq qual off).2.reads.length =
      batch.reads.length ∧
    (∀ i, i ≠ (rapi_get_read_index batch f r).toNat →
      (rapi_set_read cs true batch f r name seq qual off).2.reads[i]? =
        batch.reads[i]?) := by
  have hrec : ∀ q, qual = some q →
      recode_qual cs off (c_bytes q seq.length) =
        (q.map (fun c => int_to_char (char_val cs c - off + 33)), false) := by
    intro q hqq
    obtain ⟨hl, hv⟩ := hq q hqq
    rw [← hl, c_bytes_self]
    exact recode_qual_ok cs off q hv
  have hres := set_read_stores cs batch f r name seq qual off hf0 hf1 hr0 hr1
    (fun q hqq => by rw [hrec q hqq])
  have hslot : rapi_get_read (rapi_set_read cs true batch f r name seq qual off).2 f r =
      { rapi_get_read batch f r with
          length := seq.length, id := some (trim_id name), seq := some seq,
          qual := qual.map (fun q => (recode_qual cs off (c_bytes q seq.length)).1) } := by
    rw [hres]
    exact get_set_slot batch f r _ (slot_index_range batch f r hwf hf0 hf1 hr0 hr1).2
  obtain ⟨h1, h2, h3, h4⟩ := set_slot_others batch f r
    { rapi_get_read batch f r with
        length := seq.length, id := some (trim_id name), seq := some seq,
        qual := qual.map (fun q => (recode_qual cs off (c_bytes q seq.length)).1) }
  rw [hslot]
  rw [hres]
  refine ⟨rfl, rfl, rfl, ?_, ?_, ?_, h1, h2, h3, h4⟩
  · intro hn
    simp [hn]
  · intro q hqq
    obtain ⟨hl, hv⟩ := hq q hqq
    refine ⟨q.map (fun c => int_to_char (char_val cs c - off + 33)), ?_, by simp, ?_⟩
    · simp [hqq, hrec q hqq]
    · intro i hi
      have hmem : q[i] ∈ q := List.getElem_mem hi
      obtain ⟨a0, a1⟩ := hv _ hmem
      simp only [List.getD_eq_getElem?_getD, List.getElem?_map,
        List.getElem?_eq_getElem hi, Option.map_some', Option.getD_some]
      rw [char_val_int_to_char cs _ (by omega) (by omega)]
  · intro q hqq hoff hbytes
    obtain ⟨hl, hv⟩ := hq q hqq
    subst hoff
    simp only [hqq, Option.map_some', hrec q hqq, Option.some.injEq]
    have hid : ∀ c ∈ q, int_to_char (char_val cs c - 33 + 33) = c := by
      intro c hc
      obtain ⟨a0, a1⟩ := hv c hc
      have : char_val cs c - 33 + 33 = char_val cs c := by omega
      rw [this]
      exact int_to_char_char_val cs c (hbytes c hc) (by omega)
    calc q.map (fun c => int_to_char (char_val cs c - 33 + 33))
        = q.map id := List.map_congr_left hid
      _ = q := List.map_id q

/-- Witness for C18: read `r9` with Illumina-offset quality `hhII` set into the second
slot of a paired batch. -/
theorem set_read_success_witness :
    (rapi_set_read true true sample_batch_pe 0 1 ['r', '9'] ['A', 'C', 'G', 'T']
        (some ['h', 'h', 'I', 'I']) 64).1 = RAPI_NO_ERROR ∧
    (rapi_get_read (rapi_set_read true true sample_batch_pe 0 1 ['r', '9']
        ['A', 'C', 'G', 'T'] (some ['h', 'h', 'I', 'I']) 64).2 0 1).seq =
      some ['A', 'C', 'G', 'T'] :=
  ⟨(set_read_success true sample_batch_pe 0 1 ['r', '9'] ['A', 'C', 'G', 'T']
      (some ['h', 'h', 'I', 'I']) 64 ⟨by decide, by decide, by decide⟩ (by decide)
      (by decide) (by decide) (by decide)
      (by intro q hq; cases hq; exact ⟨rfl, by decide⟩)).1,
   (set_read_success true sample_batch_pe 0 1 ['r', '9'] ['A', 'C', 'G', 'T']
      (some ['h', 'h', 'I', 'I']) 64 ⟨by decide, by decide, by decide⟩ (by decide)
      (by decide) (by decide) (by decide)
      (by intro q hq; cases hq; exact ⟨rfl, by decide⟩)).2.1⟩

/-- The stored quality of the C18 witness: `hhII` at offset 64 becomes `IIII` minus
nothing, that is the bytes 73, 73, 42, 42. -/
theorem set_read_success_sample :
    (rapi_get_read (rapi_set_read true true sample_batch_pe 0 1 ['r', '9']
        ['A', 'C', 'G', 'T'] (some ['h', 'h', 'I', 'I']) 64).2 0 1).qual =
      some ['I', 'I', '*', '*'] := by
  decide

/-! ## Growing a batch -/

/-- The slot array after a granted `realloc` in `rapi_reads_reserve`: old slots are kept,
the new ones are zeroed. -/
theorem reserve_slots (batch : rapi_batch) (m i : Nat) (hi : i < m) :
    ((List.range m).map (fun (i : Nat) =>
        if (i : Int) < batch.n_frags * batch.n_reads_frag then batch.reads.getD i zero_read
        else zero_read))[i]? =
      some (if (i : Int) < batch.n_frags * batch.n_reads_frag then
        batch.reads.getD i zero_read else zero_read) := by
  rw [List.getElem?_map, List.getElem?_range hi]
  rfl

/-- Claim C20. On a batch holding `n_frags * n_reads_frag` slots: for `n > n_frags` with
the reallocation granted, `rapi_reads_reserve` returns `RAPI_NO_ERROR`, sets `n_frags` to
`n`, keeps `n_reads_frag`, keeps every slot with flattened index below the old
`n_frags * n_reads_frag`, and leaves every added slot zeroed (no id, no sequence, no
alignments); for `0 <= n <= n_frags` the batch is unchanged, and for `n < 0` the call
returns `RAPI_PARAM_ERROR` with the batch unchanged. -/
theorem reads_reserve_grows (ok : Bool) (batch : rapi_batch) (n : Int)
    (hwf : batch_wf batch) :
    (batch.n_frags < n →
      (rapi_reads_reserve true batch n).1 = RAPI_NO_ERROR ∧
      (rapi_reads_reserve true batch n).2.n_frags = n ∧
      (rapi_reads_reserve true batch n).2.n_reads_frag = batch.n_reads_frag ∧
      ((rapi_reads_reserve true batch n).2.reads.length : Int) = n * batch.n_reads_frag ∧
      (∀ i : Nat, (i : Int) < batch.n_frags * batch.n_reads_frag →
        (rapi_reads_reserve true batch n).2.reads[i]? = batch.reads[i]?) ∧
      (∀ i : Nat, batch.n_frags * batch.n_reads_frag ≤ (i : Int) →
        (i : Int) < n * batch.n_reads_frag →
        (rapi_reads_reserve true batch n).2.reads[i]? = some zero_read) ∧
      zero_read.id = none ∧ zero_read.seq = none ∧ zero_read.alignments = [] ∧
      zero_read.n_alignments = 0) ∧
    (0 ≤ n → n ≤ batch.n_frags → rapi_reads_reserve ok batch n = (RAPI_NO_ERROR, batch)) ∧
    (n < 0 → rapi_reads_reserve ok batch n = (RAPI_PARAM_ERROR, batch)) := by
  obtain ⟨hf, hr, hlen⟩ := hwf
  refine ⟨?_, ?_, ?_⟩
  · intro hn
    have a1 : ¬ n < 0 := by omega
    have a2 : ¬ n = 0 := by omega
    have hmono : batch.n_frags * batch.n_reads_frag ≤ n * batch.n_reads_frag :=
      Int.mul_le_mul_of_nonneg_right (by omega) hr
    have hnn : 0 ≤ n * batch.n_reads_frag := Int.mul_nonneg (by omega) hr
    have hres : rapi_reads_reserve true batch n =
        (RAPI_NO_ERROR, { batch with
          n_frags := n,
          reads := (List.range (n * batch.n_reads_frag).toNat).map (fun (i : Nat) =>
            if (i : Int) < batch.n_frags * batch.n_reads_frag then
              batch.reads.getD i zero_read
            else zero_read) }) := by
      unfold rapi_reads_reserve
      simp [a1, a2, hn]
    rw [hres]
    refine ⟨rfl, rfl, rfl, ?_, ?_, ?_, rfl, rfl, rfl, rfl⟩
    · simp only [List.length_map, List.length_range]
      omega
    · intro i hi
      have him : i < (n * batch.n_reads_frag).toNat := by omega
      have hil : i < batch.reads.length := by omega
      simp only
      rw [reserve_slots batch _ i him, if_pos hi, List.getD_eq_getElem?_getD,
        List.getElem?_eq_getElem hil]
      rfl
    · intro i h0 h1
      have him : i < (n * batch.n_reads_frag).toNat := by omega
      simp only
      rw [reserve_slots batch _ i him, if_neg (by omega)]
  · intro h0 h1
    have a1 : ¬ n < 0 := by omega
    have a3 : ¬ batch.n_frags < n := by omega
    unfold rapi_reads_reserve
    by_cases hz : n = 0
    · simp [hz]
    · simp [a1, hz, a3]
  · intro hneg
    unfold rapi_reads_reserve
    simp [hneg]

/-- Witness for C20: the one-slot sample batch grown to three fragments keeps its read
and gains two zeroed slots. -/
theorem reads_reserve_grows_witness :
    (rapi_reads_reserve true sample_batch 3).1 = RAPI_NO_ERROR ∧
    (rapi_reads_reserve true sample_batch 3).2.n_frags = 3 ∧
    (rapi_reads_reserve true sample_batch 3).2.reads[0]? = sample_batch.reads[0]? ∧
    (rapi_reads_reserve true sample_batch 3).2.reads[2]? = some zero_read :=
  ⟨((reads_reserve_grows true sample_batch 3 ⟨by decide, by decide, by decide⟩).1
      (by decide)).1,
   ((reads_reserve_grows true sample_batch 3 ⟨by decide, by decide, by decide⟩).1
      (by decide)).2.1,
   ((reads_reserve_grows true sample_batch 3 ⟨by decide, by decide, by decide⟩).1
      (by decide)).2.2.2.2.1 0 (by decide),
   ((reads_reserve_grows true sample_batch 3 ⟨by decide, by decide, by decide⟩).1
      (by decide)).2.2.2.2.2.1 2 (by decide) (by decide)⟩

/-! ## Rejected qualities -/

theorem char_val_unsigned_int_to_char (x : Int) :
    char_val false (int_to_char x) = x % 256 := by
  have hn : (x % 256).toNat < 256 := by omega
  unfold char_val int_to_char
  rw [char_toNat_ofNat _ hn]
  simp only [Bool.false_and, Bool.false_eq_true, if_false]
  omega

/-- With an unsigned plain `char` the re-encoding loop stops with an error as soon as a
byte decodes to a value in 95..222, which is re-encoded to a byte in 128..255. -/
theorem recode_qual_unsigned_rejects (off : Int) (l : List Char)
    (h : ∃ c ∈ l, 94 < char_val false c - off ∧ char_val false c - off ≤ 222) :
    (recode_qual false off l).2 = true := by
  induction l with
  | nil =>
    obtain ⟨c, hc, -⟩ := h
    cases hc
  | cons a l ih =>
    unfold recode_qual
    by_cases hw : char_val false (int_to_char (char_val false a - off + 33)) > 127
    · simp only [hw, if_true]
    · simp only [hw, if_false]
      apply ih
      obtain ⟨c, hc, h0, h1⟩ := h
      rcases List.mem_cons.mp hc with hca | hcl
      · subst hca
        exfalso
        apply hw
        rw [char_val_unsigned_int_to_char]
        omega
      · exact ⟨c, hcl, h0, h1⟩

/-- The quality byte 127 at offset 33 decodes to 94, the top of the range named in the
comment beside the test; the call returns `RAPI_NO_ERROR` and stores the byte 127,
whether plain `char` is signed or unsigned. -/
theorem set_read_accepts_quality_94 :
    char_val true (Char.ofNat 127) - 33 = 94 ∧
    char_val false (Char.ofNat 127) - 33 = 94 ∧
    (rapi_set_read true true sample_batch 0 0 ['r', '9'] ['A']
      (some [Char.ofNat 127]) 33).1 = RAPI_NO_ERROR ∧
    (rapi_set_read false true sample_batch 0 0 ['r', '9'] ['A']
      (some [Char.ofNat 127]) 33).1 = RAPI_NO_ERROR ∧
    (rapi_get_read (rapi_set_read true true sample_batch 0 0 ['r', '9'] ['A']
      (some [Char.ofNat 127]) 33).2 0 0).qual = some [Char.ofNat 127] := by
  decide

/-- Where plain `char` is unsigned the test does fire: with a valid slot index and
memory granted, if some position within the sequence length decodes
(`qual[i] - q_offset`) to a value above 94 and at most 222, so that the re-encoded byte
lies in 128..255, `rapi_set_read` returns `RAPI_PARAM_ERROR`. -/
theorem set_read_rejects_quality (batch : rapi_batch) (f r : Int)
    (name seq q : List Char) (off : Int)
    (hf0 : 0 ≤ f) (hf1 : f < batch.n_frags) (hr0 : 0 ≤ r) (hr1 : r < batch.n_reads_frag)
    (hbad : ∃ i, i < seq.length ∧ 94 < char_val false (q.getD i NUL) - off ∧
      char_val false (q.getD i NUL) - off ≤ 222) :
    (rapi_set_read false true batch f r name seq (some q) off).1 = RAPI_PARAM_ERROR := by
  have a1 : ¬ f < 0 := by omega
  have a2 : ¬ batch.n_frags ≤ f := by omega
  have a3 : ¬ r < 0 := by omega
  have a4 : ¬ batch.n_reads_frag ≤ r := by omega
  have hrej : (recode_qual false off (c_bytes q seq.length)).2 = true := by
    apply recode_qual_unsigned_rejects
    obtain ⟨i, hi, h0, h1⟩ := hbad
    refine ⟨q.getD i NUL, ?_, h0, h1⟩
    unfold c_bytes
    exact List.mem_map.mpr ⟨i, List.mem_range.mpr hi, rfl⟩
  unfold rapi_set_read
  simp [a1, a2, a3, a4, hrej]

/-- Where plain `char` is unsigned, the quality bytes 65 and 100 at offset 0, the second
decoding to 100, are rejected. -/
theorem set_read_rejects_quality_witness :
    (rapi_set_read false true sample_batch 0 0 ['r', '9'] ['A', 'C']
      (some ['A', 'd']) 0).1 = RAPI_PARAM_ERROR :=
  set_read_rejects_quality sample_batch 0 0 ['r', '9'] ['A', 'C'] ['A', 'd'] 0
    (by decide) (by decide) (by decide) (by decide) ⟨1, by decide, by decide, by decide⟩

/-! ## Value boxes -/

/-- Claim C21. For every parameter and every tag, and each of the kinds char, text,
integer and real: the getter of a kind, called after the setter of that kind with value
`v`, returns `RAPI_NO_ERROR` and yields `v`, whatever the caller's cell held. -/
theorem value_box_get_after_set (p : rapi_param) (t : rapi_tag) (c c0 : Char)
    (s s0 : List Char) (i i0 : Int) (d d0 : c_double) :
    rapi_param_get_char (rapi_param_set_char p c) c0 = (RAPI_NO_ERROR, c) ∧
    rapi_param_get_text (rapi_param_set_text p s) s0 = (RAPI_NO_ERROR, s) ∧
    rapi_param_get_long (rapi_param_set_long p i) i0 = (RAPI_NO_ERROR, i) ∧
    rapi_param_get_dbl (rapi_param_set_dbl p d) d0 = (RAPI_NO_ERROR, d) ∧
    rapi_tag_get_char (rapi_tag_set_char t c) c0 = (RAPI_NO_ERROR, c) ∧
    rapi_tag_get_text (rapi_tag_set_text t s) s0 = (RAPI_NO_ERROR, s) ∧
    rapi_tag_get_long (rapi_tag_set_long t i) i0 = (RAPI_NO_ERROR, i) ∧
    rapi_tag_get_dbl (rapi_tag_set_dbl t d) d0 = (RAPI_NO_ERROR, d) := by
  refine ⟨rfl, rfl, rfl, rfl, rfl, ?_, rfl, rfl⟩
  simp [rapi_tag_get_text, rapi_tag_set_text, kputs]

/-- A getter called on a parameter whose stored kind is not the getter's returns
`RAPI_TYPE_ERROR` and the caller's cell as it was. -/
theorem param_get_other_kind (kv : rapi_param) (c0 : Char) (s0 : List Char) (i0 : Int)
    (d0 : c_double) :
    (kv.type ≠ RAPI_VTYPE_CHAR → rapi_param_get_char kv c0 = (RAPI_TYPE_ERROR, c0)) ∧
    (kv.type ≠ RAPI_VTYPE_TEXT → rapi_param_get_text kv s0 = (RAPI_TYPE_ERROR, s0)) ∧
    (kv.type ≠ RAPI_VTYPE_INT → rapi_param_get_long kv i0 = (RAPI_TYPE_ERROR, i0)) ∧
    (kv.type ≠ RAPI_VTYPE_REAL → rapi_param_get_dbl kv d0 = (RAPI_TYPE_ERROR, d0)) := by
  refine ⟨?_, ?_, ?_, ?_⟩ <;> intro h
  · simp [rapi_param_get_char, h]
  · simp [rapi_param_get_text, h]
  · simp [rapi_param_get_long, h]
  · simp [rapi_param_get_dbl, h]

/-- A getter called on a tag whose stored kind is not the getter's returns
`RAPI_TYPE_ERROR` and the caller's cell as it was. -/
theorem tag_get_other_kind (kv : rapi_tag) (c0 : Char) (s0 : List Char) (i0 : Int)
    (d0 : c_double) :
    (kv.type ≠ RAPI_VTYPE_CHAR → rapi_tag_get_char kv c0 = (RAPI_TYPE_ERROR, c0)) ∧
    (kv.type ≠ RAPI_VTYPE_TEXT → rapi_tag_get_text kv s0 = (RAPI_TYPE_ERROR, s0)) ∧
    (kv.type ≠ RAPI_VTYPE_INT → rapi_tag_get_long kv i0 = (RAPI_TYPE_ERROR, i0)) ∧
    (kv.type ≠ RAPI_VTYPE_REAL → rapi_tag_get_dbl kv d0 = (RAPI_TYPE_ERROR, d0)) := by
  refine ⟨?_, ?_, ?_, ?_⟩ <;> intro h
  · simp [rapi_tag_get_char, h]
  · simp [rapi_tag_get_text, h]
  · simp [rapi_tag_get_long, h]
  · simp [rapi_tag_get_dbl, h]

/-- Claim C22. For every parameter and every tag holding a kind, each getter of a
different kind returns `RAPI_TYPE_ERROR` and hands back the caller's cell unwritten, so
no value of the box, coerced or not, reaches the caller; the box, passed as a pointer to
`const`, is the getter's unchanged argument, and the getter of the stored kind still
yields the stored value afterwards. -/
theorem value_box_get_other_kind (p : rapi_param) (t : rapi_tag) (c0 : Char)
    (s0 : List Char) (i0 : Int) (d0 : c_double) :
    (p.type ≠ RAPI_VTYPE_CHAR → rapi_param_get_char p c0 = (RAPI_TYPE_ERROR, c0)) ∧
    (p.type ≠ RAPI_VTYPE_TEXT → rapi_param_get_text p s0 = (RAPI_TYPE_ERROR, s0)) ∧
    (p.type ≠ RAPI_VTYPE_INT → rapi_param_get_long p i0 = (RAPI_TYPE_ERROR, i0)) ∧
    (p.type ≠ RAPI_VTYPE_REAL → rapi_param_get_dbl p d0 = (RAPI_TYPE_ERROR, d0)) ∧
    (t.type ≠ RAPI_VTYPE_CHAR → rapi_tag_get_char t c0 = (RAPI_TYPE_ERROR, c0)) ∧
    (t.type ≠ RAPI_VTYPE_TEXT → rapi_tag_get_text t s0 = (RAPI_TYPE_ERROR, s0)) ∧
    (t.type ≠ RAPI_VTYPE_INT → rapi_tag_get_long t i0 = (RAPI_TYPE_ERROR, i0)) ∧
    (t.type ≠ RAPI_VTYPE_REAL → rapi_tag_get_dbl t d0 = (RAPI_TYPE_ERROR, d0)) ∧
    (p.type = RAPI_VTYPE_CHAR → rapi_param_get_char p c0 = (RAPI_NO_ERROR, p.value.character)) ∧
    (p.type = RAPI_VTYPE_TEXT → rapi_param_get_text p s0 = (RAPI_NO_ERROR, p.value.text)) ∧
    (p.type = RAPI_VTYPE_INT → rapi_param_get_long p i0 = (RAPI_NO_ERROR, p.value.integer)) ∧
    (p.type = RAPI_VTYPE_REAL → rapi_param_get_dbl p d0 = (RAPI_NO_ERROR, p.value.real)) ∧
    (t.type = RAPI_VTYPE_CHAR → rapi_tag_get_char t c0 = (RAPI_NO_ERROR, t.value.character)) ∧
    (t.type = RAPI_VTYPE_TEXT → rapi_tag_get_text t s0 = (RAPI_NO_ERROR, t.value.text)) ∧
    (t.type = RAPI_VTYPE_INT → rapi_tag_get_long t i0 = (RAPI_NO_ERROR, t.value.integer)) ∧
    (t.type = RAPI_VTYPE_REAL → rapi_tag_get_dbl t d0 = (RAPI_NO_ERROR, t.value.real)) := by
  obtain ⟨p1, p2, p3, p4⟩ := param_get_other_kind p c0 s0 i0 d0
  obtain ⟨t1, t2, t3, t4⟩ := tag_get_other_kind t c0 s0 i0 d0
  refine ⟨p1, p2, p3, p4, t1, t2, t3, t4, ?_, ?_, ?_, ?_, ?_, ?_, ?_, ?_⟩ <;> intro h
  · simp [rapi_param_get_char, h]
  · simp [rapi_param_get_text, h]
  · simp [rapi_param_get_long, h]
  · simp [rapi_param_get_dbl, h]
  · simp [rapi_tag_get_char, h]
  · simp [rapi_tag_get_text, h]
  · simp [rapi_tag_get_long, h]
  · simp [rapi_tag_get_dbl, h]

/-- Witness for C22: the integer parameter `k` asked for a real, and the integer tag
`XI` asked for a char, answer with a type error and leave the cells `1.0` and `x`. -/
theorem value_box_get_other_kind_witness :
    rapi_param_get_dbl param_int ⟨0x3FF0000000000000⟩ =
      (RAPI_TYPE_ERROR, ⟨0x3FF0000000000000⟩) ∧
    rapi_tag_get_char tag_int 'x' = (RAPI_TYPE_ERROR, 'x') :=
  ⟨(value_box_get_other_kind param_int tag_int 'x' [] 0 ⟨0x3FF0000000000000⟩).2.2.2.1
      (by decide),
   (value_box_get_other_kind param_int tag_int 'x' [] 0 ⟨0x3FF0000000000000⟩).2.2.2.2.1
      (by decide)⟩

/-- Clearing a tag sets its kind to 0, after which every typed getter answers
`RAPI_TYPE_ERROR` and leaves the caller's cell. -/
theorem tag_clear_unset (kv : rapi_tag) (c0 : Char) (s0 : List Char) (i0 : Int)
    (d0 : c_double) :
    (rapi_tag_clear kv).type = 0 ∧
    rapi_tag_get_char (rapi_tag_clear kv) c0 = (RAPI_TYPE_ERROR, c0) ∧
    rapi_tag_get_text (rapi_tag_clear kv) s0 = (RAPI_TYPE_ERROR, s0) ∧
    rapi_tag_get_long (rapi_tag_clear kv) i0 = (RAPI_TYPE_ERROR, i0) ∧
    rapi_tag_get_dbl (rapi_tag_clear kv) d0 = (RAPI_TYPE_ERROR, d0) := by
  have ht : (rapi_tag_clear kv).type = 0 := rfl
  obtain ⟨t1, t2, t3, t4⟩ := tag_get_other_kind (rapi_tag_clear kv) c0 s0 i0 d0
  exact ⟨ht, t1 (by rw [ht]; decide), t2 (by rw [ht]; decide), t3 (by rw [ht]; decide),
    t4 (by rw [ht]; decide)⟩

/-- Clearing a parameter leaves its kind as it was. -/
theorem param_clear_type (kv : rapi_param) : (rapi_param_clear kv).type = kv.type := by
  unfold rapi_param_clear
  simp only
  split_ifs <;> rfl

/-- Claim C23 against the code: `rapi_param_clear` does not reset the kind. The integer
parameter `k` still has type 3 after the call and its integer getter still returns
`RAPI_NO_ERROR` with 7; the text parameter `t` still has type 2 and its text getter
returns `RAPI_NO_ERROR` with the nulled text. -/
theorem param_clear_keeps_kind :
    (rapi_param_clear param_int).type = RAPI_VTYPE_INT ∧
    rapi_param_get_long (rapi_param_clear param_int) 0 = (RAPI_NO_ERROR, 7) ∧
    (rapi_param_clear param_text).type = RAPI_VTYPE_TEXT ∧
    rapi_param_get_text (rapi_param_clear param_text) ['z'] = (RAPI_NO_ERROR, []) := by
  decide

/-! ## Tag keys -/

theorem c_bytes_pad (p : List Char) (l : Nat) :
    c_bytes p l = p.take l ++ List.replicate (l - p.length) NUL := by
  unfold c_bytes
  apply List.ext_getElem
  · simp
    omega
  · intro n h1 h2
    simp only [List.length_map, List.length_range] at h1
    simp only [List.getElem_map, List.getElem_range, List.getD_eq_getElem?_getD]
    by_cases hn : n < p.length
    · rw [List.getElem_append_left (by simp; omega)]
      simp [List.getElem?_eq_getElem hn]
    · rw [List.getElem_append_right (by simp; omega)]
      simp [List.getElem?_eq_none (not_lt.mp hn)]

theorem c_string_pad (l : List Char) (k : Nat) (h : NUL ∉ l) :
    c_string (l ++ List.replicate k NUL ++ [NUL]) = l := by
  unfold c_string
  rw [List.append_assoc, List.takeWhile_append_of_pos]
  · have : (List.replicate k NUL ++ [NUL]).takeWhile (fun c => c != NUL) = [] := by
      cases k with
      | zero => simp
      | succ k => simp [List.replicate_succ]
    rw [this, List.append_nil]
  · intro a ha
    have : a ≠ NUL := fun e => h (e ▸ ha)
    simpa using this

/-- Claim C24. For every key string `s`, `rapi_tag_set_key` stores the first
`min (length s) 6` characters of `s`; the 7-byte key buffer ends in the terminator and,
for a string free of terminators, reads back as the stored key; setting the key again
with the stored key changes nothing; kind and value of the tag are untouched. -/
theorem tag_set_key_truncates (kv : rapi_tag) (s : List Char) :
    (rapi_tag_set_key kv s).key = s.take (min s.length 6) ∧
    (rapi_tag_set_key kv s).key.length = min s.length 6 ∧
    (tag_key_buffer s).length = 7 ∧
    (tag_key_buffer s)[6]? = some NUL ∧
    (NUL ∉ s → c_string (tag_key_buffer s) = (rapi_tag_set_key kv s).key) ∧
    rapi_tag_set_key (rapi_tag_set_key kv s) (rapi_tag_set_key kv s).key =
      rapi_tag_set_key kv s ∧
    (rapi_tag_set_key kv s).type = kv.type ∧
    (rapi_tag_set_key kv s).value = kv.value := by
  have hk : (rapi_tag_set_key kv s).key = s.take 6 := rfl
  have hlen : (c_bytes s RAPI_MAX_TAG_LEN).length = 6 := by simp [c_bytes, RAPI_MAX_TAG_LEN]
  refine ⟨?_, ?_, ?_, ?_, ?_, ?_, rfl, rfl⟩
  · rw [hk]
    rcases Nat.le_total s.length 6 with h | h
    · rw [Nat.min_eq_left h, List.take_of_length_le h, List.take_length]
    · rw [Nat.min_eq_right h]
  · rw [hk, List.length_take, Nat.min_comm]
  · simp [tag_key_buffer, hlen]
  · unfold tag_key_buffer
    rw [List.getElem?_append_right (by omega), hlen]
    rfl
  · intro hs
    rw [hk]
    unfold tag_key_buffer
    rw [c_bytes_pad]
    exact c_string_pad _ _ (fun hm => hs (List.mem_of_mem_take hm))
  · unfold rapi_tag_set_key
    simp only [RAPI_MAX_TAG_LEN, List.take_take, Nat.min_self]

/-- Witness for C24: the 8-character key `ABCDEFGH` is stored as `ABCDEF`, also when
read back from the buffer. -/
theorem tag_set_key_truncates_witness :
    c_string (tag_key_buffer ['A', 'B', 'C', 'D', 'E', 'F', 'G', 'H']) =
      (rapi_tag_set_key tag_int ['A', 'B', 'C', 'D', 'E', 'F', 'G', 'H']).key ∧
    (rapi_tag_set_key tag_int ['A', 'B', 'C', 'D', 'E', 'F', 'G', 'H']).key =
      ['A', 'B', 'C', 'D', 'E', 'F'] :=
  ⟨(tag_set_key_truncates tag_int ['A', 'B', 'C', 'D', 'E', 'F', 'G', 'H']).2.2.2.2.1
      (by decide),
   (tag_set_key_truncates tag_int ['A', 'B', 'C', 'D', 'E', 'F', 'G', 'H']).1.trans
      (by decide)⟩

/-! ## Insert size: fatal cases and outer span -/

/-- Claim C25, as stated, fails: a mapped alignment with an empty CIGAR paired with an
unmapped alignment, or with a mapped alignment on another contig, gives insert size 0
without any fatal error, in either argument order. -/
theorem insert_size_empty_cigar_returns :
    aln_no_cigar.mapped = true ∧ aln_no_cigar.n_cigar_ops = 0 ∧
    rapi_get_insert_size aln_no_cigar zero_alignment = some 0 ∧
    rapi_get_insert_size zero_alignment aln_no_cigar = some 0 ∧
    rapi_get_insert_size aln_no_cigar aln_chr2 = some 0 ∧
    rapi_get_insert_size aln_chr2 aln_no_cigar = some 0 := by
  decide

/-- Claim C25, amended. `rapi_get_insert_size` fails fatally exactly when both
alignments are marked mapped, lie on the same contig, and at least one of them has an
empty CIGAR; when either alignment is unmapped or the contigs differ it returns 0,
whatever the CIGARs hold. -/
theorem insert_size_fatal_iff (read mate : rapi_alignment) :
    (rapi_get_insert_size read mate = none ↔
      (read.mapped = true ∧ mate.mapped = true ∧
        contig_eq read.contig mate.contig = true ∧
        (read.n_cigar_ops = 0 ∨ mate.n_cigar_ops = 0))) ∧
    (¬ (read.mapped = true ∧ mate.mapped = true ∧
        contig_eq read.contig mate.contig = true) →
      rapi_get_insert_size read mate = some 0) := by
  unfold rapi_get_insert_size
  constructor
  · by_cases hc : (read.mapped && mate.mapped && contig_eq read.contig mate.contig) = true
    · rw [if_pos hc]
      simp only [Bool.and_eq_true] at hc
      obtain ⟨⟨h1, h2⟩, h3⟩ := hc
      by_cases hn : (mate.n_cigar_ops == 0 || read.n_cigar_ops == 0) = true
      · rw [if_pos hn]
        simp only [Bool.or_eq_true, beq_iff_eq] at hn
        simp only [true_iff]
        exact ⟨h1, h2, h3, hn.symm⟩
      · rw [if_neg hn]
        simp only [Bool.or_eq_true, beq_iff_eq] at hn
        constructor
        · intro h
          cases h
        · rintro ⟨-, -, -, h⟩
          exact absurd h.symm hn
    · rw [if_neg hc]
      simp only [Bool.and_eq_true] at hc
      constructor
      · intro h
        cases h
      · rintro ⟨h1, h2, h3, -⟩
        exact absurd ⟨⟨h1, h2⟩, h3⟩ hc
  · intro h
    have hc : ¬ ((read.mapped && mate.mapped && contig_eq read.contig mate.contig) = true) := by
      simp only [Bool.and_eq_true]
      rintro ⟨⟨h1, h2⟩, h3⟩
      exact h ⟨h1, h2, h3⟩
    rw [if_neg hc]

/-- Witness for C25 (amended): a mapped alignment with an empty CIGAR and a mapped mate
on the same contig end in the fatal error. -/
theorem insert_size_fatal_iff_witness :
    rapi_get_insert_size aln_no_cigar aln_fwd = none :=
  (insert_size_fatal_iff aln_no_cigar aln_fwd).1.mpr
    ⟨by decide, by decide, by decide, Or.inl (by decide)⟩

/-- Claim C26, as stated, fails: two alignments on `chr1` with CIGAR `8M` whose
strand-adjusted positions coincide at 101 have insert size 0, not a magnitude of
`|p0 - p1| + 1 = 1`. -/
theorem insert_size_equal_positions :
    strand_pos aln_fwd = 101 ∧ strand_pos aln_rev_101 = 101 ∧
    rapi_get_insert_size aln_fwd aln_rev_101 = some 0 ∧
    rapi_get_insert_size aln_fwd aln_fwd = some 0 := by
  decide

/-- Claim C26, amended. For two alignments mapped to the same contig with non-empty
CIGARs and strand-adjusted positions `p0` (read) and `p1` (mate), the insert size is
returned and: when `p0 < p1` it is `|p0 - p1| + 1`, positive; when `p0 > p1` it is
`-(|p0 - p1| + 1)`, negative; when `p0 = p1` it is 0. -/
theorem insert_size_outer_span (read mate : rapi_alignment)
    (h1 : read.mapped = true) (h2 : mate.mapped = true)
    (h3 : contig_eq read.contig mate.contig = true)
    (h4 : 0 < read.n_cigar_ops) (h5 : 0 < mate.n_cigar_ops) :
    ∃ x, rapi_get_insert_size read mate = some x ∧
      (strand_pos read < strand_pos mate →
        0 < x ∧ x.natAbs = (strand_pos read - strand_pos mate).natAbs + 1) ∧
      (strand_pos read > strand_pos mate →
        x < 0 ∧ x.natAbs = (strand_pos read - strand_pos mate).natAbs + 1) ∧
      (strand_pos read = strand_pos mate → x = 0) := by
  have e1 : read.n_cigar_ops ≠ 0 := by omega
  have e2 : mate.n_cigar_ops ≠ 0 := by omega
  have hp0 : ((read.pos : Int) +
      (if read.reverse_strand then rapi_get_rlen read.n_cigar_ops read.cigar_ops - 1 else 0))
      = strand_pos read := by
    unfold strand_pos
    split_ifs <;> omega
  have hp1 : ((mate.pos : Int) +
      (if mate.reverse_strand then rapi_get_rlen mate.n_cigar_ops mate.cigar_ops - 1 else 0))
      = strand_pos mate := by
    unfold strand_pos
    split_ifs <;> omega
  refine ⟨-(strand_pos read - strand_pos mate +
    (if strand_pos read > strand_pos mate then 1
      else if strand_pos read < strand_pos mate then -1 else 0)), ?_, ?_, ?_, ?_⟩
  · unfold rapi_get_insert_size
    have hn : ¬ ((mate.n_cigar_ops == 0 || read.n_cigar_ops == 0) = true) := by
      simp [e1, e2]
    simp only [h1, h2, h3, Bool.and_self, if_true, hp0, hp1]
    rw [if_neg hn]
  · intro h
    rw [if_neg (by omega), if_pos h]
    omega
  · intro h
    rw [if_pos h]
    omega
  · intro h
    rw [if_neg (by omega), if_neg (by omega)]
    omega

/-- Witness for C26 (amended): the forward read at 101 and the reverse mate whose last
base lies at 401 have insert size 301. -/
theorem insert_size_outer_span_witness :
    ∃ x, rapi_get_insert_size aln_fwd aln_rev = some x ∧
      (strand_pos aln_fwd < strand_pos aln_rev →
        0 < x ∧ x.natAbs = (strand_pos aln_fwd - strand_pos aln_rev).natAbs + 1) ∧
      (strand_pos aln_fwd > strand_pos aln_rev →
        x < 0 ∧ x.natAbs = (strand_pos aln_fwd - strand_pos aln_rev).natAbs + 1) ∧
      (strand_pos aln_fwd = strand_pos aln_rev → x = 0) :=
  insert_size_outer_span aln_fwd aln_rev (by decide) (by decide) (by decide) (by decide)
    (by decide)

/-- The insert size of the C26 witness pair. -/
theorem insert_size_outer_span_sample :
    rapi_get_insert_size aln_fwd aln_rev = some 301 ∧
    rapi_get_insert_size aln_rev aln_fwd = some (-301) := by
  decide

/-! ## Unsupported batches -/

/-- Claim C27. `rapi_align_reads` returns `RAPI_OP_NOT_SUPPORTED_ERROR` for every batch
with more than 2 reads per fragment and `RAPI_PARAM_ERROR` for every batch with
`n_reads_frag <= 0`; in both cases the call returns with the batch, the options and
the aligner state as they were. -/
theorem align_reads_rejects (sv : bwa_services) (ref : rapi_ref) (batch : rapi_batch)
    (config : rapi_opts) (state : rapi_aligner_state) :
    (2 < batch.n_reads_frag →
      rapi_align_reads sv ref batch config state =
        some (RAPI_OP_NOT_SUPPORTED_ERROR, batch, config, state)) ∧
    (batch.n_reads_frag ≤ 0 →
      rapi_align_reads sv ref batch config state =
        some (RAPI_PARAM_ERROR, batch, config, state)) := by
  constructor
  · intro h
    unfold rapi_align_reads
    rw [if_pos h]
  · intro h
    have h2 : ¬ batch.n_reads_frag > 2 := by omega
    unfold rapi_align_reads
    rw [if_neg h2, if_pos h]

/-- Witness for C27: a batch of three reads per fragment and a batch of none. -/
theorem align_reads_rejects_witness :
    rapi_align_reads sample_services sample_ref sample_batch_3 sample_config sample_state =
      some (RAPI_OP_NOT_SUPPORTED_ERROR, sample_batch_3, sample_config, sample_state) ∧
    rapi_align_reads sample_services sample_ref sample_batch_0 sample_config sample_state =
      some (RAPI_PARAM_ERROR, sample_batch_0, sample_config, sample_state) :=
  ⟨(align_reads_rejects sample_services sample_ref sample_batch_3 sample_config
      sample_state).1 (by decide),
   (align_reads_rejects sample_services sample_ref sample_batch_0 sample_config
      sample_state).2 (by decide)⟩

/-! ## The pair-scoring branch -/

theorem convert_aln_mapq (ref : rapi_ref) (is_paired : Int) (b : mem_aln_t) :
    (convert_aln ref is_paired b).mapq = b.mapq % 256 := by
  unfold convert_aln
  simp only
  split_ifs <;> rfl

theorem reg_at_set (a : List mem_alnreg_t) (z : Int) (x : mem_alnreg_t)
    (h0 : 0 ≤ z) (h1 : z < a.length) : reg_at (a.set z.toNat x) z = x := by
  have hz : z.toNat < a.length := by omega
  unfold reg_at
  rw [List.getD_eq_getElem?_getD, List.getElem?_set_self hz]
  rfl

/-- What `pe_report_pair` stores when the two reads carry the same name and BWA hands
back reference ids below the number of contigs: one converted record per mate. -/
theorem pe_report_pair_eq (sv : bwa_services) (opt : mem_opt_t) (ref : rapi_ref)
    (s0 s1 : bseq1_t) (a0 a1 : List mem_alnreg_t) (out0 out1 : rapi_read) (n : Int)
    (z0 z1 q0 q1 : Int) (ef : Nat)
    (hname : names_differ s0.name s1.name = some false)
    (hrid : ∀ s p, (sv.mem_reg2aln opt s p).rid < ref.n_contigs) :
    pe_report_pair sv opt ref s0 s1 a0 a1 out0 out1 n z0 z1 q0 q1 ef =
      some (n,
        { out0 with
            alignments := [convert_aln ref 1 (pe_record sv opt s0 (reg_at a0 z0) q0 (0x40 ||| ef))],
            n_alignments := 1 },
        { out1 with
            alignments := [convert_aln ref 1 (pe_record sv opt s1 (reg_at a1 z1) q1 (0x80 ||| ef))],
            n_alignments := 1 }) := by
  unfold pe_report_pair
  have hr0 : ∀ b ∈ [pe_record sv opt s0 (reg_at a0 z0) q0 (0x40 ||| ef)],
      b.rid < ref.n_contigs := by
    intro b hb
    rw [List.mem_singleton.mp hb]
    exact hrid s0 _
  have hr1 : ∀ b ∈ [pe_record sv opt s1 (reg_at a1 z1) q1 (0x80 ||| ef)],
      b.rid < ref.n_contigs := by
    intro b hb
    rw [List.mem_singleton.mp hb]
    exact hrid s1 _
  have e0 := bwa_aln_to_rapi_aln_ok ref out0 1 _ 1 (by simp) hr0
  have e1 := bwa_aln_to_rapi_aln_ok ref out1 1 _ 1 (by simp) hr1
  unfold pe_record at e0 e1
  simp only [e0, e1, hname]
  simp only [RAPI_NO_ERROR, bne_self_eq_false, Bool.or_self, Bool.false_eq_true, if_false]
  rfl

/-- On the pair-scoring branch `_bwa_mem_pe` reports the pair chosen by `mem_pair` with
the paired qualities when the pair score exceeds `score_un`, and the two top candidates
with their single-end qualities otherwise. -/
theorem mem_pe_scored (sv : bwa_services) (opt : mem_opt_t) (ref : rapi_ref)
    (pes : List mem_pestat_t) (id : Int) (s0 s1 : bseq1_t) (a0 a1 : List mem_alnreg_t)
    (out0 out1 : rapi_read)
    (hpair : pe_scores_pair sv opt pes id s0 s1 a0 a1 = true) :
    _bwa_mem_pe sv opt ref pes id s0 s1 a0 a1 out0 out1 =
      if (pe_pair sv opt pes id s0 s1 a0 a1).o > pe_score_un sv opt pes id s0 s1 a0 a1 then
        pe_report_pair sv opt ref s0 s1
          ((pe_candidates sv opt pes id s0 s1 a0 a1).1.set
            (pe_pair sv opt pes id s0 s1 a0 a1).z0.toNat
            (pe_promote (pe_candidates sv opt pes id s0 s1 a0 a1).1
              (pe_pair sv opt pes id s0 s1 a0 a1).z0))
          ((pe_candidates sv opt pes id s0 s1 a0 a1).2.set
            (pe_pair sv opt pes id s0 s1 a0 a1).z1.toNat
            (pe_promote (pe_candidates sv opt pes id s0 s1 a0 a1).2
              (pe_pair sv opt pes id s0 s1 a0 a1).z1))
          out0 out1 (pe_rescue sv opt pes s0 s1 a0 a1).1
          (pe_pair sv opt pes id s0 s1 a0 a1).z0 (pe_pair sv opt pes id s0 s1 a0 a1).z1
          (pe_paired_quality sv opt (pe_candidates sv opt pes id s0 s1 a0 a1).1
            (pe_pair sv opt pes id s0 s1 a0 a1).z0 (pe_pair_q_pe sv opt pes id s0 s1 a0 a1))
          (pe_paired_quality sv opt (pe_candidates sv opt pes id s0 s1 a0 a1).2
            (pe_pair sv opt pes id s0 s1 a0 a1).z1 (pe_pair_q_pe sv opt pes id s0 s1 a0 a1))
          (1 ||| 2)
      else
        pe_report_pair sv opt ref s0 s1
          (pe_candidates sv opt pes id s0 s1 a0 a1).1
          (pe_candidates sv opt pes id s0 s1 a0 a1).2
          out0 out1 (pe_rescue sv opt pes s0 s1 a0 a1).1 0 0
          (sv.mem_approx_mapq_se opt (reg_at (pe_candidates sv opt pes id s0 s1 a0 a1).1 0))
          (sv.mem_approx_mapq_se opt (reg_at (pe_candidates sv opt pes id s0 s1 a0 a1).2 0))
          1 := by
  unfold pe_scores_pair at hpair
  simp only [Bool.and_eq_true, Bool.not_eq_true'] at hpair
  obtain ⟨⟨hF, hc⟩, hm⟩ := hpair
  have hc2 : ((pe_candidates sv opt pes id s0 s1 a0 a1).1.length != 0 &&
      (pe_candidates sv opt pes id s0 s1 a0 a1).2.length != 0 &&
      decide ((sv.mem_pair opt pes s0 s1 (pe_candidates sv opt pes id s0 s1 a0 a1).1
        (pe_candidates sv opt pes id s0 s1 a0 a1).2 id).o > 0)) = true := by
    simp only [Bool.and_eq_true]
    exact hc
  unfold _bwa_mem_pe pe_pair_q_pe pe_paired_quality pe_score_un pe_pair
  simp only [hF, Bool.false_eq_true, if_false, hc2, if_true, hm]

/-- Claim C28. On the pair-scoring branch of `_bwa_mem_pe` (pairing enabled, both mates
with candidates, positive pair score `o`, neither mate ambiguous), with equal read names
and reference ids in range: when `o > score_un` each mate stores the candidate chosen by
the pairing routine (index `z[0]`, `z[1]`) with its paired quality and bit 0x2; when
`o <= score_un`, a tie included, each mate stores its top candidate (index 0) with its
own single-end quality. -/
theorem mem_pe_tie_break (sv : bwa_services) (opt : mem_opt_t) (ref : rapi_ref)
    (pes : List mem_pestat_t) (id : Int) (s0 s1 : bseq1_t) (a0 a1 : List mem_alnreg_t)
    (out0 out1 : rapi_read)
    (hname : names_differ s0.name s1.name = some false)
    (hrid : ∀ s p, (sv.mem_reg2aln opt s p).rid < ref.n_contigs)
    (hpair : pe_scores_pair sv opt pes id s0 s1 a0 a1 = true) :
    ((pe_pair sv opt pes id s0 s1 a0 a1).o > pe_score_un sv opt pes id s0 s1 a0 a1 →
      0 ≤ (pe_pair sv opt pes id s0 s1 a0 a1).z0 →
      (pe_pair sv opt pes id s0 s1 a0 a1).z0 <
        (pe_candidates sv opt pes id s0 s1 a0 a1).1.length →
      0 ≤ (pe_pair sv opt pes id s0 s1 a0 a1).z1 →
      (pe_pair sv opt pes id s0 s1 a0 a1).z1 <
        (pe_candidates sv opt pes id s0 s1 a0 a1).2.length →
      _bwa_mem_pe sv opt ref pes id s0 s1 a0 a1 out0 out1 =
        some ((pe_rescue sv opt pes s0 s1 a0 a1).1,
          { out0 with
              alignments := [convert_aln ref 1 (pe_record sv opt s0
                (pe_promote (pe_candidates sv opt pes id s0 s1 a0 a1).1
                  (pe_pair sv opt pes id s0 s1 a0 a1).z0)
                (pe_paired_quality sv opt (pe_candidates sv opt pes id s0 s1 a0 a1).1
                  (pe_pair sv opt pes id s0 s1 a0 a1).z0
                  (pe_pair_q_pe sv opt pes id s0 s1 a0 a1))
                (0x40 ||| (1 ||| 2)))],
              n_alignments := 1 },
          { out1 with
              alignments := [convert_aln ref 1 (pe_record sv opt s1
                (pe_promote (pe_candidates sv opt pes id s0 s1 a0 a1).2
                  (pe_pair sv opt pes id s0 s1 a0 a1).z1)
                (pe_paired_quality sv opt (pe_candidates sv opt pes id s0 s1 a0 a1).2
                  (pe_pair sv opt pes id s0 s1 a0 a1).z1
                  (pe_pair_q_pe sv opt pes id s0 s1 a0 a1))
                (0x80 ||| (1 ||| 2)))],
              n_alignments := 1 })) ∧
    ((pe_pair sv opt pes id s0 s1 a0 a1).o ≤ pe_score_un sv opt pes id s0 s1 a0 a1 →
      _bwa_mem_pe sv opt ref pes id s0 s1 a0 a1 out0 out1 =
        some ((pe_rescue sv opt pes s0 s1 a0 a1).1,
          { out0 with
              alignments := [convert_aln ref 1 (pe_record sv opt s0
                (reg_at (pe_candidates sv opt pes id s0 s1 a0 a1).1 0)
                (sv.mem_approx_mapq_se opt
                  (reg_at (pe_candidates sv opt pes id s0 s1 a0 a1).1 0))
                (0x40 ||| 1))],
              n_alignments := 1 },
          { out1 with
              alignments := [convert_aln ref 1 (pe_record sv opt s1
                (reg_at (pe_candidates sv opt pes id s0 s1 a0 a1).2 0)
                (sv.mem_approx_mapq_se opt
                  (reg_at (pe_candidates sv opt pes id s0 s1 a0 a1).2 0))
                (0x80 ||| 1))],
              n_alignments := 1 })) := by
  constructor
  · intro hwin h0 h1 h2 h3
    rw [mem_pe_scored sv opt ref pes id s0 s1 a0 a1 out0 out1 hpair, if_pos hwin,
      pe_report_pair_eq sv opt ref s0 s1 _ _ out0 out1 _ _ _ _ _ _ hname hrid,
      reg_at_set _ _ _ h0 h1, reg_at_set _ _ _ h2 h3]
  · intro hle
    have hnot : ¬ ((pe_pair sv opt pes id s0 s1 a0 a1).o >
        pe_score_un sv opt pes id s0 s1 a0 a1) := not_lt.mpr hle
    rw [mem_pe_scored sv opt ref pes id s0 s1 a0 a1 out0 out1 hpair, if_neg hnot,
      pe_report_pair_eq sv opt ref s0 s1 _ _ out0 out1 _ _ _ _ _ _ hname hrid]

/-- Witness for C28: with pair score 120 above `score_un = 103` the chosen pair is stored
with quality 60; with pair score 103 equal to `score_un` the first mate stores its top
candidate at 101, not the candidate at 701 chosen by the pairing routine. -/
theorem mem_pe_tie_break_witness :
    (_bwa_mem_pe sample_services sample_opt sample_ref [] 0 sample_seq sample_seq
        [⟨100, 108, 60, 0, 0, -1⟩] [⟨392, 400, 60, 0, 0, -1⟩] read_new read_new).map
      (fun r => (r.2.1.alignments.map (fun a => (a.pos, a.mapq)),
        r.2.2.alignments.map (fun a => (a.pos, a.mapq)))) =
      some ([(101, 60)], [(393, 60)]) ∧
    (_bwa_mem_pe sample_services_tie sample_opt sample_ref [] 0 sample_seq sample_seq
        [⟨100, 108, 60, 0, 0, -1⟩, ⟨700, 708, 20, 0, 0, -1⟩] [⟨392, 400, 60, 0, 0, -1⟩]
        read_new read_new).map
      (fun r => (r.2.1.alignments.map (fun a => (a.pos, a.mapq)),
        r.2.2.alignments.map (fun a => (a.pos, a.mapq)))) =
      some ([(101, 60)], [(393, 60)]) :=
  ⟨(congrArg (Option.map (fun (r : Int × rapi_read × rapi_read) =>
        (r.2.1.alignments.map (fun a => (a.pos, a.mapq)),
          r.2.2.alignments.map (fun a => (a.pos, a.mapq)))))
      ((mem_pe_tie_break sample_services sample_opt sample_ref [] 0 sample_seq sample_seq
        [⟨100, 108, 60, 0, 0, -1⟩] [⟨392, 400, 60, 0, 0, -1⟩] read_new read_new
        (by decide)
        (by intro s p; cases p <;> simp [sample_services, sample_ref, zero_aln])
        (by decide)).1 (by decide) (by decide) (by decide) (by decide) (by decide))).trans
      (by decide),
   (congrArg (Option.map (fun (r : Int × rapi_read × rapi_read) =>
        (r.2.1.alignments.map (fun a => (a.pos, a.mapq)),
          r.2.2.alignments.map (fun a => (a.pos, a.mapq)))))
      ((mem_pe_tie_break sample_services_tie sample_opt sample_ref [] 0 sample_seq
        sample_seq [⟨100, 108, 60, 0, 0, -1⟩, ⟨700, 708, 20, 0, 0, -1⟩]
        [⟨392, 400, 60, 0, 0, -1⟩] read_new read_new
        (by decide)
        (by intro s p; cases p <;>
          simp [sample_services_tie, sample_services, sample_ref, zero_aln])
        (by decide)).2 (by decide))).trans
      (by decide)⟩

/-! ## Qualities on the pair-scoring branch -/

/-- The nested conditionals of lines 822-827 are the floor-then-ceiling cap. -/
theorem pe_cap_floor_eq_spec (opt : mem_opt_t) (q_se q_pe : Int) (c : mem_alnreg_t) :
    pe_cap opt (pe_floor q_se q_pe) c =
      pe_quality_spec q_se q_pe (raw_mapq (c.score - c.csub) opt.a) := by
  unfold pe_cap pe_floor pe_quality_spec
  generalize raw_mapq (c.score - c.csub) opt.a = raw
  split_ifs <;> omega

/-- The quality stored by the conversion of a record `h[i]` is the assigned quality
narrowed to 8 bits. -/
theorem pe_record_mapq (sv : bwa_services) (opt : mem_opt_t) (ref : rapi_ref) (s : bseq1_t)
    (c : mem_alnreg_t) (q : Int) (flag : Nat) :
    ((convert_aln ref 1 (pe_record sv opt s c q flag)).mapq : Int) = q % 256 := by
  rw [convert_aln_mapq]
  unfold pe_record
  simp only
  omega

/-- Claim C29. When the paired placement wins in `_bwa_mem_pe`, the quality assigned to
each mate is `min (max (q_se, min (q_pe, q_se + 40)), raw_mapq (score - csub))` for the
mate's own single-end quality `q_se`, the clamped paired quality `q_pe` and the chosen
candidate's score and `csub`; the nested conditionals of the code equal this expression
for all integer inputs; the stored `mapq` is that value in its 8-bit field, the value
itself when it lies in 0..255. -/
theorem mem_pe_paired_quality (sv : bwa_services) (opt : mem_opt_t) (ref : rapi_ref)
    (pes : List mem_pestat_t) (id : Int) (s0 s1 : bseq1_t) (a0 a1 : List mem_alnreg_t)
    (out0 out1 : rapi_read)
    (hname : names_differ s0.name s1.name = some false)
    (hrid : ∀ s p, (sv.mem_reg2aln opt s p).rid < ref.n_contigs)
    (hpair : pe_scores_pair sv opt pes id s0 s1 a0 a1 = true)
    (hwin : (pe_pair sv opt pes id s0 s1 a0 a1).o > pe_score_un sv opt pes id s0 s1 a0 a1) :
    (∀ (q_se q_pe : Int) (c : mem_alnreg_t),
      pe_cap opt (pe_floor q_se q_pe) c =
        pe_quality_spec q_se q_pe (raw_mapq (c.score - c.csub) opt.a)) ∧
    ∃ n o0 o1 x0 x1,
      _bwa_mem_pe sv opt ref pes id s0 s1 a0 a1 out0 out1 = some (n, o0, o1) ∧
      o0.alignments = [x0] ∧ o1.alignments = [x1] ∧
      (x0.mapq : Int) =
        pe_quality_spec
          (sv.mem_approx_mapq_se opt
            (pe_promote (pe_candidates sv opt pes id s0 s1 a0 a1).1
              (pe_pair sv opt pes id s0 s1 a0 a1).z0))
          (pe_pair_q_pe sv opt pes id s0 s1 a0 a1)
          (raw_mapq
            ((pe_promote (pe_candidates sv opt pes id s0 s1 a0 a1).1
                (pe_pair sv opt pes id s0 s1 a0 a1).z0).score -
              (pe_promote (pe_candidates sv opt pes id s0 s1 a0 a1).1
                (pe_pair sv opt pes id s0 s1 a0 a1).z0).csub) opt.a) % 256 ∧
      (x1.mapq : Int) =
        pe_quality_spec
          (sv.mem_approx_mapq_se opt
            (pe_promote (pe_candidates sv opt pes id s0 s1 a0 a1).2
              (pe_pair sv opt pes id s0 s1 a0 a1).z1))
          (pe_pair_q_pe sv opt pes id s0 s1 a0 a1)
          (raw_mapq
            ((pe_promote (pe_candidates sv opt pes id s0 s1 a0 a1).2
                (pe_pair sv opt pes id s0 s1 a0 a1).z1).score -
              (pe_promote (pe_candidates sv opt pes id s0 s1 a0 a1).2
                (pe_pair sv opt pes id s0 s1 a0 a1).z1).csub) opt.a) % 256 := by
  refine ⟨pe_cap_floor_eq_spec opt, ?_⟩
  rw [mem_pe_scored sv opt ref pes id s0 s1 a0 a1 out0 out1 hpair, if_pos hwin,
    pe_report_pair_eq sv opt ref s0 s1 _ _ out0 out1 _ _ _ _ _ _ hname hrid]
  refine ⟨_, _, _, _, _, rfl, rfl, rfl, ?_, ?_⟩
  · rw [pe_record_mapq, pe_paired_quality, pe_cap_floor_eq_spec]
  · rw [pe_record_mapq, pe_paired_quality, pe_cap_floor_eq_spec]

/-- Witness for C29: on the sample pair, whose pair score 120 exceeds 103, an own
quality 20 with paired quality 50 and a tandem-repeat gap of 30 gives
`min (max (20, min (50, 60)), 181) = 50`. -/
theorem mem_pe_paired_quality_witness :
    pe_cap sample_opt (pe_floor 20 50) ⟨100, 108, 60, 0, 30, -1⟩ = 50 :=
  ((mem_pe_paired_quality sample_services sample_opt sample_ref [] 0 sample_seq sample_seq
      [⟨100, 108, 60, 0, 0, -1⟩] [⟨392, 400, 60, 0, 0, -1⟩] read_new read_new
      (by decide)
      (by intro s p; cases p <;> simp [sample_services, sample_ref, zero_aln])
      (by decide) (by decide)).1 20 50 ⟨100, 108, 60, 0, 30, -1⟩).trans (by decide)

/-- The paired branch with match bonus 140, top scores 1000 and 1000 and pair score
2390: `score_un` is 1983, the paired quality is `raw_mapq (407, 140) = 17`, and each
mate stores `min (max (0, min (17, 40)), raw_mapq (1000, 140)) = 17`. -/
theorem mem_pe_paired_quality_sample :
    pe_scores_pair sample_services_2390 sample_opt_140 [] 0 sample_seq sample_seq
      [⟨100, 108, 1000, 0, 0, -1⟩] [⟨392, 400, 1000, 0, 0, -1⟩] = true ∧
    pe_score_un sample_services_2390 sample_opt_140 [] 0 sample_seq sample_seq
      [⟨100, 108, 1000, 0, 0, -1⟩] [⟨392, 400, 1000, 0, 0, -1⟩] = 1983 ∧
    pe_pair_q_pe sample_services_2390 sample_opt_140 [] 0 sample_seq sample_seq
      [⟨100, 108, 1000, 0, 0, -1⟩] [⟨392, 400, 1000, 0, 0, -1⟩] = 17 ∧
    pe_quality_spec 0 17 (raw_mapq (1000 - 0) 140) = 17 ∧
    (_bwa_mem_pe sample_services_2390 sample_opt_140 sample_ref [] 0 sample_seq sample_seq
        [⟨100, 108, 1000, 0, 0, -1⟩] [⟨392, 400, 1000, 0, 0, -1⟩] read_new read_new).map
      (fun r => (r.2.1.alignments.map (fun a => a.mapq),
        r.2.2.alignments.map (fun a => a.mapq))) = some ([17], [17]) := by
  decide

theorem pe_q_pe_range (sv : bwa_services) (opt : mem_opt_t) (o subo n_sub score_un : Int) :
    0 ≤ pe_q_pe sv opt o subo n_sub score_un ∧ pe_q_pe sv opt o subo n_sub score_un ≤ 60 := by
  unfold pe_q_pe
  simp only
  generalize (if n_sub > 0 then
    raw_mapq (o - if subo > score_un then subo else score_un) opt.a - sv.log_penalty n_sub
    else raw_mapq (o - if subo > score_un then subo else score_un) opt.a) = q
  split_ifs <;> omega

theorem fp_round_nonneg (num : Int) (den : Nat) (h : 0 ≤ num) : 0 ≤ (fp_round num den).1 := by
  have hs : ¬ num < 0 := by omega
  unfold fp_round
  simp only [hs, if_false, Int.one_mul]
  split_ifs
  · exact Int.ofNat_nonneg _
  · exact Int.ofNat_nonneg _

theorem raw_mapq_nonneg (diff a : Int) (ha : 0 < a) (hd : 0 ≤ diff) : 0 ≤ raw_mapq diff a := by
  have hna : ¬ a < 0 := by omega
  have hz : (a == 0) = false := by
    rw [beq_eq_false_iff_ne]
    omega
  have hx : 0 ≤ (fp_round (fp_6_02.1 * diff) fp_6_02.2).1 :=
    fp_round_nonneg _ _ (Int.mul_nonneg (by decide) hd)
  unfold raw_mapq
  simp only [hz, Bool.false_eq_true, hna, if_false]
  have hy := fp_round_nonneg _ ((fp_round (fp_6_02.1 * diff) fp_6_02.2).2 * a.natAbs) hx
  apply Int.tdiv_nonneg
  · apply fp_round_nonneg
    apply Int.add_nonneg
    · exact Int.mul_nonneg hy (Int.ofNat_nonneg _)
    · exact Int.mul_nonneg (by decide) (Int.ofNat_nonneg _)
  · exact Int.ofNat_nonneg _

/-- The macro on the inputs of the samples: `6.02 * 407 / 140 + .499` falls just short
of 18 in `double` arithmetic. -/
theorem raw_mapq_samples :
    raw_mapq 407 140 = 17 ∧ raw_mapq (-1) 1 = -5 ∧ raw_mapq 17 1 = 102 ∧
    raw_mapq 30 1 = 181 ∧ raw_mapq 0 1 = 0 ∧ raw_mapq 1000 140 = 43 := by
  decide

theorem pe_promote_scores (a : List mem_alnreg_t) (z : Int) :
    (pe_promote a z).score = (reg_at a z).score ∧
    (pe_promote a z).csub = (reg_at a z).csub := by
  unfold pe_promote
  simp only
  split_ifs <;> exact ⟨rfl, rfl⟩

theorem reg_at_csub (a : List mem_alnreg_t) (z : Int)
    (h : ∀ p ∈ a, p.csub ≤ p.score) : (reg_at a z).csub ≤ (reg_at a z).score := by
  unfold reg_at
  rw [List.getD_eq_getElem?_getD]
  by_cases hz : z.toNat < a.length
  · rw [List.getElem?_eq_getElem hz]
    exact h _ (List.getElem_mem hz)
  · rw [List.getElem?_eq_none (not_lt.mp hz)]
    decide

/-- With a positive match bonus, an own quality and a paired quality in 0..60 and a
candidate whose `csub` does not exceed its score, the quality of lines 822-827 lies in
0..60. -/
theorem pe_cap_floor_range (opt : mem_opt_t) (q_se q_pe : Int) (c : mem_alnreg_t)
    (ha : 0 < opt.a) (hc : c.csub ≤ c.score)
    (h0 : 0 ≤ q_se) (h1 : q_se ≤ 60) (h2 : 0 ≤ q_pe) (h3 : q_pe ≤ 60) :
    0 ≤ pe_cap opt (pe_floor q_se q_pe) c ∧ pe_cap opt (pe_floor q_se q_pe) c ≤ 60 := by
  have hr := raw_mapq_nonneg (c.score - c.csub) opt.a ha (by omega)
  unfold pe_cap pe_floor
  generalize raw_mapq (c.score - c.csub) opt.a = raw at hr
  split_ifs <;> omega

/-- Claim C30, as stated, fails: with match bonus 1 and a single-end estimate of 60, a
chosen candidate of score 60 whose `csub` is 61 is assigned the quality -5 on the
pair-scoring branch, stored in the 8-bit field as 251; a single-end estimate of 0 gives
-5 as well. -/
theorem mem_pe_quality_out_of_range :
    0 < sample_opt.a ∧
    sample_services.mem_approx_mapq_se sample_opt ⟨100, 108, 60, 0, 61, -1⟩ = 60 ∧
    pe_scores_pair sample_services sample_opt [] 0 sample_seq sample_seq
      [⟨100, 108, 60, 0, 61, -1⟩] [⟨392, 400, 60, 0, 0, -1⟩] = true ∧
    pe_paired_quality sample_services sample_opt [⟨100, 108, 60, 0, 61, -1⟩] 0
      (pe_pair_q_pe sample_services sample_opt [] 0 sample_seq sample_seq
        [⟨100, 108, 60, 0, 61, -1⟩] [⟨392, 400, 60, 0, 0, -1⟩]) = -5 ∧
    pe_cap sample_opt (pe_floor 0 60) ⟨100, 108, 60, 0, 61, -1⟩ = -5 ∧
    (_bwa_mem_pe sample_services sample_opt sample_ref [] 0 sample_seq sample_seq
        [⟨100, 108, 60, 0, 61, -1⟩] [⟨392, 400, 60, 0, 0, -1⟩] read_new read_new).map
      (fun r => (r.2.1.alignments.map (fun a => a.mapq),
        r.2.2.alignments.map (fun a => a.mapq))) = some ([251], [60]) := by
  decide

/-- Claim C30, amended. The paired quality `q_pe` always lies in 0..60. On the
pair-scoring branch of `_bwa_mem_pe`, with a positive match bonus, an external
single-end estimate in 0..60 and no candidate whose `csub` exceeds its score, the call
returns and each mate stores one alignment whose mapping quality lies in 0..60. -/
theorem mem_pe_quality_range (sv : bwa_services) (opt : mem_opt_t) (ref : rapi_ref)
    (pes : List mem_pestat_t) (id : Int) (s0 s1 : bseq1_t) (a0 a1 : List mem_alnreg_t)
    (out0 out1 : rapi_read)
    (hname : names_differ s0.name s1.name = some false)
    (hrid : ∀ s p, (sv.mem_reg2aln opt s p).rid < ref.n_contigs)
    (hpair : pe_scores_pair sv opt pes id s0 s1 a0 a1 = true)
    (ha : 0 < opt.a)
    (hse : ∀ c, 0 ≤ sv.mem_approx_mapq_se opt c ∧ sv.mem_approx_mapq_se opt c ≤ 60)
    (hcs0 : ∀ p ∈ (pe_candidates sv opt pes id s0 s1 a0 a1).1, p.csub ≤ p.score)
    (hcs1 : ∀ p ∈ (pe_candidates sv opt pes id s0 s1 a0 a1).2, p.csub ≤ p.score) :
    (∀ o subo n_sub score_un : Int,
      0 ≤ pe_q_pe sv opt o subo n_sub score_un ∧ pe_q_pe sv opt o subo n_sub score_un ≤ 60) ∧
    ∃ n o0 o1 x0 x1,
      _bwa_mem_pe sv opt ref pes id s0 s1 a0 a1 out0 out1 = some (n, o0, o1) ∧
      o0.alignments = [x0] ∧ o1.alignments = [x1] ∧ x0.mapq ≤ 60 ∧ x1.mapq ≤ 60 := by
  refine ⟨pe_q_pe_range sv opt, ?_⟩
  have hq := pe_q_pe_range sv opt (pe_pair sv opt pes id s0 s1 a0 a1).o
    (pe_pair sv opt pes id s0 s1 a0 a1).subo (pe_pair sv opt pes id s0 s1 a0 a1).n_sub
    (pe_score_un sv opt pes id s0 s1 a0 a1)
  have hb : ∀ (s : bseq1_t) (c : mem_alnreg_t) (q : Int) (flag : Nat), 0 ≤ q → q ≤ 60 →
      (convert_aln ref 1 (pe_record sv opt s c q flag)).mapq ≤ 60 := by
    intro s c q flag h0 h1
    have := pe_record_mapq sv opt ref s c q flag
    omega
  rw [mem_pe_scored sv opt ref pes id s0 s1 a0 a1 out0 out1 hpair]
  by_cases hwin : (pe_pair sv opt pes id s0 s1 a0 a1).o >
      pe_score_un sv opt pes id s0 s1 a0 a1
  · rw [if_pos hwin,
      pe_report_pair_eq sv opt ref s0 s1 _ _ out0 out1 _ _ _ _ _ _ hname hrid]
    have hp0 : (pe_promote (pe_candidates sv opt pes id s0 s1 a0 a1).1
        (pe_pair sv opt pes id s0 s1 a0 a1).z0).csub ≤
        (pe_promote (pe_candidates sv opt pes id s0 s1 a0 a1).1
        (pe_pair sv opt pes id s0 s1 a0 a1).z0).score := by
      rw [(pe_promote_scores _ _).1, (pe_promote_scores _ _).2]
      exact reg_at_csub _ _ hcs0
    have hp1 : (pe_promote (pe_candidates sv opt pes id s0 s1 a0 a1).2
        (pe_pair sv opt pes id s0 s1 a0 a1).z1).csub ≤
        (pe_promote (pe_candidates sv opt pes id s0 s1 a0 a1).2
        (pe_pair sv opt pes id s0 s1 a0 a1).z1).score := by
      rw [(pe_promote_scores _ _).1, (pe_promote_scores _ _).2]
      exact reg_at_csub _ _ hcs1
    have r0 := pe_cap_floor_range opt
      (sv.mem_approx_mapq_se opt (pe_promote (pe_candidates sv opt pes id s0 s1 a0 a1).1
        (pe_pair sv opt pes id s0 s1 a0 a1).z0))
      (pe_pair_q_pe sv opt pes id s0 s1 a0 a1) _ ha hp0 (hse _).1 (hse _).2 hq.1 hq.2
    have r1 := pe_cap_floor_range opt
      (sv.mem_approx_mapq_se opt (pe_promote (pe_candidates sv opt pes id s0 s1 a0 a1).2
        (pe_pair sv opt pes id s0 s1 a0 a1).z1))
      (pe_pair_q_pe sv opt pes id s0 s1 a0 a1) _ ha hp1 (hse _).1 (hse _).2 hq.1 hq.2
    exact ⟨_, _, _, _, _, rfl, rfl, rfl, hb _ _ _ _ r0.1 r0.2, hb _ _ _ _ r1.1 r1.2⟩
  · rw [if_neg hwin,
      pe_report_pair_eq sv opt ref s0 s1 _ _ out0 out1 _ _ _ _ _ _ hname hrid]
    exact ⟨_, _, _, _, _, rfl, rfl, rfl, hb _ _ _ _ (hse _).1 (hse _).2,
      hb _ _ _ _ (hse _).1 (hse _).2⟩

/-- Witness for C30 (amended): the sample pair, whose candidates have `csub = 0`. -/
theorem mem_pe_quality_range_witness :
    ∃ n o0 o1 x0 x1,
      _bwa_mem_pe sample_services sample_opt sample_ref [] 0 sample_seq sample_seq
        [⟨100, 108, 60, 0, 0, -1⟩] [⟨392, 400, 60, 0, 0, -1⟩] read_new read_new =
        some (n, o0, o1) ∧
      o0.alignments = [x0] ∧ o1.alignments = [x1] ∧ x0.mapq ≤ 60 ∧ x1.mapq ≤ 60 :=
  (mem_pe_quality_range sample_services sample_opt sample_ref [] 0 sample_seq sample_seq
    [⟨100, 108, 60, 0, 0, -1⟩] [⟨392, 400, 60, 0, 0, -1⟩] read_new read_new
    (by decide)
    (by intro s p; cases p <;> simp [sample_services, sample_ref, zero_aln])
    (by decide) (by decide)
    (by intro c; simp [sample_services])
    (by decide) (by decide)).2

/-! ## Slot addressing -/

/-- A granted `rapi_reads_alloc` yields a batch holding `n_frags * n_reads_frag` zeroed
slots. -/
theorem reads_alloc_wf (batch : rapi_batch) (nr nf : Int) (hr : 0 ≤ nr) (hf : 0 ≤ nf) :
    (rapi_reads_alloc true batch nr nf).1 = RAPI_NO_ERROR ∧
    batch_wf (rapi_reads_alloc true batch nr nf).2 := by
  have a1 : ¬ nf < 0 := by omega
  have a2 : ¬ nr < 0 := by omega
  have hnn : 0 ≤ nr * nf := Int.mul_nonneg hr hf
  unfold rapi_reads_alloc batch_wf
  simp only [a1, a2, decide_False, Bool.or_self, Bool.false_eq_true, if_false, Bool.not_true,
    List.length_replicate]
  refine ⟨trivial, hf, hr, ?_⟩
  rw [Int.toNat_of_nonneg hnn, Int.mul_comm]

theorem slot_index_inj (n f r f2 r2 : Int) (hr0 : 0 ≤ r) (hr1 : r < n)
    (hs0 : 0 ≤ r2) (hs1 : r2 < n) (h : f * n + r = f2 * n + r2) : f = f2 ∧ r = r2 := by
  have hf : f = f2 := by
    rcases lt_trichotomy f f2 with hlt | heq | hgt
    · exfalso
      have h1 : (f + 1) * n ≤ f2 * n := Int.mul_le_mul_of_nonneg_right (by omega) (by omega)
      have h2 : (f + 1) * n = f * n + n := by ring
      omega
    · exact heq
    · exfalso
      have h1 : (f2 + 1) * n ≤ f * n := Int.mul_le_mul_of_nonneg_right (by omega) (by omega)
      have h2 : (f2 + 1) * n = f2 * n + n := by ring
      omega
  subst hf
  exact ⟨rfl, by omega⟩

theorem slot_index_surj (N n i : Int) (h0 : 0 ≤ i) (h1 : i < N * n) (hn : 0 ≤ n) :
    ∃ f r, 0 ≤ f ∧ f < N ∧ 0 ≤ r ∧ r < n ∧ f * n + r = i := by
  have hpos : 0 < n := by
    rcases lt_or_eq_of_le hn with h | h
    · exact h
    · exfalso
      rw [← h, Int.mul_zero] at h1
      omega
  refine ⟨i / n, i % n, Int.ediv_nonneg h0 hn, ?_, Int.emod_nonneg i (by omega),
    Int.emod_lt_of_pos i hpos, ?_⟩
  · exact Int.ediv_lt_of_lt_mul hpos h1
  · rw [Int.mul_comm]
    exact Int.ediv_add_emod i n

/-- Claim C34. For every batch and every in-range pair `(f, r)`, `rapi_get_read`
addresses the flattened index `f * n_reads_frag + r`, which lies in
`0 .. n_frags * n_reads_frag - 1` (and within the range of `int` when the slot count
is); two in-range pairs with the same index are the same pair; every index below
`n_frags * n_reads_frag` is addressed by an in-range pair; and in a batch holding
`n_frags * n_reads_frag` slots the addressed read is the slot at that index. -/
theorem get_read_index_bijection (batch : rapi_batch) (f r : Int)
    (hf0 : 0 ≤ f) (hf1 : f < batch.n_frags) (hr0 : 0 ≤ r) (hr1 : r < batch.n_reads_frag) :
    rapi_get_read_index batch f r = f * batch.n_reads_frag + r ∧
    rapi_get_read batch f r =
      batch.reads.getD (f * batch.n_reads_frag + r).toNat zero_read ∧
    0 ≤ rapi_get_read_index batch f r ∧
    rapi_get_read_index batch f r < batch.n_frags * batch.n_reads_frag ∧
    (batch.n_frags * batch.n_reads_frag < 2 ^ 31 →
      0 ≤ f * batch.n_reads_frag ∧ f * batch.n_reads_frag < 2 ^ 31 ∧
      rapi_get_read_index batch f r < 2 ^ 31) ∧
    (∀ f2 r2 : Int, 0 ≤ f2 → f2 < batch.n_frags → 0 ≤ r2 → r2 < batch.n_reads_frag →
      rapi_get_read_index batch f r = rapi_get_read_index batch f2 r2 → f = f2 ∧ r = r2) ∧
    (∀ i : Int, 0 ≤ i → i < batch.n_frags * batch.n_reads_frag →
      ∃ f2 r2, 0 ≤ f2 ∧ f2 < batch.n_frags ∧ 0 ≤ r2 ∧ r2 < batch.n_reads_frag ∧
        rapi_get_read_index batch f2 r2 = i) ∧
    (batch_wf batch →
      batch.reads[(rapi_get_read_index batch f r).toNat]? =
        some (rapi_get_read batch f r)) := by
  have h1 : 0 ≤ f * batch.n_reads_frag := Int.mul_nonneg hf0 (by omega)
  have h2 : (f + 1) * batch.n_reads_frag ≤ batch.n_frags * batch.n_reads_frag :=
    Int.mul_le_mul_of_nonneg_right (by omega) (by omega)
  have h3 : (f + 1) * batch.n_reads_frag = f * batch.n_reads_frag + batch.n_reads_frag := by
    ring
  refine ⟨rfl, rfl, ?_, ?_, ?_, ?_, ?_, ?_⟩
  · unfold rapi_get_read_index
    omega
  · unfold rapi_get_read_index
    omega
  · intro hN
    unfold rapi_get_read_index
    refine ⟨h1, ?_, ?_⟩ <;> omega
  · intro f2 r2 g0 g1 g2 g3 heq
    unfold rapi_get_read_index at heq
    exact slot_index_inj batch.n_reads_frag f r f2 r2 hr0 hr1 g2 g3 heq
  · intro i hi0 hi1
    exact slot_index_surj batch.n_frags batch.n_reads_frag i hi0 hi1 (by omega)
  · intro hwf
    have hlt := (slot_index_range batch f r hwf hf0 hf1 hr0 hr1).2
    unfold rapi_get_read
    rw [List.getD_eq_getElem?_getD, List.getElem?_eq_getElem hlt]
    rfl

/-- Witness for C34: slot `(1, 0)` of the 2 x 2 sample batch has flattened index 2. -/
theorem get_read_index_bijection_witness :
    rapi_get_read_index sample_batch_pe 1 0 = 2 ∧
    rapi_get_read_index sample_batch_pe 1 0 < 4 :=
  ⟨(get_read_index_bijection sample_batch_pe 1 0 (by decide) (by decide) (by decide)
      (by decide)).1.trans (by decide),
   (get_read_index_bijection sample_batch_pe 1 0 (by decide) (by decide) (by decide)
      (by decide)).2.2.2.1⟩

/-! ## Ambiguity overrides pairing -/

/-- Off the pair-scoring branch, `_bwa_mem_pe` is the no-pairing path on the candidate
sets left by rescue and primary marking. -/
theorem mem_pe_unscored (sv : bwa_services) (opt : mem_opt_t) (ref : rapi_ref)
    (pes : List mem_pestat_t) (id : Int) (s0 s1 : bseq1_t) (a0 a1 : List mem_alnreg_t)
    (out0 out1 : rapi_read)
    (hpair : pe_scores_pair sv opt pes id s0 s1 a0 a1 = false) :
    _bwa_mem_pe sv opt ref pes id s0 s1 a0 a1 out0 out1 =
      pe_no_pairing sv opt ref pes s0 s1 (pe_candidates sv opt pes id s0 s1 a0 a1).1
        (pe_candidates sv opt pes id s0 s1 a0 a1).2 out0 out1
        (pe_rescue sv opt pes s0 s1 a0 a1).1 1 := by
  unfold pe_scores_pair at hpair
  unfold _bwa_mem_pe
  simp only
  cases hF : opt.F_NOPAIRING with
  | true => simp
  | false =>
    simp only [hF, Bool.not_false, Bool.true_and] at hpair
    simp only [Bool.false_eq_true, if_false]
    cases hc : ((pe_candidates sv opt pes id s0 s1 a0 a1).1.length != 0 &&
        (pe_candidates sv opt pes id s0 s1 a0 a1).2.length != 0 &&
        decide ((sv.mem_pair opt pes s0 s1 (pe_candidates sv opt pes id s0 s1 a0 a1).1
          (pe_candidates sv opt pes id s0 s1 a0 a1).2 id).o > 0)) with
    | false => simp
    | true =>
      rw [hc, Bool.true_and] at hpair
      have hm : (is_multi opt (pe_candidates sv opt pes id s0 s1 a0 a1).1 ||
          is_multi opt (pe_candidates sv opt pes id s0 s1 a0 a1).2) = true := by
        cases hx : (is_multi opt (pe_candidates sv opt pes id s0 s1 a0 a1).1 ||
          is_multi opt (pe_candidates sv opt pes id s0 s1 a0 a1).2) with
        | true => rfl
        | false =>
          rw [hx] at hpair
          exact absurd hpair (by decide)
      simp only [if_true, hm]

/-- A candidate other than the first that is primary with score at least `T` makes
`is_multi` true. -/
theorem is_multi_of_candidate (opt : mem_opt_t) (a : List mem_alnreg_t) (j : Nat)
    (h1 : 1 ≤ j) (h2 : j < a.length) (hs : (reg_at a j).secondary < 0)
    (hT : opt.T ≤ (reg_at a j).score) : is_multi opt a = true := by
  have hreg : reg_at a j = a[j] := by
    unfold reg_at
    simp [List.getD_eq_getElem?_getD, List.getElem?_eq_getElem h2]
  rw [hreg] at hs hT
  unfold is_multi
  rw [List.any_eq_true]
  refine ⟨a[j], ?_, by simp [hs, hT]⟩
  rw [List.mem_iff_getElem?]
  refine ⟨j - 1, ?_⟩
  rw [List.getElem?_drop]
  have : 1 + (j - 1) = j := by omega
  rw [this, List.getElem?_eq_getElem h2]

/-- Claim C31. In `_bwa_mem_pe`, whenever either mate has a candidate other than its
first that is primary (`secondary < 0`) with score at least `T`, the pair is reported
through the no-pairing path, whatever the pairing routine returns; with equal read names
and reference ids in range, each mate then stores what `_bwa_reg2_rapi_aln_se` makes of
its own candidates. -/
theorem mem_pe_ambiguity (sv : bwa_services) (opt : mem_opt_t) (ref : rapi_ref)
    (pes : List mem_pestat_t) (id : Int) (s0 s1 : bseq1_t) (a0 a1 : List mem_alnreg_t)
    (out0 out1 : rapi_read)
    (hamb :
      (∃ j : Nat, 1 ≤ j ∧ j < (pe_candidates sv opt pes id s0 s1 a0 a1).1.length ∧
        (reg_at (pe_candidates sv opt pes id s0 s1 a0 a1).1 j).secondary < 0 ∧
        opt.T ≤ (reg_at (pe_candidates sv opt pes id s0 s1 a0 a1).1 j).score) ∨
      (∃ j : Nat, 1 ≤ j ∧ j < (pe_candidates sv opt pes id s0 s1 a0 a1).2.length ∧
        (reg_at (pe_candidates sv opt pes id s0 s1 a0 a1).2 j).secondary < 0 ∧
        opt.T ≤ (reg_at (pe_candidates sv opt pes id s0 s1 a0 a1).2 j).score)) :
    _bwa_mem_pe sv opt ref pes id s0 s1 a0 a1 out0 out1 =
      pe_no_pairing sv opt ref pes s0 s1 (pe_candidates sv opt pes id s0 s1 a0 a1).1
        (pe_candidates sv opt pes id s0 s1 a0 a1).2 out0 out1
        (pe_rescue sv opt pes s0 s1 a0 a1).1 1 ∧
    (names_differ s0.name s1.name = some false →
      (∀ s p, (sv.mem_reg2aln opt s p).rid < ref.n_contigs) →
      _bwa_mem_pe sv opt ref pes id s0 s1 a0 a1 out0 out1 =
        some ((pe_rescue sv opt pes s0 s1 a0 a1).1,
          (_bwa_reg2_rapi_aln_se sv opt ref out0 s0
            (pe_candidates sv opt pes id s0 s1 a0 a1).1
            (0x41 ||| pe_no_pairing_flag sv opt ref pes s0 s1
              (pe_candidates sv opt pes id s0 s1 a0 a1).1
              (pe_candidates sv opt pes id s0 s1 a0 a1).2 1)).2,
          (_bwa_reg2_rapi_aln_se sv opt ref out1 s1
            (pe_candidates sv opt pes id s0 s1 a0 a1).2
            (0x81 ||| pe_no_pairing_flag sv opt ref pes s0 s1
              (pe_candidates sv opt pes id s0 s1 a0 a1).1
              (pe_candidates sv opt pes id s0 s1 a0 a1).2 1)).2)) := by
  have hm : (is_multi opt (pe_candidates sv opt pes id s0 s1 a0 a1).1 ||
      is_multi opt (pe_candidates sv opt pes id s0 s1 a0 a1).2) = true := by
    rcases hamb with ⟨j, h1, h2, hs, hT⟩ | ⟨j, h1, h2, hs, hT⟩
    · rw [is_multi_of_candidate opt _ j h1 h2 hs hT, Bool.true_or]
    · rw [is_multi_of_candidate opt _ j h1 h2 hs hT, Bool.or_true]
  have hpair : pe_scores_pair sv opt pes id s0 s1 a0 a1 = false := by
    unfold pe_scores_pair
    simp only [hm, Bool.not_true, Bool.and_false]
  have hres := mem_pe_unscored sv opt ref pes id s0 s1 a0 a1 out0 out1 hpair
  refine ⟨hres, ?_⟩
  intro hname hrid
  rw [hres, pe_no_pairing_ok sv opt ref pes s0 s1 _ _ out0 out1 _ 1 hname hrid]

/-- Witness for C31: the first mate has a second primary candidate of score 50, above
`T = 30`; the pair score is 120, yet the first mate ends with two stored alignments. -/
theorem mem_pe_ambiguity_witness :
    (_bwa_mem_pe sample_services sample_opt sample_ref [] 0 sample_seq sample_seq
        [⟨100, 108, 60, 0, 0, -1⟩, ⟨700, 708, 50, 0, 0, -1⟩] [⟨392, 400, 60, 0, 0, -1⟩]
        read_new read_new).map
      (fun r => (r.2.1.alignments.map (fun a => a.pos),
        r.2.2.alignments.map (fun a => a.pos))) = some ([101, 701], [393]) :=
  (congrArg (Option.map (fun (r : Int × rapi_read × rapi_read) =>
      (r.2.1.alignments.map (fun a => a.pos), r.2.2.alignments.map (fun a => a.pos))))
    ((mem_pe_ambiguity sample_services sample_opt sample_ref [] 0 sample_seq sample_seq
      [⟨100, 108, 60, 0, 0, -1⟩, ⟨700, 708, 50, 0, 0, -1⟩] [⟨392, 400, 60, 0, 0, -1⟩]
      read_new read_new
      (Or.inl ⟨1, by decide, by decide, by decide, by decide⟩)).1)).trans (by decide)

/-! ## Conversion errors -/

theorem convert_alns_none (ref : rapi_ref) (is_paired : Int) (l : List mem_aln_t)
    (h : ∃ b ∈ l, ref.n_contigs ≤ b.rid) : convert_alns ref is_paired l = none := by
  induction l with
  | nil =>
    obtain ⟨b, hb, -⟩ := h
    cases hb
  | cons x xs ih =>
    unfold convert_alns
    by_cases hx : x.rid ≥ ref.n_contigs
    · rw [if_pos hx]
    · rw [if_neg hx]
      obtain ⟨b, hb, hbad⟩ := h
      rcases List.mem_cons.mp hb with hbx | hbxs
      · subst hbx
        exact absurd hbad hx
      · rw [ih ⟨b, hbxs, hbad⟩]
        rfl

/-- A list holding a reference id that is not below the number of contigs makes the
conversion return `RAPI_GENERIC_ERROR` and empty the read's alignments. -/
theorem bwa_aln_to_rapi_aln_err (ref : rapi_ref) (our_read : rapi_read) (is_paired : Int)
    (l : List mem_aln_t) (len : Int) (hlen : len = (l.length : Int))
    (h : ∃ b ∈ l, ref.n_contigs ≤ b.rid) :
    _bwa_aln_to_rapi_aln ref our_read is_paired l len =
      (RAPI_GENERIC_ERROR, { our_read with alignments := [], n_alignments := 0 }) := by
  subst hlen
  have hneg : ¬ ((l.length : Int) < 0) := by omega
  simp only [_bwa_aln_to_rapi_aln, hneg, if_false, Int.toNat_ofNat, range_map_getD,
    convert_alns_none ref is_paired l h]

theorem bwa_reg2_rapi_aln_se_err (sv : bwa_services) (opt : mem_opt_t) (ref : rapi_ref)
    (our_read : rapi_read) (seq : bseq1_t) (a : List mem_alnreg_t) (ef : Nat)
    (hbad : ∀ p, ref.n_contigs ≤ (sv.mem_reg2aln opt seq p).rid) :
    (_bwa_reg2_rapi_aln_se sv opt ref our_read seq a ef).1 = RAPI_GENERIC_ERROR := by
  obtain ⟨extra, h1, -, h3⟩ := reg2_se_fold sv opt seq a ef (List.range a.length) []
  simp only [List.nil_append] at h1
  unfold _bwa_reg2_rapi_aln_se
  simp only [h1]
  cases extra with
  | nil =>
    simp only [List.length_nil, beq_self_eq_true, if_true]
    rw [bwa_aln_to_rapi_aln_err ref our_read 0
      [{ sv.mem_reg2aln opt seq none with flag := (sv.mem_reg2aln opt seq none).flag ||| ef }]
      1 (by simp) ⟨_, List.mem_singleton_self _, hbad none⟩]
  | cons q qs =>
    have hne : ((q :: qs).length == 0) = false := by simp
    simp only [hne, Bool.false_eq_true, if_false]
    obtain ⟨p, hp⟩ := h3 q (List.mem_cons_self q qs)
    rw [bwa_aln_to_rapi_aln_err ref our_read 0 _ _ rfl ⟨q, List.mem_cons_self q qs,
      by rw [hp]; exact hbad p⟩]

/-- A conversion error of either mate ends `pe_report_pair` in the fatal error. -/
theorem pe_report_pair_fatal (sv : bwa_services) (opt : mem_opt_t) (ref : rapi_ref)
    (s0 s1 : bseq1_t) (a0 a1 : List mem_alnreg_t) (out0 out1 : rapi_read) (n : Int)
    (z0 z1 q0 q1 : Int) (ef : Nat)
    (h : (_bwa_aln_to_rapi_aln ref out0 1
          [pe_record sv opt s0 (reg_at a0 z0) q0 (0x40 ||| ef)] 1).1 ≠ 0 ∨
        (_bwa_aln_to_rapi_aln ref out1 1
          [pe_record sv opt s1 (reg_at a1 z1) q1 (0x80 ||| ef)] 1).1 ≠ 0) :
    pe_report_pair sv opt ref s0 s1 a0 a1 out0 out1 n z0 z1 q0 q1 ef = none := by
  unfold pe_record at h
  unfold pe_report_pair
  simp only
  rw [if_pos]
  simp only [Bool.or_eq_true, bne_iff_ne]
  exact h

/-- A conversion error of either mate ends the no-pairing path in the fatal error. -/
theorem pe_no_pairing_fatal (sv : bwa_services) (opt : mem_opt_t) (ref : rapi_ref)
    (pes : List mem_pestat_t) (s0 s1 : bseq1_t) (a0 a1 : List mem_alnreg_t)
    (out0 out1 : rapi_read) (n : Int) (ef : Nat)
    (h : (_bwa_reg2_rapi_aln_se sv opt ref out0 s0 a0
          (0x41 ||| pe_no_pairing_flag sv opt ref pes s0 s1 a0 a1 ef)).1 ≠ 0 ∨
        (_bwa_reg2_rapi_aln_se sv opt ref out1 s1 a1
          (0x81 ||| pe_no_pairing_flag sv opt ref pes s0 s1 a0 a1 ef)).1 ≠ 0) :
    pe_no_pairing sv opt ref pes s0 s1 a0 a1 out0 out1 n ef = none := by
  unfold pe_no_pairing
  simp only
  rw [if_pos]
  simp only [Bool.or_eq_true, bne_iff_ne]
  exact h

/-- Claim C33. For every list of aligner results holding one whose reference id is not
below the number of contigs, `_bwa_aln_to_rapi_aln` returns `RAPI_GENERIC_ERROR` and
leaves the read with no alignments and `n_alignments = 0`; for a negative list length it
returns `RAPI_PARAM_ERROR` and the read as it was; inside `_bwa_mem_pe` a conversion
error of either mate ends both reporting paths in the fatal error, so a mate for which
BWA hands back only out-of-range reference ids makes `_bwa_mem_pe` abort. -/
theorem bwa_aln_to_rapi_aln_errors (sv : bwa_services) (opt : mem_opt_t) (ref : rapi_ref)
    (pes : List mem_pestat_t) (id : Int) (s0 s1 : bseq1_t) (a0 a1 : List mem_alnreg_t)
    (out0 out1 our_read : rapi_read) (is_paired : Int) (l : List mem_aln_t) (len : Int) :
    ((∃ b ∈ l, ref.n_contigs ≤ b.rid) →
      _bwa_aln_to_rapi_aln ref our_read is_paired l l.length =
        (RAPI_GENERIC_ERROR, { our_read with alignments := [], n_alignments := 0 })) ∧
    (len < 0 →
      _bwa_aln_to_rapi_aln ref our_read is_paired l len = (RAPI_PARAM_ERROR, our_read)) ∧
    (∀ (b0 b1 : List mem_alnreg_t) (n z0 z1 q0 q1 : Int) (ef : Nat),
      ((_bwa_aln_to_rapi_aln ref out0 1
          [pe_record sv opt s0 (reg_at b0 z0) q0 (0x40 ||| ef)] 1).1 ≠ 0 ∨
        (_bwa_aln_to_rapi_aln ref out1 1
          [pe_record sv opt s1 (reg_at b1 z1) q1 (0x80 ||| ef)] 1).1 ≠ 0) →
      pe_report_pair sv opt ref s0 s1 b0 b1 out0 out1 n z0 z1 q0 q1 ef = none) ∧
    (∀ (b0 b1 : List mem_alnreg_t) (n : Int) (ef : Nat),
      ((_bwa_reg2_rapi_aln_se sv opt ref out0 s0 b0
          (0x41 ||| pe_no_pairing_flag sv opt ref pes s0 s1 b0 b1 ef)).1 ≠ 0 ∨
        (_bwa_reg2_rapi_aln_se sv opt ref out1 s1 b1
          (0x81 ||| pe_no_pairing_flag sv opt ref pes s0 s1 b0 b1 ef)).1 ≠ 0) →
      pe_no_pairing sv opt ref pes s0 s1 b0 b1 out0 out1 n ef = none) ∧
    (((∀ p, ref.n_contigs ≤ (sv.mem_reg2aln opt s0 p).rid) ∨
        (∀ p, ref.n_contigs ≤ (sv.mem_reg2aln opt s1 p).rid)) →
      _bwa_mem_pe sv opt ref pes id s0 s1 a0 a1 out0 out1 = none) := by
  have hgen : RAPI_GENERIC_ERROR ≠ 0 := by decide
  refine ⟨?_, ?_, ?_, ?_, ?_⟩
  · intro h
    exact bwa_aln_to_rapi_aln_err ref our_read is_paired l _ rfl h
  · intro h
    unfold _bwa_aln_to_rapi_aln
    rw [if_pos h]
  · intro b0 b1 n z0 z1 q0 q1 ef h
    exact pe_report_pair_fatal sv opt ref s0 s1 b0 b1 out0 out1 n z0 z1 q0 q1 ef h
  · intro b0 b1 n ef h
    exact pe_no_pairing_fatal sv opt ref pes s0 s1 b0 b1 out0 out1 n ef h
  · intro hbad
    have hrec0 : (∀ p, ref.n_contigs ≤ (sv.mem_reg2aln opt s0 p).rid) →
        ∀ (c : mem_alnreg_t) (q : Int) (flag : Nat),
        (_bwa_aln_to_rapi_aln ref out0 1 [pe_record sv opt s0 c q flag] 1).1 ≠ 0 := by
      intro hb c q flag
      rw [bwa_aln_to_rapi_aln_err ref out0 1 [pe_record sv opt s0 c q flag] 1 (by simp)
        ⟨_, List.mem_singleton_self _, hb (some c)⟩]
      exact hgen
    have hrec1 : (∀ p, ref.n_contigs ≤ (sv.mem_reg2aln opt s1 p).rid) →
        ∀ (c : mem_alnreg_t) (q : Int) (flag : Nat),
        (_bwa_aln_to_rapi_aln ref out1 1 [pe_record sv opt s1 c q flag] 1).1 ≠ 0 := by
      intro hb c q flag
      rw [bwa_aln_to_rapi_aln_err ref out1 1 [pe_record sv opt s1 c q flag] 1 (by simp)
        ⟨_, List.mem_singleton_self _, hb (some c)⟩]
      exact hgen
    have hconv : ∀ (b0 b1 : List mem_alnreg_t) (z0 z1 q0 q1 : Int) (ef : Nat),
        (_bwa_aln_to_rapi_aln ref out0 1
          [pe_record sv opt s0 (reg_at b0 z0) q0 (0x40 ||| ef)] 1).1 ≠ 0 ∨
        (_bwa_aln_to_rapi_aln ref out1 1
          [pe_record sv opt s1 (reg_at b1 z1) q1 (0x80 ||| ef)] 1).1 ≠ 0 := by
      intro b0 b1 z0 z1 q0 q1 ef
      rcases hbad with hb | hb
      · exact Or.inl (hrec0 hb _ _ _)
      · exact Or.inr (hrec1 hb _ _ _)
    cases hpair : pe_scores_pair sv opt pes id s0 s1 a0 a1 with
    | false =>
      rw [mem_pe_unscored sv opt ref pes id s0 s1 a0 a1 out0 out1 hpair]
      apply pe_no_pairing_fatal
      rcases hbad with hb | hb
      · left
        rw [bwa_reg2_rapi_aln_se_err sv opt ref out0 s0 _ _ hb]
        exact hgen
      · right
        rw [bwa_reg2_rapi_aln_se_err sv opt ref out1 s1 _ _ hb]
        exact hgen
    | true =>
      rw [mem_pe_scored sv opt ref pes id s0 s1 a0 a1 out0 out1 hpair]
      split_ifs
      · exact pe_report_pair_fatal sv opt ref s0 s1 _ _ out0 out1 _ _ _ _ _ _
          (hconv _ _ _ _ _ _ _)
      · exact pe_report_pair_fatal sv opt ref s0 s1 _ _ out0 out1 _ _ _ _ _ _
          (hconv _ _ _ _ _ _ _)

/-- Witness for C33: a record with reference id 2 on the two-contig reference empties
the alignments of read `r1`, and the pair `r1` aborts when BWA hands back reference id 5
for every record. -/
theorem bwa_aln_to_rapi_aln_errors_witness :
    _bwa_aln_to_rapi_aln sample_ref read_fwd 0 [{ zero_aln with rid := 2 }] 1 =
      (RAPI_GENERIC_ERROR, { read_fwd with alignments := [], n_alignments := 0 }) ∧
    _bwa_aln_to_rapi_aln sample_ref read_fwd 0 [{ zero_aln with rid := 2 }] (-1) =
      (RAPI_PARAM_ERROR, read_fwd) ∧
    _bwa_mem_pe sample_services_bad sample_opt sample_ref [] 0 sample_seq sample_seq
      [⟨100, 108, 60, 0, 0, -1⟩] [⟨392, 400, 60, 0, 0, -1⟩] read_new read_new = none :=
  ⟨(bwa_aln_to_rapi_aln_errors sample_services_bad sample_opt sample_ref [] 0 sample_seq
      sample_seq [⟨100, 108, 60, 0, 0, -1⟩] [⟨392, 400, 60, 0, 0, -1⟩] read_new read_new
      read_fwd 0 [{ zero_aln with rid := 2 }] (-1)).1
      ⟨{ zero_aln with rid := 2 }, List.mem_singleton_self _, by decide⟩,
   (bwa_aln_to_rapi_aln_errors sample_services_bad sample_opt sample_ref [] 0 sample_seq
      sample_seq [⟨100, 108, 60, 0, 0, -1⟩] [⟨392, 400, 60, 0, 0, -1⟩] read_new read_new
      read_fwd 0 [{ zero_aln with rid := 2 }] (-1)).2.1 (by decide),
   (bwa_aln_to_rapi_aln_errors sample_services_bad sample_opt sample_ref [] 0 sample_seq
      sample_seq [⟨100, 108, 60, 0, 0, -1⟩] [⟨392, 400, 60, 0, 0, -1⟩] read_new read_new
      read_fwd 0 [{ zero_aln with rid := 2 }] (-1)).2.2.2.2
      (Or.inl (by intro p; simp [sample_services_bad, sample_ref]))⟩

/-! ## Converted alignments -/

theorem cigar_repack (w : Nat) : ((w >>> 4) <<< 4) ||| (w &&& 0xf) = w := by
  have h1 : w >>> 4 = w / 16 := by
    rw [Nat.shiftRight_eq_div_pow]
  have h2 : w &&& 0xf = w % 16 := by
    have := Nat.and_pow_two_sub_one_eq_mod w 4
    simpa using this
  have h3 : (w / 16) <<< 4 = 2 ^ 4 * (w / 16) := by
    rw [Nat.shiftLeft_eq, Nat.mul_comm]
  rw [h1, h2, h3, ← Nat.mul_add_lt_is_or (Nat.mod_lt w (by decide)) (w / 16)]
  omega

/-- The fields of the conversion of an aligner result that carries a reference id. -/
theorem convert_aln_mapped (ref : rapi_ref) (is_paired : Int) (b : mem_aln_t)
    (h : 0 ≤ b.rid) :
    (convert_aln ref is_paired b).mapped = true ∧
    (convert_aln ref is_paired b).contig =
      some ⟨b.rid.toNat, ref.contigs.getD b.rid.toNat zero_contig⟩ ∧
    (convert_aln ref is_paired b).pos = ((b.pos + 1) % 2 ^ 64).toNat ∧
    (convert_aln ref is_paired b).reverse_strand = (b.is_rev != 0) ∧
    (convert_aln ref is_paired b).cigar_ops =
      (List.range b.n_cigar).map (fun i =>
        ⟨(b.cigar.getD i 0) &&& 0xf, (b.cigar.getD i 0) >>> 4⟩) ∧
    (convert_aln ref is_paired b).n_cigar_ops = b.n_cigar % 256 := by
  have hge : b.rid ≥ 0 := h
  unfold convert_aln
  simp only [hge, if_true, decide_True]
  by_cases hn : b.n_cigar = 0
  · simp only [hn, ne_eq, not_true_eq_false, if_false, List.range_zero, List.map_nil,
      Nat.zero_mod]
    split_ifs <;> exact ⟨rfl, rfl, rfl, rfl, rfl, rfl⟩
  · have hb : (b.n_cigar != 0) = true := by simp [hn]
    simp only [hb, if_true]
    split_ifs <;> exact ⟨rfl, rfl, rfl, rfl, rfl, rfl⟩

/-- Claim C32 against the code: an aligner result on contig 0 whose packed CIGAR has 256
operations is stored with operation count 0, and a list of 256 results leaves
`n_alignments = 0`, the counts being narrowed to 8 bits without a check. -/
theorem convert_aln_count_wraps :
    bwa_aln_long.n_cigar = 256 ∧ bwa_aln_long.cigar.length = 256 ∧
    0 ≤ bwa_aln_long.rid ∧ bwa_aln_long.rid < sample_ref.n_contigs ∧
    (convert_aln sample_ref 0 bwa_aln_long).n_cigar_ops = 0 ∧
    (_bwa_aln_to_rapi_aln sample_ref read_new 0 (List.replicate 256 bwa_aln_mapped) 256).1 =
      RAPI_NO_ERROR ∧
    (_bwa_aln_to_rapi_aln sample_ref read_new 0 (List.replicate 256 bwa_aln_mapped)
      256).2.n_alignments = 0 := by
  decide

/-- What the conversion stores. For a list of aligner results with reference ids below
the number of contigs, `_bwa_aln_to_rapi_aln` returns `RAPI_NO_ERROR` and stores one
alignment per result; the field `n_alignments` is the length of the list below 256. For
a result with `0 <= rid` the stored alignment is mapped, on contig number `rid`, at the
0-based position plus 1, with strand flag `is_rev`, with one CIGAR operation per packed
word, operation `i` being `(word_i & 0xf, word_i >> 4)` so that `len << 4 | op` is the
word again; the field `n_cigar_ops` is `n_cigar` below 256. For `rid < 0` it is unmapped
without contig or CIGAR. -/
theorem bwa_aln_to_rapi_aln_fields (ref : rapi_ref) (our_read : rapi_read)
    (is_paired : Int) (l : List mem_aln_t) (hall : ∀ b ∈ l, b.rid < ref.n_contigs) :
    _bwa_aln_to_rapi_aln ref our_read is_paired l l.length =
      (RAPI_NO_ERROR, { our_read with alignments := l.map (convert_aln ref is_paired),
                                      n_alignments := l.length % 256 }) ∧
    (l.map (convert_aln ref is_paired)).length = l.length ∧
    (l.length < 256 →
      (_bwa_aln_to_rapi_aln ref our_read is_paired l l.length).2.n_alignments = l.length) ∧
    ∀ b ∈ l,
      (0 ≤ b.rid →
        (convert_aln ref is_paired b).mapped = true ∧
        (convert_aln ref is_paired b).contig =
          some ⟨b.rid.toNat, ref.contigs.getD b.rid.toNat zero_contig⟩ ∧
        (0 ≤ b.pos → b.pos < 2 ^ 63 →
          ((convert_aln ref is_paired b).pos : Int) = b.pos + 1) ∧
        (convert_aln ref is_paired b).reverse_strand = (b.is_rev != 0) ∧
        (convert_aln ref is_paired b).cigar_ops.length = b.n_cigar ∧
        (convert_aln ref is_paired b).n_cigar_ops = b.n_cigar % 256 ∧
        (b.n_cigar < 256 → (convert_aln ref is_paired b).n_cigar_ops = b.n_cigar) ∧
        ∀ i, i < b.n_cigar →
          (cigar_at (convert_aln ref is_paired b).cigar_ops i).op = b.cigar.getD i 0 &&& 0xf ∧
          (cigar_at (convert_aln ref is_paired b).cigar_ops i).len = b.cigar.getD i 0 >>> 4 ∧
          ((cigar_at (convert_aln ref is_paired b).cigar_ops i).len <<< 4) |||
            (cigar_at (convert_aln ref is_paired b).cigar_ops i).op = b.cigar.getD i 0) ∧
      (b.rid < 0 →
        (convert_aln ref is_paired b).mapped = false ∧
        (convert_aln ref is_paired b).contig = none ∧
        (convert_aln ref is_paired b).cigar_ops = [] ∧
        (convert_aln ref is_paired b).n_cigar_ops = 0) := by
  have hres := bwa_aln_to_rapi_aln_ok ref our_read is_paired l _ rfl hall
  refine ⟨hres, List.length_map _ _, ?_, ?_⟩
  · intro hlt
    rw [hres]
    exact Nat.mod_eq_of_lt hlt
  · intro b _
    constructor
    · intro h0
      obtain ⟨m1, m2, m3, m4, m5, m6⟩ := convert_aln_mapped ref is_paired b h0
      refine ⟨m1, m2, ?_, m4, ?_, m6, ?_, ?_⟩
      · intro hp0 hp1
        rw [m3]
        omega
      · rw [m5]
        simp
      · intro hlt
        rw [m6]
        exact Nat.mod_eq_of_lt hlt
      · intro i hi
        have hget : cigar_at (convert_aln ref is_paired b).cigar_ops i =
            ⟨(b.cigar.getD i 0) &&& 0xf, (b.cigar.getD i 0) >>> 4⟩ := by
          rw [m5]
          unfold cigar_at
          rw [List.getD_eq_getElem?_getD, List.getElem?_map, List.getElem?_range hi]
          rfl
        rw [hget]
        exact ⟨rfl, rfl, cigar_repack _⟩
    · intro hneg
      exact convert_aln_unmapped ref is_paired b hneg

/-- One reverse-strand result on contig 0 at 0-based position 100 with packed CIGAR
`2S6M` is stored on `chr1` at position 101 with two operations. -/
theorem bwa_aln_to_rapi_aln_fields_witness :
    (_bwa_aln_to_rapi_aln sample_ref read_new 0 [bwa_aln_mapped] 1).2.n_alignments = 1 ∧
    (convert_aln sample_ref 0 bwa_aln_mapped).contig = some chr1 ∧
    ((convert_aln sample_ref 0 bwa_aln_mapped).pos : Int) = 101 ∧
    (convert_aln sample_ref 0 bwa_aln_mapped).n_cigar_ops = 2 :=
  ⟨(bwa_aln_to_rapi_aln_fields sample_ref read_new 0 [bwa_aln_mapped]
      (by decide)).2.2.1 (by decide),
   (((bwa_aln_to_rapi_aln_fields sample_ref read_new 0 [bwa_aln_mapped]
      (by decide)).2.2.2 bwa_aln_mapped (List.mem_singleton_self _)).1
      (by decide)).2.1.trans (by decide),
   (((bwa_aln_to_rapi_aln_fields sample_ref read_new 0 [bwa_aln_mapped]
      (by decide)).2.2.2 bwa_aln_mapped (List.mem_singleton_self _)).1
      (by decide)).2.2.1 (by decide) (by decide),
   (((bwa_aln_to_rapi_aln_fields sample_ref read_new 0 [bwa_aln_mapped]
      (by decide)).2.2.2 bwa_aln_mapped (List.mem_singleton_self _)).1
      (by decide)).2.2.2.2.2.2.1 (by decide)⟩

/-- The stored alignment of that result: mapped, reverse strand, CIGAR `2S6M`. -/
theorem bwa_aln_to_rapi_aln_fields_sample :
    (convert_aln sample_ref 0 bwa_aln_mapped).mapped = true ∧
    (convert_aln sample_ref 0 bwa_aln_mapped).reverse_strand = true ∧
    rapi_put_cigar (convert_aln sample_ref 0 bwa_aln_mapped).n_cigar_ops
      (convert_aln sample_ref 0 bwa_aln_mapped).cigar_ops false [] = "2S6M".toList := by
  decide

/-- The alignment stored for the result with 256 CIGAR operations is mapped on `chr1`
with operation count 0: its CIGAR is printed as `*`, and `rapi_get_insert_size` against
a mapped mate on `chr1` ends in the fatal error on the empty CIGAR. -/
theorem convert_aln_wrapped_fatal :
    (convert_aln sample_ref 1 bwa_aln_long).mapped = true ∧
    (convert_aln sample_ref 1 bwa_aln_long).cigar_ops.length = 256 ∧
    (convert_aln sample_ref 1 bwa_aln_long).n_cigar_ops = 0 ∧
    rapi_put_cigar (convert_aln sample_ref 1 bwa_aln_long).n_cigar_ops
      (convert_aln sample_ref 1 bwa_aln_long).cigar_ops false [] = ['*'] ∧
    rapi_get_insert_size (convert_aln sample_ref 1 bwa_aln_long) aln_fwd = none := by
  decide

end Rapi
